import Mathlib

/-!
# Arithmetic lowering of the Cider expression compiler (ArithmeticIR.cpp)

The C++ code is a code generator: every function appends instructions to the
basic blocks of the function being built and hands back value handles.  The
embedding keeps that shape.  `CgenState` is the function under construction
together with the builder's insertion point, the lowering routines are state
transformers over it that follow the source line by line, and `runCode`
executes the emitted blocks, so that statements about "the generated code" are
statements about `runCode` applied to the output of the lowering routine.
-/

namespace BDTK

/-! ## Two's complement integers -/

/-- Smallest signed integer of `w` bits. -/
def intMin (w : Nat) : Int := -(2 ^ (w - 1))

/-- Largest signed integer of `w` bits. -/
def intMax (w : Nat) : Int := 2 ^ (w - 1) - 1

/-- The value `x` is representable as a signed integer of `w` bits. -/
def inRange (w : Nat) (x : Int) : Prop := intMin w ≤ x ∧ x ≤ intMax w

instance (w : Nat) (x : Int) : Decidable (inRange w x) := by
  unfold inRange
  exact inferInstance

/-- Reduction of a mathematical integer to its signed `w`-bit representative. -/
def wrap (w : Nat) (x : Int) : Int := (x + 2 ^ (w - 1)) % 2 ^ w - 2 ^ (w - 1)

/-! ## SQL level data model -/

/-- Modelled from the spec: the operand kinds of the Operand Type Descriptor
(integer of four widths, floating of two widths, fixed-point decimal,
time-interval, boolean, string); the enum `SQLTypes` is declared in a header
that is not among the sources. -/
inductive SQLTypes
  | kBOOLEAN | kTINYINT | kSMALLINT | kINT | kBIGINT
  | kFLOAT | kDOUBLE
  | kDECIMAL
  | kINTERVAL_DAY_TIME | kINTERVAL_YEAR_MONTH
  | kTEXT
  deriving DecidableEq, Repr

/-- Type descriptor of an operand: `SQLTypeInfo` with the accessors the
lowering code reads (`get_type`, `get_notnull`, `get_size`, `get_scale`). -/
structure SQLTypeInfo where
  type : SQLTypes
  notnull : Bool
  size : Nat
  scale : Nat
  deriving DecidableEq, Repr

namespace SQLTypeInfo

def is_integer (ti : SQLTypeInfo) : Bool :=
  ti.type == .kTINYINT || ti.type == .kSMALLINT || ti.type == .kINT || ti.type == .kBIGINT

def is_decimal (ti : SQLTypeInfo) : Bool := ti.type == .kDECIMAL

def is_fp (ti : SQLTypeInfo) : Bool := ti.type == .kFLOAT || ti.type == .kDOUBLE

def is_timeinterval (ti : SQLTypeInfo) : Bool :=
  ti.type == .kINTERVAL_DAY_TIME || ti.type == .kINTERVAL_YEAR_MONTH

end SQLTypeInfo

/-- Operator tags of `SQLOps` that the arithmetic lowering looks at. -/
inductive SQLOps
  | kMINUS | kPLUS | kMULTIPLY | kDIVIDE | kMODULO | kUMINUS | kCAST | kOTHER
  deriving DecidableEq, Repr

def IS_ARITHMETIC (o : SQLOps) : Bool :=
  o == .kMINUS || o == .kPLUS || o == .kMULTIPLY || o == .kDIVIDE || o == .kMODULO

namespace Analyzer

/-- Expression tree nodes as far as the lowering code inspects them. -/
inductive Expr
  | ColumnVar (ti : SQLTypeInfo) (table_id : Int)
  | Constant (ti : SQLTypeInfo) (is_null : Bool) (bigintval : Int)
  | UOper (ti : SQLTypeInfo) (optype : SQLOps) (operand : Expr)
  | BinOper (ti : SQLTypeInfo) (optype : SQLOps) (left right : Expr)
  | Other (ti : SQLTypeInfo)
  deriving DecidableEq, Repr

def Expr.get_type_info : Expr → SQLTypeInfo
  | .ColumnVar ti _ => ti
  | .Constant ti _ _ => ti
  | .UOper ti _ _ => ti
  | .BinOper ti _ _ _ => ti
  | .Other ti => ti

/-- A binary operator node, `Analyzer::BinOper`. -/
structure BinOper where
  type_info : SQLTypeInfo
  optype : SQLOps
  left_operand : Expr
  right_operand : Expr
  deriving DecidableEq, Repr

/-- A unary operator node, `Analyzer::UOper`. -/
structure UOper where
  type_info : SQLTypeInfo
  optype : SQLOps
  operand : Expr
  deriving DecidableEq, Repr

end Analyzer

/-- Options of one compilation; only `needs_error_check` is read here. -/
structure CompilationOptions where
  needs_error_check : Bool
  deriving DecidableEq, Repr

/-- Declarations that `ArithmeticIR.cpp` uses and that live outside the
sources: the two global divide-by-zero policy flags and three helper
functions.  They are parameters of the lowering routines. -/
structure Context where
  g_null_div_by_zero : Bool
  g_inf_div_by_zero : Bool
  inline_int_null_val : SQLTypeInfo → Int
  numeric_type_name : SQLTypeInfo → String
  get_null_check_suffix : SQLTypeInfo → SQLTypeInfo → String

/-! ## The emitted intermediate representation -/

/-- The two error sentinels of `Executor` that generated code returns. -/
inductive ErrorCode
  | ERR_DIV_BY_ZERO
  | ERR_OVERFLOW_OR_UNDERFLOW
  deriving DecidableEq, Repr

/-- Types of emitted values: `iN`, `float`, `double`, and the pair
`{iN, i1}` returned by the arithmetic-with-overflow intrinsics. -/
inductive LType
  | int (bits : Nat)
  | float
  | double
  | agg (bits : Nat)
  deriving DecidableEq, Repr

def LType.isIntegerTy : LType → Bool
  | .int _ => true
  | _ => false

def LType.isFloatingPointTy : LType → Bool
  | .float => true
  | .double => true
  | _ => false

/-- Named floating constants used by the lowering code. -/
inductive FPConst
  | NULL_FLOAT | NULL_DOUBLE | INF_FLOAT | INF_DOUBLE | zero
  deriving DecidableEq, Repr

/-- A value handle (`llvm::Value*` that is not null). -/
inductive Operand
  | arg (i : Nat) (ty : LType)
  | reg (r : Nat) (ty : LType)
  | constInt (ty : LType) (v : Int)
  | constFP (ty : LType) (c : FPConst)
  | errCode (e : ErrorCode)
  deriving DecidableEq, Repr

def Operand.getType : Operand → LType
  | .arg _ ty => ty
  | .reg _ ty => ty
  | .constInt ty _ => ty
  | .constFP ty _ => ty
  | .errCode _ => .int 32

inductive BinOp
  | add | sub | mul | sdiv | srem | and | or
  deriving DecidableEq, Repr

inductive FBinOp
  | fadd | fsub | fmul | fdiv | frem
  deriving DecidableEq, Repr

inductive ICmpPred
  | eq | ne | sgt | slt
  deriving DecidableEq, Repr

inductive FCmpPred
  | one | oeq
  deriving DecidableEq, Repr

/-- Identifiers of `llvm::Intrinsic` selected by `getArithWithOverflowIntrinsic`. -/
inductive Intrinsic
  | not_intrinsic | ssub_with_overflow | sadd_with_overflow | smul_with_overflow
  deriving DecidableEq, Repr

/-- Right-hand sides of emitted instructions. -/
inductive Op
  | bin (o : BinOp) (a b : Operand)
  | neg (a : Operand)
  | fbin (o : FBinOp) (a b : Operand)
  | fneg (a : Operand)
  | icmp (p : ICmpPred) (a b : Operand)
  | fcmp (p : FCmpPred) (a b : Operand)
  | select (c a b : Operand)
  | sext (a : Operand) (bits : Nat)
  | intrinsic (id : Intrinsic) (a b : Operand)
  | extractValue (a : Operand) (idx : Nat)
  | call (name : String) (args : List Operand)
  | phi (incoming : List (Operand × Nat))
  deriving DecidableEq, Repr

/-- One emitted instruction: an assignment to a fresh register, a conditional
branch, or a return from the generated function. -/
inductive Instr
  | assign (dst : Nat) (op : Op)
  | condBr (c : Operand) (ifTrue ifFalse : Nat)
  | ret (v : Operand)
  deriving DecidableEq, Repr

structure BasicBlock where
  name : String
  instrs : List Instr
  deriving DecidableEq, Repr

/-- The part of `cgen_state_` the arithmetic lowering touches: the blocks of
`current_func_` (a block is named by its index), the insertion block of
`ir_builder_`, and the supply of register names. -/
structure CgenState where
  blocks : List BasicBlock
  insertPoint : Nat
  nextReg : Nat
  deriving DecidableEq, Repr

/-- A function with an empty entry block, the builder positioned in it. -/
def CgenState.fresh : CgenState :=
  { blocks := [{ name := "entry", instrs := [] }], insertPoint := 0, nextReg := 0 }

/-- Ways a lowering call ends without producing code. -/
inductive CgenError
  | checkFailed (what : String)
  | compileException (msg : String)
  | nullValue
  deriving DecidableEq, Repr

/-- Lowering routines: state transformers over `CgenState` that may abort. -/
abbrev Cgen (α : Type) := StateT CgenState (Except CgenError) α

/-- The macro `CHECK`: a failed check aborts the compilation. -/
def CHECK (what : String) (c : Bool) : Cgen Unit :=
  if c then pure () else throw (.checkFailed what)

/-- A pointer handed to the IR builder must not be null; in C++ a null
`llvm::Value*` there is undefined behaviour, rendered as an abort. -/
def deref (v : Option Operand) : Cgen Operand :=
  match v with
  | some x => pure x
  | none => throw .nullValue

/-- Append instruction `i` to the block with index `n`. -/
def appendInstr (i : Instr) : List BasicBlock → Nat → List BasicBlock
  | [], _ => []
  | bb :: rest, 0 => { bb with instrs := bb.instrs ++ [i] } :: rest
  | bb :: rest, n + 1 => bb :: appendInstr i rest n

/-- Append an assignment at the insertion point and return its register. -/
def emit (op : Op) (ty : LType) : Cgen Operand := fun s =>
  pure (.reg s.nextReg ty,
    { s with blocks := appendInstr (.assign s.nextReg op) s.blocks s.insertPoint,
             nextReg := s.nextReg + 1 })

def emitTerminator (i : Instr) : Cgen Unit := fun s =>
  pure ((), { s with blocks := appendInstr i s.blocks s.insertPoint })

def BasicBlock.Create (name : String) : Cgen Nat := fun s =>
  pure (s.blocks.length, { s with blocks := s.blocks ++ [{ name := name, instrs := [] }] })

def SetInsertPoint (bb : Nat) : Cgen Unit := fun s =>
  pure ((), { s with insertPoint := bb })

def GetInsertBlock : Cgen Nat := fun s => pure (s.insertPoint, s)

def CreateAdd (a b : Operand) : Cgen Operand := emit (.bin .add a b) a.getType
def CreateSub (a b : Operand) : Cgen Operand := emit (.bin .sub a b) a.getType
def CreateMul (a b : Operand) : Cgen Operand := emit (.bin .mul a b) a.getType
def CreateSDiv (a b : Operand) : Cgen Operand := emit (.bin .sdiv a b) a.getType
def CreateSRem (a b : Operand) : Cgen Operand := emit (.bin .srem a b) a.getType
def CreateAnd (a b : Operand) : Cgen Operand := emit (.bin .and a b) a.getType
def CreateOr (a b : Operand) : Cgen Operand := emit (.bin .or a b) a.getType
def CreateNeg (a : Operand) : Cgen Operand := emit (.neg a) a.getType
def CreateFAdd (a b : Operand) : Cgen Operand := emit (.fbin .fadd a b) a.getType
def CreateFSub (a b : Operand) : Cgen Operand := emit (.fbin .fsub a b) a.getType
def CreateFMul (a b : Operand) : Cgen Operand := emit (.fbin .fmul a b) a.getType
def CreateFDiv (a b : Operand) : Cgen Operand := emit (.fbin .fdiv a b) a.getType
def CreateFRem (a b : Operand) : Cgen Operand := emit (.fbin .frem a b) a.getType
def CreateFNeg (a : Operand) : Cgen Operand := emit (.fneg a) a.getType
def CreateICmp (p : ICmpPred) (a b : Operand) : Cgen Operand := emit (.icmp p a b) (.int 1)
def CreateICmpSGT (a b : Operand) : Cgen Operand := CreateICmp .sgt a b
def CreateICmpSLT (a b : Operand) : Cgen Operand := CreateICmp .slt a b
def CreateICmpEQ (a b : Operand) : Cgen Operand := CreateICmp .eq a b
def CreateFCmp (p : FCmpPred) (a b : Operand) : Cgen Operand := emit (.fcmp p a b) (.int 1)
def CreateSelect (c a b : Operand) : Cgen Operand := emit (.select c a b) a.getType
def CreateSExt (a : Operand) (ty : LType) : Cgen Operand :=
  match ty with
  | .int bits => emit (.sext a bits) ty
  | _ => throw (.checkFailed "sext to a non-integer type")
def CreateCondBr (c : Operand) (ifTrue ifFalse : Nat) : Cgen Unit :=
  emitTerminator (.condBr c ifTrue ifFalse)
def CreateRet (v : Operand) : Cgen Unit := emitTerminator (.ret v)

/-- The builder call `CreatePHI` followed by its `addIncoming` calls. -/
def CreatePHI (ty : LType) (incoming : List (Operand × Nat)) : Cgen Operand :=
  emit (.phi incoming) ty

/-- The call `cgen_state_->emitCall(name, args)` of a runtime library function;
`ty` is the return type of the function called. -/
def emitCall (name : String) (args : List Operand) (ty : LType) : Cgen Operand :=
  emit (.call name args) ty

/-- The constant `cgen_state_->llInt(v)` for a 64-bit `v`. -/
def llInt (v : Int) : Operand := .constInt (.int 64) v

/-- The constant `cgen_state_->llInt(Executor::ERR_...)`. -/
def llErr (e : ErrorCode) : Operand := .errCode e

/-! ## Execution of emitted code -/

/-- Run-time values: an integer (by its signed value), an `i1`, the pair
returned by an overflow intrinsic, a floating value (by an uninterpreted bit
pattern), and an error sentinel. -/
inductive RtVal
  | int (v : Int)
  | bool (b : Bool)
  | agg (v : Int) (overflow : Bool)
  | fp (bits : Int)
  | err (e : ErrorCode)
  deriving DecidableEq, Repr

/-- What the generated code links against and what is not interpreted here:
the runtime library functions reached through `emitCall`, and floating point
arithmetic. -/
structure Runtime where
  call : String → List RtVal → Option RtVal
  fbin : FBinOp → Int → Int → Int
  fneg : Int → Int
  fcmp : FCmpPred → Int → Int → Bool
  fconst : FPConst → Int

/-- Register file of the generated function. -/
abbrev Env := Nat → Option RtVal

def Env.set (env : Env) (r : Nat) (v : RtVal) : Env :=
  fun q => if q = r then some v else env q

def evalOperand (rt : Runtime) (args : Nat → Option RtVal) (env : Env) : Operand → Option RtVal
  | .arg i _ => args i
  | .reg r _ => env r
  | .constInt (.int w) v => some (.int (wrap w v))
  | .constInt _ _ => none
  | .constFP _ c => some (.fp (rt.fconst c))
  | .errCode e => some (.err e)

/-- Integer and boolean binary instructions.  Signed division and remainder
have no defined result for a zero divisor or for `intMin / -1`. -/
def evalBin (o : BinOp) (ty : LType) (x y : RtVal) : Option RtVal :=
  match o, ty, x, y with
  | .add, .int w, .int a, .int b => some (.int (wrap w (a + b)))
  | .sub, .int w, .int a, .int b => some (.int (wrap w (a - b)))
  | .mul, .int w, .int a, .int b => some (.int (wrap w (a * b)))
  | .sdiv, .int w, .int a, .int b =>
      if b = 0 ∨ (a = intMin w ∧ b = -1) then none else some (.int (Int.tdiv a b))
  | .srem, .int w, .int a, .int b =>
      if b = 0 ∨ (a = intMin w ∧ b = -1) then none else some (.int (Int.tmod a b))
  | .and, _, .bool a, .bool b => some (.bool (a && b))
  | .or, _, .bool a, .bool b => some (.bool (a || b))
  | _, _, _, _ => none

def evalICmp (p : ICmpPred) (x y : RtVal) : Option RtVal :=
  match x, y with
  | .int a, .int b =>
      some (.bool (match p with
        | .eq => decide (a = b)
        | .ne => decide (a ≠ b)
        | .sgt => decide (a > b)
        | .slt => decide (a < b)))
  | _, _ => none

/-- The intrinsics `llvm.sadd/ssub/smul.with.overflow`: the wrapped result
and whether the exact result is not representable. -/
def evalIntrinsic (id : Intrinsic) (ty : LType) (x y : RtVal) : Option RtVal :=
  match id, ty, x, y with
  | .sadd_with_overflow, .int w, .int a, .int b =>
      some (.agg (wrap w (a + b)) (decide (¬ inRange w (a + b))))
  | .ssub_with_overflow, .int w, .int a, .int b =>
      some (.agg (wrap w (a - b)) (decide (¬ inRange w (a - b))))
  | .smul_with_overflow, .int w, .int a, .int b =>
      some (.agg (wrap w (a * b)) (decide (¬ inRange w (a * b))))
  | _, _, _, _ => none

def evalArgs (rt : Runtime) (args : Nat → Option RtVal) (env : Env) :
    List Operand → Option (List RtVal)
  | [] => some []
  | a :: rest =>
      match evalOperand rt args env a, evalArgs rt args env rest with
      | some v, some vs => some (v :: vs)
      | _, _ => none

def evalPhi (rt : Runtime) (args : Nat → Option RtVal) (env : Env) (pred : Nat) :
    List (Operand × Nat) → Option RtVal
  | [] => none
  | (v, bb) :: rest => if bb = pred then evalOperand rt args env v else evalPhi rt args env pred rest

/-- Value of the right-hand side of an assignment; `pred` is the block control
came from (for `phi`). -/
def evalOp (rt : Runtime) (args : Nat → Option RtVal) (env : Env) (pred : Nat) :
    Op → Option RtVal
  | .bin o a b =>
      match evalOperand rt args env a, evalOperand rt args env b with
      | some x, some y => evalBin o a.getType x y
      | _, _ => none
  | .neg a =>
      match a.getType, evalOperand rt args env a with
      | .int w, some (.int x) => some (.int (wrap w (-x)))
      | _, _ => none
  | .fbin o a b =>
      match evalOperand rt args env a, evalOperand rt args env b with
      | some (.fp x), some (.fp y) => some (.fp (rt.fbin o x y))
      | _, _ => none
  | .fneg a =>
      match evalOperand rt args env a with
      | some (.fp x) => some (.fp (rt.fneg x))
      | _ => none
  | .icmp p a b =>
      match evalOperand rt args env a, evalOperand rt args env b with
      | some x, some y => evalICmp p x y
      | _, _ => none
  | .fcmp p a b =>
      match evalOperand rt args env a, evalOperand rt args env b with
      | some (.fp x), some (.fp y) => some (.bool (rt.fcmp p x y))
      | _, _ => none
  | .select c a b =>
      match evalOperand rt args env c, evalOperand rt args env a, evalOperand rt args env b with
      | some (.bool t), some x, some y => some (if t then x else y)
      | _, _, _ => none
  | .sext a _ =>
      match evalOperand rt args env a with
      | some (.int x) => some (.int x)
      | _ => none
  | .intrinsic id a b =>
      match evalOperand rt args env a, evalOperand rt args env b with
      | some x, some y => evalIntrinsic id a.getType x y
      | _, _ => none
  | .extractValue a idx =>
      match evalOperand rt args env a, idx with
      | some (.agg v _), 0 => some (.int v)
      | some (.agg _ o), 1 => some (.bool o)
      | _, _ => none
  | .call name xs =>
      match evalArgs rt args env xs with
      | some vs => rt.call name vs
      | none => none
  | .phi incoming => evalPhi rt args env pred incoming

/-- How the execution of one block ends. -/
inductive BlockExit
  | jump (target : Nat)
  | ret (v : RtVal)
  | endOfBlock
  deriving DecidableEq, Repr

/-- Execute the instructions of one block in order; `tr` collects the
instructions executed so far. -/
def execInstrs (rt : Runtime) (args : Nat → Option RtVal) (pred : Nat) :
    List Instr → Env → List Instr → Option (BlockExit × Env × List Instr)
  | [], env, tr => some (.endOfBlock, env, tr)
  | .assign d op :: rest, env, tr =>
      match evalOp rt args env pred op with
      | some v => execInstrs rt args pred rest (env.set d v) (tr ++ [.assign d op])
      | none => none
  | .condBr c t f :: _, env, tr =>
      match evalOperand rt args env c with
      | some (.bool b) => some (.jump (if b then t else f), env, tr ++ [.condBr c t f])
      | _ => none
  | .ret v :: _, env, tr =>
      match evalOperand rt args env v with
      | some x => some (.ret x, env, tr ++ [.ret v])
      | none => none

/-- Result of running the generated code: either a `ret` was executed (the
generated function exits with that value), or control reached the end of the
block the builder is positioned in, where code emitted later continues. -/
inductive Outcome
  | returned (v : RtVal) (trace : List Instr)
  | fallthrough (env : Env) (trace : List Instr)

/-- Run the blocks of `prog` from block `cur`, entered from `pred`. -/
def run (rt : Runtime) (args : Nat → Option RtVal) (prog : CgenState) :
    Nat → Nat → Nat → Env → List Instr → Option Outcome
  | 0, _, _, _, _ => none
  | fuel + 1, cur, pred, env, tr =>
      match prog.blocks.get? cur with
      | none => none
      | some bb =>
          match execInstrs rt args pred bb.instrs env tr with
          | none => none
          | some (.jump t, env1, tr1) => run rt args prog fuel t cur env1 tr1
          | some (.ret v, _, tr1) => some (.returned v tr1)
          | some (.endOfBlock, env1, tr1) =>
              if cur = prog.insertPoint then some (.fallthrough env1 tr1) else none

/-- Run the generated code from the entry block on the operand values `args`.
The blocks emitted by one lowering call form a graph without cycles, so one
step per block is enough fuel. -/
def runCode (rt : Runtime) (args : Nat → Option RtVal) (prog : CgenState) : Option Outcome :=
  run rt args prog (prog.blocks.length + 1) 0 0 (fun _ => none) []

/-- The error sentinel the generated code returned, if it returned. -/
def Outcome.returnedError : Outcome → Option ErrorCode
  | .returned (.err e) _ => some e
  | _ => none

/-- The instructions executed. -/
def Outcome.trace : Outcome → List Instr
  | .returned _ tr => tr
  | .fallthrough _ tr => tr

/-- Value of the handle `h` once control has reached the insertion point. -/
def Outcome.value (rt : Runtime) (args : Nat → Option RtVal) (h : Operand) : Outcome → Option RtVal
  | .fallthrough env _ => evalOperand rt args env h
  | .returned _ _ => none

/-- The type `get_int_type(width, context)`. -/
def get_int_type (width : Nat) : LType := .int width

/-! ## Helpers declared outside the sources -/

/-- Modelled from the spec: `inlineIntMaxMin(byte_width, true)` gives "the
operating type's min/max bound", the largest and the smallest signed integer of
`byte_width` bytes, as a pair (max, min) of constants of that width; it is a
member of `CgenState`, declared outside the sources. -/
def inlineIntMaxMin (byte_width : Nat) (_is_signed : Bool) : Operand × Operand :=
  (.constInt (.int (8 * byte_width)) (intMax (8 * byte_width)),
   .constInt (.int (8 * byte_width)) (intMin (8 * byte_width)))

/-- The accessor `getSExtValue` of a constant integer. -/
def getSExtValue : Operand → Int
  | .constInt _ v => v
  | _ => 0

/-- Modelled from the spec: `exp_to_scale(scale)` is the rescale factor
`10^scale`; the function is declared outside the sources. -/
def exp_to_scale (scale : Nat) : Int := 10 ^ scale

/-- The constant `inlineIntNull(ti)`: the integer null sentinel of `ti` as a
constant of the width of `ti`. -/
def inlineIntNull (X : Context) (ti : SQLTypeInfo) : Operand :=
  .constInt (.int (8 * ti.size)) (X.inline_int_null_val ti)

/-- The constant `inlineFpNull(ti)`. -/
def inlineFpNull (ti : SQLTypeInfo) : Operand :=
  if ti.type = .kFLOAT then .constFP .float .NULL_FLOAT else .constFP .double .NULL_DOUBLE

/-- Modelled from the spec: "operations check for the sentinel explicitly";
`codegenIsNullNumber(operand, ti)` compares the operand with the null sentinel
of `ti` (an ordered floating comparison for floating types, an integer equality
otherwise).  The function is defined outside the sources. -/
def codegenIsNullNumber (X : Context) (operand_lv : Operand) (ti : SQLTypeInfo) : Cgen Operand :=
  if ti.is_fp then
    CreateFCmp .oeq operand_lv
      (if ti.type = .kFLOAT then .constFP .float .NULL_FLOAT else .constFP .double .NULL_DOUBLE)
  else
    CreateICmp .eq operand_lv (.constInt operand_lv.getType (X.inline_int_null_val ti))

/-- Conversion `toBool` of an `i8` truth value returned by a runtime function
to `i1`: an `i1` is passed through, any other integer is compared with zero.
The function is defined outside the sources. -/
def toBool (lv : Operand) : Cgen Operand :=
  if lv.getType = .int 1 then pure lv
  else CreateICmp .sgt lv (.constInt lv.getType 0)

/-! ## ArithmeticIR.cpp -/

def numeric_or_time_interval_type_name (X : Context) (ti1 ti2 : SQLTypeInfo) : String :=
  if ti2.is_timeinterval then X.numeric_type_name ti2 else X.numeric_type_name ti1

/-- The selection made by `getArithWithOverflowIntrinsic`; for another operator
the source logs an error and keeps `not_intrinsic`. -/
def getArithWithOverflowIntrinsic (bin_oper : Analyzer.BinOper) : Intrinsic :=
  match bin_oper.optype with
  | .kMINUS => .ssub_with_overflow
  | .kPLUS => .sadd_with_overflow
  | .kMULTIPLY => .smul_with_overflow
  | _ => .not_intrinsic

/-- Result type `{iN, i1}` of an arithmetic-with-overflow intrinsic on `iN`. -/
def overflowResultType : LType → LType
  | .int w => .agg w
  | t => t

/-- The builder call `CreateCall(func, {lhs, rhs})` on an intrinsic. -/
def CreateCall (func : Intrinsic) (ty : LType) (lhs rhs : Operand) : Cgen Operand :=
  emit (.intrinsic func lhs rhs) (overflowResultType ty)

def CreateExtractValue (agg : Operand) (idx : Nat) : Cgen Operand :=
  emit (.extractValue agg idx)
    (match agg.getType, idx with
     | .agg w, 0 => .int w
     | _, _ => .int 1)

def codegenSkipOverflowCheckForNullForArrow (lhs_null rhs_null : Option Operand)
    (no_overflow_bb : Nat) (_ti : SQLTypeInfo) : Cgen Unit := do
  let has_null_operand_lv ←
    match rhs_null with
    | some r => do
        let l ← deref lhs_null
        let v ← CreateOr l r
        pure (some v)
    | none => pure lhs_null
  let operands_not_null ← BasicBlock.Create "operands_not_null"
  let c ← deref has_null_operand_lv
  CreateCondBr c no_overflow_bb operands_not_null
  SetInsertPoint operands_not_null

def codegenSkipOverflowCheckForNull (X : Context) (lhs_lv : Operand) (rhs_lv : Option Operand)
    (no_overflow_bb : Nat) (ti : SQLTypeInfo) : Cgen Unit := do
  let lhs_is_null_lv ← codegenIsNullNumber X lhs_lv ti
  let has_null_operand_lv ←
    match rhs_lv with
    | some r => do
        let rhs_is_null_lv ← codegenIsNullNumber X r ti
        CreateOr lhs_is_null_lv rhs_is_null_lv
    | none => pure lhs_is_null_lv
  let operands_not_null ← BasicBlock.Create "operands_not_null"
  CreateCondBr has_null_operand_lv no_overflow_bb operands_not_null
  SetInsertPoint operands_not_null

def codegenBinOpWithOverflowForCPU (X : Context) (bin_oper : Analyzer.BinOper)
    (lhs_lv rhs_lv : Operand) (null_check_suffix : String) (ti : SQLTypeInfo) :
    Cgen Operand := do
  let check_ok ← BasicBlock.Create "ovf_ok"
  let check_fail ← BasicBlock.Create "ovf_detected"
  let null_check ←
    if null_check_suffix ≠ "" then do
      let bb ← GetInsertBlock
      codegenSkipOverflowCheckForNull X lhs_lv (some rhs_lv) check_ok ti
      pure (some bb)
    else pure none
  -- Compute result and overflow flag
  let func := getArithWithOverflowIntrinsic bin_oper
  let ret_and_overflow ← CreateCall func lhs_lv.getType lhs_lv rhs_lv
  let ret ← CreateExtractValue ret_and_overflow 0
  let overflow ← CreateExtractValue ret_and_overflow 1
  let val_bb ← GetInsertBlock
  -- Return error on overflow
  CreateCondBr overflow check_fail check_ok
  SetInsertPoint check_fail
  CreateRet (llErr .ERR_OVERFLOW_OR_UNDERFLOW)
  SetInsertPoint check_ok
  -- In case of null check we have to use NULL result on check fail
  match null_check with
  | some nc =>
      CreatePHI ret.getType
        [(.constInt ret.getType (X.inline_int_null_val ti), nc), (ret, val_bb)]
  | none => pure ret

/-- Lines 390-425 of `codegenAdd`, everything after the early return, as a
function of the local variables it reads; `need_overflow_check` is the local
of that name.  Nested builder calls are emitted left to right; C++ leaves the
order of argument evaluation open, and since the instructions concerned are
pure, the order changes register names only, not what the code computes. -/
def codegenAddTail (X : Context) (lhs_lv rhs_lv : Operand)
    (null_typename null_check_suffix : String) (ti : SQLTypeInfo)
    (chosen_max chosen_min : Operand) (need_overflow_check : Bool) : Cgen Operand := do
  let blocks ←
    if need_overflow_check then do
      let add_ok ← BasicBlock.Create "add_ok"
      if null_check_suffix ≠ "" then
        codegenSkipOverflowCheckForNull X lhs_lv (some rhs_lv) add_ok ti
      let add_fail ← BasicBlock.Create "add_fail"
      let const_zero := Operand.constInt lhs_lv.getType 0
      let c1 ← CreateICmpSGT lhs_lv const_zero
      let d1 ← CreateSub chosen_max lhs_lv
      let c2 ← CreateICmpSGT rhs_lv d1
      let overflow ← CreateAnd c1 c2
      let c3 ← CreateICmpSLT lhs_lv const_zero
      let d2 ← CreateSub chosen_min lhs_lv
      let c4 ← CreateICmpSLT rhs_lv d2
      let underflow ← CreateAnd c3 c4
      let detected ← CreateOr overflow underflow
      CreateCondBr detected add_fail add_ok
      SetInsertPoint add_ok
      pure (some (add_ok, add_fail))
    else pure none
  let ret ←
    if null_check_suffix = "" then CreateAdd lhs_lv rhs_lv
    else
      emitCall ("add_" ++ null_typename ++ null_check_suffix)
        [lhs_lv, rhs_lv, llInt (X.inline_int_null_val ti)] lhs_lv.getType
  match blocks with
  | some (add_ok, add_fail) => do
      SetInsertPoint add_fail
      CreateRet (llErr .ERR_OVERFLOW_OR_UNDERFLOW)
      SetInsertPoint add_ok
  | none => pure ()
  pure ret

def codegenAdd (X : Context) (bin_oper : Analyzer.BinOper) (lhs_lv rhs_lv : Operand)
    (null_typename null_check_suffix : String) (ti : SQLTypeInfo)
    (co : CompilationOptions) : Cgen Operand := do
  CHECK "lhs_lv->getType() == rhs_lv->getType()" (lhs_lv.getType == rhs_lv.getType)
  CHECK "integer, decimal or time interval" (ti.is_integer || ti.is_decimal || ti.is_timeinterval)
  let (chosen_max, chosen_min) := inlineIntMaxMin ti.size true
  let need_overflow_check := co.needs_error_check
  if need_overflow_check then
    codegenBinOpWithOverflowForCPU X bin_oper lhs_lv rhs_lv null_check_suffix ti
  else
    codegenAddTail X lhs_lv rhs_lv null_typename null_check_suffix ti
      chosen_max chosen_min need_overflow_check

/-- Lines 449-486 of `codegenSub`, everything after the early return. -/
def codegenSubTail (X : Context) (lhs_lv rhs_lv : Operand)
    (null_typename null_check_suffix : String) (ti : SQLTypeInfo)
    (chosen_max chosen_min : Operand) (need_overflow_check : Bool) : Cgen Operand := do
  let blocks ←
    if need_overflow_check then do
      let sub_ok ← BasicBlock.Create "sub_ok"
      if null_check_suffix ≠ "" then
        codegenSkipOverflowCheckForNull X lhs_lv (some rhs_lv) sub_ok ti
      let sub_fail ← BasicBlock.Create "sub_fail"
      let const_zero := Operand.constInt lhs_lv.getType 0
      -- sub going up, check the max
      let c1 ← CreateICmpSLT rhs_lv const_zero
      let d1 ← CreateAdd chosen_max rhs_lv
      let c2 ← CreateICmpSGT lhs_lv d1
      let overflow ← CreateAnd c1 c2
      -- sub going down, check the min
      let c3 ← CreateICmpSGT rhs_lv const_zero
      let d2 ← CreateAdd chosen_min rhs_lv
      let c4 ← CreateICmpSLT lhs_lv d2
      let underflow ← CreateAnd c3 c4
      let detected ← CreateOr overflow underflow
      CreateCondBr detected sub_fail sub_ok
      SetInsertPoint sub_ok
      pure (some (sub_ok, sub_fail))
    else pure none
  let ret ←
    if null_check_suffix = "" then CreateSub lhs_lv rhs_lv
    else
      emitCall ("sub_" ++ null_typename ++ null_check_suffix)
        [lhs_lv, rhs_lv, llInt (X.inline_int_null_val ti)] lhs_lv.getType
  match blocks with
  | some (sub_ok, sub_fail) => do
      SetInsertPoint sub_fail
      CreateRet (llErr .ERR_OVERFLOW_OR_UNDERFLOW)
      SetInsertPoint sub_ok
  | none => pure ()
  pure ret

def codegenSub (X : Context) (bin_oper : Analyzer.BinOper) (lhs_lv rhs_lv : Operand)
    (null_typename null_check_suffix : String) (ti : SQLTypeInfo)
    (co : CompilationOptions) : Cgen Operand := do
  CHECK "lhs_lv->getType() == rhs_lv->getType()" (lhs_lv.getType == rhs_lv.getType)
  CHECK "integer, decimal or time interval" (ti.is_integer || ti.is_decimal || ti.is_timeinterval)
  let (chosen_max, chosen_min) := inlineIntMaxMin ti.size true
  let need_overflow_check := co.needs_error_check
  if need_overflow_check then
    codegenBinOpWithOverflowForCPU X bin_oper lhs_lv rhs_lv null_check_suffix ti
  else
    codegenSubTail X lhs_lv rhs_lv null_typename null_check_suffix ti
      chosen_max chosen_min need_overflow_check

/-- Lines 541-585 of `codegenMul`, everything after the early return. -/
def codegenMulTail (X : Context) (lhs_lv rhs_lv : Operand)
    (null_typename null_check_suffix : String) (ti : SQLTypeInfo)
    (chosen_max chosen_min : Operand) (need_overflow_check : Bool) : Cgen Operand := do
  let blocks ←
    if need_overflow_check then do
      let mul_ok ← BasicBlock.Create "mul_ok"
      if null_check_suffix ≠ "" then
        codegenSkipOverflowCheckForNull X lhs_lv (some rhs_lv) mul_ok ti
      let mul_fail ← BasicBlock.Create "mul_fail"
      let mul_check ← BasicBlock.Create "mul_check"
      let const_zero := Operand.constInt rhs_lv.getType 0
      let rhs_is_zero ← CreateICmpEQ rhs_lv const_zero
      CreateCondBr rhs_is_zero mul_ok mul_check
      SetInsertPoint mul_check
      let rhs_is_negative_lv ← CreateICmpSLT rhs_lv const_zero
      let neg_rhs ← CreateNeg rhs_lv
      let positive_rhs_lv ← CreateSelect rhs_is_negative_lv neg_rhs rhs_lv
      let neg_lhs ← CreateNeg lhs_lv
      let adjusted_lhs_lv ← CreateSelect rhs_is_negative_lv neg_lhs lhs_lv
      -- overflow
      let q1 ← CreateSDiv chosen_max positive_rhs_lv
      let c1 ← CreateICmpSGT adjusted_lhs_lv q1
      -- underflow
      let q2 ← CreateSDiv chosen_min positive_rhs_lv
      let c2 ← CreateICmpSLT adjusted_lhs_lv q2
      let detected ← CreateOr c1 c2
      CreateCondBr detected mul_fail mul_ok
      SetInsertPoint mul_ok
      pure (some (mul_ok, mul_fail))
    else pure none
  let ret ←
    if null_check_suffix = "" then CreateMul lhs_lv rhs_lv
    else
      emitCall ("mul_" ++ null_typename ++ null_check_suffix)
        [lhs_lv, rhs_lv, llInt (X.inline_int_null_val ti)] lhs_lv.getType
  match blocks with
  | some (mul_ok, mul_fail) => do
      SetInsertPoint mul_fail
      CreateRet (llErr .ERR_OVERFLOW_OR_UNDERFLOW)
      SetInsertPoint mul_ok
  | none => pure ()
  pure ret

def codegenMul (X : Context) (bin_oper : Analyzer.BinOper) (lhs_lv rhs_lv : Operand)
    (null_typename null_check_suffix : String) (ti : SQLTypeInfo)
    (co : CompilationOptions) (_downscale : Bool) : Cgen Operand := do
  CHECK "lhs_lv->getType() == rhs_lv->getType()" (lhs_lv.getType == rhs_lv.getType)
  CHECK "integer, decimal or time interval" (ti.is_integer || ti.is_decimal || ti.is_timeinterval)
  let (chosen_max, chosen_min) := inlineIntMaxMin ti.size true
  let need_overflow_check := co.needs_error_check
  if need_overflow_check then
    codegenBinOpWithOverflowForCPU X bin_oper lhs_lv rhs_lv null_check_suffix ti
  else
    codegenMulTail X lhs_lv rhs_lv null_typename null_check_suffix ti
      chosen_max chosen_min need_overflow_check

def codegenDiv (X : Context) (lhs_lv rhs_lv : Operand)
    (null_typename null_check_suffix : String) (ti : SQLTypeInfo)
    (co : CompilationOptions) (upscale : Bool) : Cgen Operand := do
  CHECK "lhs_lv->getType() == rhs_lv->getType()" (lhs_lv.getType == rhs_lv.getType)
  let lhs_lv ←
    if ti.is_decimal && upscale then do
      CHECK "lhs_lv->getType()->isIntegerTy()" lhs_lv.getType.isIntegerTy
      let scale_lv := Operand.constInt lhs_lv.getType (exp_to_scale ti.scale)
      let lhs_lv ← CreateSExt lhs_lv (get_int_type 64)
      let (chosen_max, _chosen_min) := inlineIntMaxMin 8 true
      let decimal_div_ok ← BasicBlock.Create "decimal_div_ok"
      if null_check_suffix ≠ "" then
        codegenSkipOverflowCheckForNull X lhs_lv (some rhs_lv) decimal_div_ok ti
      let decimal_div_fail ← BasicBlock.Create "decimal_div_fail"
      let lhs_max := Int.tdiv (getSExtValue chosen_max) (exp_to_scale ti.scale)
      let lhs_max_lv := Operand.constInt (get_int_type 64) lhs_max
      let detected ←
        if ti.notnull then CreateICmpSGT lhs_lv lhs_max_lv
        else do
          let c ← emitCall ("gt_" ++ X.numeric_type_name ti ++ "_nullable")
            [lhs_lv, lhs_max_lv, llInt (X.inline_int_null_val ti),
             inlineIntNull X { type := .kBOOLEAN, notnull := false, size := 1, scale := 0 }]
            (.int 8)
          toBool c
      CreateCondBr detected decimal_div_fail decimal_div_ok
      SetInsertPoint decimal_div_fail
      CreateRet (llErr .ERR_OVERFLOW_OR_UNDERFLOW)
      SetInsertPoint decimal_div_ok
      if null_typename = "" then CreateMul lhs_lv scale_lv
      else
        emitCall ("mul_" ++ X.numeric_type_name ti ++ null_check_suffix)
          [lhs_lv, scale_lv, llInt (X.inline_int_null_val ti)] lhs_lv.getType
    else pure lhs_lv
  if X.g_inf_div_by_zero && ti.is_fp then
    let inf_lv : Operand :=
      if ti.type = .kFLOAT then .constFP .float .INF_FLOAT else .constFP .double .INF_DOUBLE
    let null_lv : Operand :=
      if ti.type = .kFLOAT then .constFP .float .NULL_FLOAT else .constFP .double .NULL_DOUBLE
    emitCall ("safe_inf_div_" ++ X.numeric_type_name ti) [lhs_lv, rhs_lv, inf_lv, null_lv]
      lhs_lv.getType
  else if X.g_null_div_by_zero then
    let null_lv : Operand :=
      if ti.is_fp then
        (if ti.type = .kFLOAT then .constFP .float .NULL_FLOAT else .constFP .double .NULL_DOUBLE)
      else llInt (X.inline_int_null_val ti)
    emitCall ("safe_div_" ++ X.numeric_type_name ti) [lhs_lv, rhs_lv, null_lv] lhs_lv.getType
  else do
    let blocks ←
      if co.needs_error_check then do
        let div_ok ← BasicBlock.Create "div_ok"
        if null_check_suffix ≠ "" then
          codegenSkipOverflowCheckForNull X lhs_lv (some rhs_lv) div_ok ti
        let div_zero ← BasicBlock.Create "div_zero"
        let zero_const : Operand :=
          if rhs_lv.getType.isIntegerTy then .constInt rhs_lv.getType 0
          else .constFP rhs_lv.getType .zero
        let nonzero ←
          if zero_const.getType.isFloatingPointTy then CreateFCmp .one rhs_lv zero_const
          else CreateICmp .ne rhs_lv zero_const
        CreateCondBr nonzero div_ok div_zero
        SetInsertPoint div_ok
        pure (some (div_ok, div_zero))
      else pure none
    let ret ←
      if rhs_lv.getType.isIntegerTy then
        (if null_typename = "" then CreateSDiv lhs_lv rhs_lv
         else emitCall ("div_" ++ null_typename ++ null_check_suffix)
           [lhs_lv, rhs_lv, llInt (X.inline_int_null_val ti)] lhs_lv.getType)
      else
        (if null_typename = "" then CreateFDiv lhs_lv rhs_lv
         else emitCall ("div_" ++ null_typename ++ null_check_suffix)
           [lhs_lv, rhs_lv,
            if ti.type = .kFLOAT then .constFP .float .NULL_FLOAT
            else .constFP .double .NULL_DOUBLE] lhs_lv.getType)
    match blocks with
    | some (div_ok, div_zero) => do
        SetInsertPoint div_zero
        CreateRet (llErr .ERR_DIV_BY_ZERO)
        SetInsertPoint div_ok
    | none => pure ()
    pure ret

def codegenMod (X : Context) (lhs_lv rhs_lv : Operand)
    (null_typename null_check_suffix : String) (ti : SQLTypeInfo)
    (co : CompilationOptions) : Cgen Operand := do
  CHECK "lhs_lv->getType() == rhs_lv->getType()" (lhs_lv.getType == rhs_lv.getType)
  CHECK "ti.is_integer()" ti.is_integer
  let blocks ←
    if co.needs_error_check then do
      let mod_ok ← BasicBlock.Create "mod_ok"
      let mod_zero ← BasicBlock.Create "mod_zero"
      let zero_const := Operand.constInt rhs_lv.getType 0
      let nonzero ← CreateICmp .ne rhs_lv zero_const
      CreateCondBr nonzero mod_ok mod_zero
      SetInsertPoint mod_ok
      pure (some (mod_ok, mod_zero))
    else pure none
  let ret ←
    if null_typename = "" then CreateSRem lhs_lv rhs_lv
    else
      emitCall ("mod_" ++ null_typename ++ null_check_suffix)
        [lhs_lv, rhs_lv, llInt (X.inline_int_null_val ti)] lhs_lv.getType
  match blocks with
  | some (mod_ok, mod_zero) => do
      SetInsertPoint mod_zero
      CreateRet (llErr .ERR_DIV_BY_ZERO)
      SetInsertPoint mod_ok
  | none => pure ()
  pure ret

/-! ### Legacy entry point -/

/-- One entry of `plan_state_->query_infos_`. -/
structure InputTableInfo where
  table_id : Int
  deriving DecidableEq, Repr

/-- The part of `PlanState` that `checkExpressionRanges` reads. -/
structure PlanState where
  query_infos_ : List InputTableInfo
  deriving DecidableEq, Repr

/-- A handle on the executor; only its presence is looked at. -/
structure Executor where
  id : Nat
  deriving DecidableEq, Repr

/-- Modelled from the spec: the kinds of "a static value-range estimate for the
expression", of which the oracle accepts the integer one only; the enum
`ExpressionRangeType` is declared outside the sources. -/
inductive ExpressionRangeType
  | Invalid | Integer | Float | Double | Null
  deriving DecidableEq, Repr

/-- Modelled from the spec: a value-range estimate with its kind and, for an
integer estimate, its two ends; the class `ExpressionRange` is declared outside
the sources. -/
structure ExpressionRange where
  type : ExpressionRangeType
  int_min : Int
  int_max : Int
  deriving DecidableEq, Repr

def ExpressionRange.getType (r : ExpressionRange) : ExpressionRangeType := r.type

def ExpressionRange.getIntMin (r : ExpressionRange) : Int := r.int_min

def ExpressionRange.getIntMax (r : ExpressionRange) : Int := r.int_max

/-- The estimate `ExpressionRange::makeInvalidRange()`, "no information". -/
def ExpressionRange.makeInvalidRange : ExpressionRange :=
  { type := .Invalid, int_min := 0, int_max := 0 }

/-- Members of the class `CodeGenerator`, and the parser routine, that the
legacy entry points use and that are defined outside the sources.  They are
parameters of the lowering routines. -/
structure CodeGenerator where
  /-- The member `plan_state_` (a pointer, possibly null). -/
  plan_state_ : Option PlanState
  /-- The member `executor_` (a pointer, possibly null). -/
  executor_ : Option Executor
  /-- The dispatcher `codegen(expr, fetch_columns, co).front()`. -/
  codegen : Analyzer.Expr → Bool → CompilationOptions → Cgen Operand
  /-- The routine `codegenCastBetweenIntTypes(operand_lv, operand_ti, ti, upscale)`. -/
  codegenCastBetweenIntTypes : Operand → SQLTypeInfo → SQLTypeInfo → Bool → Cgen Operand
  /-- Default of the parameter `upscale` of `codegenCastBetweenIntTypes`. -/
  cast_upscale : Bool
  /-- Default of the parameter `downscale` of `codegenMul`. -/
  mul_downscale : Bool
  /-- The routine `Parser::IntLiteral::analyzeValue`: the literal node of a value. -/
  analyzeValue : Int → Analyzer.Expr
  /-- The routine `CodeGenerator::codegenIntConst` on a literal node. -/
  codegenIntConst : Analyzer.Expr → Operand

/-- Modelled from the spec: the general path of a decimal division is the
"explicit rescale-then-divide", so the default of the parameter `upscale` of
`codegenDiv`, which is declared in a header outside the sources, is `true`. -/
def codegenDiv_upscale : Bool := true

/-- The cast `dynamic_cast<const Analyzer::Constant*>` with the two accessors
`get_is_null()` and `get_constval().bigintval`. -/
def Analyzer.Expr.asConstant : Analyzer.Expr → Option (Bool × Int)
  | .Constant _ is_null bigintval => some (is_null, bigintval)
  | _ => none

/-- The cast `dynamic_cast<const Analyzer::UOper*>` with the two accessors
`get_optype()` and `get_operand()`. -/
def Analyzer.Expr.asUOper : Analyzer.Expr → Option (SQLOps × Analyzer.Expr)
  | .UOper _ optype operand => some (optype, operand)
  | _ => none

/-- Lines 740-766 of `codegenDeciDiv`: the lowering once one of the two
divisor patterns has been recognised. -/
def codegenDeciDivTail (X : Context) (G : CodeGenerator) (bin_oper : Analyzer.BinOper)
    (co : CompilationOptions) : Cgen Operand := do
  let lhs := bin_oper.left_operand
  let rhs := bin_oper.right_operand
  let lhs_type := lhs.get_type_info
  let rhs_type := rhs.get_type_info
  let lhs_lv ← G.codegen lhs true co
  let rhs_lv ←
    match rhs.asConstant, rhs.asUOper with
    | some (_, bigintval), _ => do
        let rhs_lit := G.analyzeValue (Int.tdiv bigintval (exp_to_scale rhs_type.scale))
        let rhs_lit_lv := G.codegenIntConst rhs_lit
        G.codegenCastBetweenIntTypes rhs_lit_lv rhs_lit.get_type_info lhs_type false
    | none, some (_, rhs_cast_oper) => do
        let rhs_cast_oper_ti := rhs_cast_oper.get_type_info
        let rhs_cast_oper_lv ← G.codegen rhs_cast_oper true co
        G.codegenCastBetweenIntTypes rhs_cast_oper_lv rhs_cast_oper_ti lhs_type false
    | none, none => throw (.checkFailed "false")
  let int_typename := numeric_or_time_interval_type_name X lhs_type rhs_type
  let null_check_suffix := X.get_null_check_suffix lhs_type rhs_type
  codegenDiv X lhs_lv rhs_lv (if null_check_suffix = "" then "" else int_typename)
    null_check_suffix lhs_type co false

/-- The result is `none` for the null pointer the source returns when the
divisor matches neither pattern. -/
def codegenDeciDiv (X : Context) (G : CodeGenerator) (bin_oper : Analyzer.BinOper)
    (co : CompilationOptions) : Cgen (Option Operand) := do
  let lhs := bin_oper.left_operand
  let rhs := bin_oper.right_operand
  let lhs_type := lhs.get_type_info
  let rhs_type := rhs.get_type_info
  CHECK "lhs_type.is_decimal() && rhs_type.is_decimal() && same scale"
    (lhs_type.is_decimal && rhs_type.is_decimal && lhs_type.scale == rhs_type.scale)
  let rhs_constant := rhs.asConstant
  let rhs_cast := rhs.asUOper
  if (match rhs_constant with
      | some (is_null, bigintval) =>
          !is_null && bigintval != 0 &&
            Int.tmod bigintval (exp_to_scale rhs_type.scale) == 0
      | none => false : Bool) then do
    -- can safely downscale a scaled constant
    let ret ← codegenDeciDivTail X G bin_oper co
    pure (some ret)
  else if (match rhs_cast with
      | some (optype, operand) => optype == .kCAST && operand.get_type_info.is_integer
      | none => false : Bool) then do
    -- can skip upscale in the int to dec cast
    let ret ← codegenDeciDivTail X G bin_oper co
    pure (some ret)
  else pure none

def codegenIntArith (X : Context) (G : CodeGenerator) (bin_oper : Analyzer.BinOper)
    (lhs_lv rhs_lv : Operand) (co : CompilationOptions) : Cgen Operand :=
  let lhs := bin_oper.left_operand
  let rhs := bin_oper.right_operand
  let lhs_type := lhs.get_type_info
  let rhs_type := rhs.get_type_info
  let int_typename := numeric_or_time_interval_type_name X lhs_type rhs_type
  let null_check_suffix := X.get_null_check_suffix lhs_type rhs_type
  let oper_type := if rhs_type.is_timeinterval then rhs_type else lhs_type
  let null_typename := if null_check_suffix = "" then "" else int_typename
  match bin_oper.optype with
  | .kMINUS =>
      codegenSub X bin_oper lhs_lv rhs_lv null_typename null_check_suffix oper_type co
  | .kPLUS =>
      codegenAdd X bin_oper lhs_lv rhs_lv null_typename null_check_suffix oper_type co
  | .kMULTIPLY =>
      codegenMul X bin_oper lhs_lv rhs_lv null_typename null_check_suffix oper_type co
        G.mul_downscale
  | .kDIVIDE =>
      codegenDiv X lhs_lv rhs_lv null_typename null_check_suffix oper_type co
        codegenDiv_upscale
  | .kMODULO =>
      codegenMod X lhs_lv rhs_lv null_typename null_check_suffix oper_type co
  | _ => throw (.checkFailed "false")

def codegenFpArith (X : Context) (bin_oper : Analyzer.BinOper)
    (lhs_lv rhs_lv : Operand) (co : CompilationOptions) : Cgen Operand :=
  let lhs := bin_oper.left_operand
  let rhs := bin_oper.right_operand
  let lhs_type := lhs.get_type_info
  let rhs_type := rhs.get_type_info
  let fp_typename := X.numeric_type_name lhs_type
  let null_check_suffix := X.get_null_check_suffix lhs_type rhs_type
  let fp_null : Operand :=
    if lhs_type.type = .kFLOAT then .constFP .float .NULL_FLOAT
    else .constFP .double .NULL_DOUBLE
  match bin_oper.optype with
  | .kMINUS =>
      if null_check_suffix = "" then CreateFSub lhs_lv rhs_lv
      else
        emitCall ("sub_" ++ fp_typename ++ null_check_suffix) [lhs_lv, rhs_lv, fp_null]
          lhs_lv.getType
  | .kPLUS =>
      if null_check_suffix = "" then CreateFAdd lhs_lv rhs_lv
      else
        emitCall ("add_" ++ fp_typename ++ null_check_suffix) [lhs_lv, rhs_lv, fp_null]
          lhs_lv.getType
  | .kMULTIPLY =>
      if null_check_suffix = "" then CreateFMul lhs_lv rhs_lv
      else
        emitCall ("mul_" ++ fp_typename ++ null_check_suffix) [lhs_lv, rhs_lv, fp_null]
          lhs_lv.getType
  | .kDIVIDE =>
      codegenDiv X lhs_lv rhs_lv (if null_check_suffix = "" then "" else fp_typename)
        null_check_suffix lhs_type co codegenDiv_upscale
  | _ => throw (.checkFailed "false")

/-- Lines 62-80 of `codegenArith`: the general lowering, reached when the fast
path of the decimal division was not tried or did not apply. -/
def codegenArithGeneral (X : Context) (G : CodeGenerator) (bin_oper : Analyzer.BinOper)
    (co : CompilationOptions) : Cgen Operand := do
  let lhs := bin_oper.left_operand
  let rhs := bin_oper.right_operand
  let lhs_type := lhs.get_type_info
  let rhs_type := rhs.get_type_info
  let lhs_lv ← G.codegen lhs true co
  let rhs_lv ← G.codegen rhs true co
  -- Handle operations when a time interval operand is involved, an operation
  -- between an integer and a time interval isn't normalized by the analyzer.
  let (lhs_lv, rhs_lv) ←
    if lhs_type.is_timeinterval then do
      let rhs_lv ← G.codegenCastBetweenIntTypes rhs_lv rhs_type lhs_type G.cast_upscale
      pure (lhs_lv, rhs_lv)
    else if rhs_type.is_timeinterval then do
      let lhs_lv ← G.codegenCastBetweenIntTypes lhs_lv lhs_type rhs_type G.cast_upscale
      pure (lhs_lv, rhs_lv)
    else do
      CHECK "lhs_type.get_type() == rhs_type.get_type()" (lhs_type.type == rhs_type.type)
      pure (lhs_lv, rhs_lv)
  if lhs_type.is_integer || lhs_type.is_decimal || lhs_type.is_timeinterval then
    codegenIntArith X G bin_oper lhs_lv rhs_lv co
  else if lhs_type.is_fp then
    codegenFpArith X bin_oper lhs_lv rhs_lv co
  else throw (.checkFailed "false")

def codegenArith (X : Context) (G : CodeGenerator) (bin_oper : Analyzer.BinOper)
    (co : CompilationOptions) : Cgen Operand := do
  let optype := bin_oper.optype
  CHECK "IS_ARITHMETIC(optype)" (IS_ARITHMETIC optype)
  let lhs := bin_oper.left_operand
  let rhs := bin_oper.right_operand
  let lhs_type := lhs.get_type_info
  let rhs_type := rhs.get_type_info
  let ret ←
    if lhs_type.is_decimal && rhs_type.is_decimal && optype == .kDIVIDE then
      codegenDeciDiv X G bin_oper co
    else pure none
  match ret with
  | some v => pure v
  | none => codegenArithGeneral X G bin_oper co

def is_temporary_column (expr : Analyzer.Expr) : Bool :=
  match expr with
  | .ColumnVar _ table_id => decide (table_id < 0)
  | _ => false

/-- The oracle `checkExpressionRanges(bin_oper, min, max)`; the estimator
`getExpressionRange` is defined outside the sources and is a parameter. -/
def checkExpressionRanges (G : CodeGenerator)
    (getExpressionRange : Analyzer.BinOper → List InputTableInfo → Executor → ExpressionRange)
    (bin_oper : Analyzer.BinOper) (min max : Int) : Except CgenError Bool :=
  if is_temporary_column bin_oper.left_operand || is_temporary_column bin_oper.right_operand then
    -- Computing the range for temporary columns is a lot more expensive than the
    -- overflow check.
    pure false
  else if bin_oper.type_info.is_decimal then pure false
  else
    match G.plan_state_ with
    | none => throw (.checkFailed "plan_state_")
    | some plan_state =>
        match G.executor_ with
        | some executor =>
            let expr_range_info :=
              if plan_state.query_infos_.length > 0 then
                getExpressionRange bin_oper plan_state.query_infos_ executor
              else ExpressionRange.makeInvalidRange
            if expr_range_info.getType ≠ .Integer then pure false
            else if expr_range_info.getIntMin ≥ min ∧ expr_range_info.getIntMax ≤ max then
              pure true
            else pure false
        | none => pure false

/-! ### Columnar strategy -/

/-- Modelled from the spec: the Null-Aware Column Value of a fixed-size scalar,
"a pair: a value handle and an optional null-flag handle"; the class
`FixedSizeColValues` is declared outside the sources. -/
structure FixedSizeColValues where
  value : Operand
  null : Option Operand
  deriving DecidableEq, Repr

/-- Modelled from the spec: the closed set of column value representations;
`fixedSize` and `nullable` are the classes derived from `NullableColValues`
(they carry a null flag handle, which may be absent), `other` is any
representation that is not.  The classes are declared outside the sources. -/
inductive CodegenColValues
  | fixedSize (v : FixedSizeColValues)
  | nullable (null : Option Operand)
  | other
  deriving DecidableEq, Repr

/-- The cast `dynamic_cast<FixedSizeColValues*>`. -/
def CodegenColValues.asFixedSize : CodegenColValues → Option FixedSizeColValues
  | .fixedSize v => some v
  | _ => none

/-- The cast `dynamic_cast<NullableColValues*>` followed by `getNull()`; the
outer option is the result of the cast, the inner one the handle. -/
def CodegenColValues.asNullable : CodegenColValues → Option (Option Operand)
  | .fixedSize v => some v.null
  | .nullable n => some n
  | .other => none

def codegenArithWithDivZeroCheckForArrow (bin_oper : Analyzer.BinOper)
    (lhs rhs : FixedSizeColValues) (null_check_suffix : String) (ti : SQLTypeInfo) :
    Cgen Operand := do
  let lhs_lv := lhs.value
  let rhs_lv := rhs.value
  let lhs_null := lhs.null
  let rhs_null := rhs.null
  let div_ok ← BasicBlock.Create "div_ok"
  if null_check_suffix ≠ "" then
    codegenSkipOverflowCheckForNullForArrow lhs_null rhs_null div_ok ti
  let div_zero ← BasicBlock.Create "div_zero"
  let zero_const : Operand :=
    if rhs_lv.getType.isIntegerTy then .constInt rhs_lv.getType 0
    else .constFP rhs_lv.getType .zero
  let nonzero ←
    if zero_const.getType.isFloatingPointTy then CreateFCmp .one rhs_lv zero_const
    else CreateICmp .ne rhs_lv zero_const
  CreateCondBr nonzero div_ok div_zero
  SetInsertPoint div_ok
  let ret ←
    match bin_oper.optype with
    | .kDIVIDE =>
        if lhs_lv.getType.isIntegerTy then CreateSDiv lhs_lv rhs_lv else CreateFDiv lhs_lv rhs_lv
    | .kMODULO =>
        if lhs_lv.getType.isIntegerTy then CreateSRem lhs_lv rhs_lv else CreateFRem lhs_lv rhs_lv
    | _ =>
        throw (.compileException
          "Only support divide and mod in codegenArithWithDivZeroCheckForArrow.")
  SetInsertPoint div_zero
  CreateRet (llErr .ERR_DIV_BY_ZERO)
  SetInsertPoint div_ok
  pure ret

def codegenArithWithOverflowCheckForArrow (X : Context) (bin_oper : Analyzer.BinOper)
    (lhs rhs : FixedSizeColValues) (null_check_suffix : String) (ti : SQLTypeInfo) :
    Cgen Operand := do
  let check_ok ← BasicBlock.Create "ovf_ok"
  let check_fail ← BasicBlock.Create "ovf_detected"
  let lhs_lv := lhs.value
  let rhs_lv := rhs.value
  let lhs_null := lhs.null
  let rhs_null := rhs.null
  let null_check ←
    if null_check_suffix ≠ "" then do
      let bb ← GetInsertBlock
      codegenSkipOverflowCheckForNullForArrow lhs_null rhs_null check_ok ti
      pure (some bb)
    else pure none
  -- Compute result and overflow flag
  let func := getArithWithOverflowIntrinsic bin_oper
  let ret_and_overflow ← CreateCall func lhs_lv.getType lhs_lv rhs_lv
  let ret ← CreateExtractValue ret_and_overflow 0
  let overflow ← CreateExtractValue ret_and_overflow 1
  let val_bb ← GetInsertBlock
  -- Return error on overflow
  CreateCondBr overflow check_fail check_ok
  SetInsertPoint check_fail
  CreateRet (llErr .ERR_OVERFLOW_OR_UNDERFLOW)
  SetInsertPoint check_ok
  match null_check with
  | some nc =>
      CreatePHI ret.getType
        [(.constInt ret.getType (X.inline_int_null_val ti), nc), (ret, val_bb)]
  | none => pure ret

def codegenFixedSizeColArithFun (X : Context) (bin_oper : Analyzer.BinOper)
    (lhs rhs : CodegenColValues) (null : Option Operand) (needs_error_check : Bool) :
    Cgen CodegenColValues := do
  match lhs.asFixedSize, rhs.asFixedSize with
  | some lhs_fixsize, some rhs_fixsize =>
    let lh_value := lhs_fixsize.value
    let rh_value := rhs_fixsize.value
    if !needs_error_check then
      let value ←
        match bin_oper.optype with
        | .kMINUS =>
            if lh_value.getType.isIntegerTy then CreateSub lh_value rh_value
            else CreateFSub lh_value rh_value
        | .kPLUS =>
            if lh_value.getType.isIntegerTy then CreateAdd lh_value rh_value
            else CreateFAdd lh_value rh_value
        | .kMULTIPLY =>
            if lh_value.getType.isIntegerTy then CreateMul lh_value rh_value
            else CreateFMul lh_value rh_value
        | .kDIVIDE =>
            if lh_value.getType.isIntegerTy then CreateSDiv lh_value rh_value
            else CreateFDiv lh_value rh_value
        | .kMODULO =>
            if lh_value.getType.isIntegerTy then CreateSRem lh_value rh_value
            else CreateFRem lh_value rh_value
        | _ => throw (.checkFailed "false")
      pure (.fixedSize { value := value, null := null })
    else
      let lhs_type := bin_oper.left_operand.get_type_info
      let rhs_type := bin_oper.right_operand.get_type_info
      let _int_typename := numeric_or_time_interval_type_name X lhs_type rhs_type
      let null_check_suffix := X.get_null_check_suffix lhs_type rhs_type
      let oper_type := if rhs_type.is_timeinterval then rhs_type else lhs_type
      match bin_oper.optype with
      | .kMINUS | .kPLUS | .kMULTIPLY =>
          -- add overflow check for only INT-like types?
          if lhs_type.is_integer || lhs_type.is_decimal || lhs_type.is_timeinterval then do
            let v ← codegenArithWithOverflowCheckForArrow X bin_oper lhs_fixsize rhs_fixsize
              null_check_suffix oper_type
            pure (.fixedSize { value := v, null := null })
          else do
            CHECK "lhs_type.is_fp()" lhs_type.is_fp
            let value ←
              match bin_oper.optype with
              | .kMINUS => CreateFSub lh_value rh_value
              | .kPLUS => CreateFAdd lh_value rh_value
              | .kMULTIPLY => CreateFMul lh_value rh_value
              | _ => throw (.checkFailed "unreachable")
            pure (.fixedSize { value := value, null := null })
      | .kDIVIDE | .kMODULO => do
          -- add div/mod 0 check
          let v ← codegenArithWithDivZeroCheckForArrow bin_oper lhs_fixsize rhs_fixsize
            null_check_suffix oper_type
          pure (.fixedSize { value := v, null := null })
      | _ => throw (.checkFailed "false")
  | _, _ => throw (.checkFailed "lhs_fixsize && rhs_fixsize")

/-- Lines 107-120 of `codegenArithFun`: the null flag handle of the result,
from the two lowered operands. -/
def codegenArithFunNull (lhs_lv rhs_lv : CodegenColValues) : Cgen (Option Operand) :=
  let lhs_nullable := lhs_lv.asNullable
  let rhs_nullable := rhs_lv.asNullable
  match lhs_nullable, rhs_nullable with
  | some lhs_null, some rhs_null =>
      match lhs_null, rhs_null with
      | some l, some r => do
          let v ← CreateOr l r
          pure (some v)
      | _, _ => pure (if lhs_null.isSome then lhs_null else rhs_null)
  | some lhs_null, none => pure lhs_null
  | none, some rhs_null => pure rhs_null
  | none, none => pure none

def codegenArithFun (X : Context)
    (codegen : Analyzer.Expr → CompilationOptions → Bool → Cgen CodegenColValues)
    (bin_oper : Analyzer.BinOper) (co : CompilationOptions) : Cgen CodegenColValues := do
  let optype := bin_oper.optype
  CHECK "IS_ARITHMETIC(optype)" (IS_ARITHMETIC optype)
  let lhs := bin_oper.left_operand
  let rhs := bin_oper.right_operand
  let lhs_type := lhs.get_type_info
  let rhs_type := rhs.get_type_info
  let lhs_lv ← codegen lhs co true
  let rhs_lv ← codegen rhs co true
  if lhs_type.is_decimal || lhs_type.is_timeinterval then
    throw (.compileException
      "Decimal and TimeInterval are not supported in arithmetic codegen now.")
  CHECK "lhs_type.get_type() == rhs_type.get_type()" (lhs_type.type == rhs_type.type)
  let null ← codegenArithFunNull lhs_lv rhs_lv
  codegenFixedSizeColArithFun X bin_oper lhs_lv rhs_lv null co.needs_error_check

/-! ## Observations used in the statements -/

/-- Operand values handed to the generated code: `Operand.arg i` reads the
`i`-th entry. -/
def argsOf (vs : List RtVal) : Nat → Option RtVal := fun i => vs[i]?

/-- What a run of generated code shows from outside: the generated function
returned `v` (an error exit), or control reached the insertion point and the
result handle holds `v`. -/
inductive Observed
  | returns (v : RtVal)
  | yields (v : RtVal)
  deriving DecidableEq, Repr

/-- Lower with `c` into a fresh function, run the generated code on `args` and
look at the result handle.  `none` when the lowering aborts or the run has no
defined result. -/
def observe (rt : Runtime) (args : Nat → Option RtVal) (c : Cgen Operand) : Option Observed :=
  match c CgenState.fresh with
  | .error _ => none
  | .ok (h, s) =>
      match runCode rt args s with
      | some (.returned v _) => some (.returns v)
      | some (.fallthrough env _) => (evalOperand rt args env h).map .yields
      | none => none

/-- The instructions executed by a run of the code generated by `c`. -/
def executed {α : Type} (rt : Runtime) (args : Nat → Option RtVal) (c : Cgen α) :
    Option (List Instr) :=
  match c CgenState.fresh with
  | .error _ => none
  | .ok (_, s) => (runCode rt args s).map Outcome.trace

/-- An overflow intrinsic is among the instructions `tr`. -/
def evaluatesOverflowPrimitive (tr : List Instr) : Bool :=
  tr.any fun i =>
    match i with
    | .assign _ (.intrinsic _ _ _) => true
    | _ => false

/-- Observation of a column value: an error exit, or the value together with
the value of the null flag when the result carries one. -/
inductive ObservedCol
  | returns (v : RtVal)
  | yields (value : RtVal) (null : Option RtVal)
  deriving DecidableEq, Repr

def observeCol (rt : Runtime) (args : Nat → Option RtVal) (c : Cgen CodegenColValues) :
    Option ObservedCol :=
  match c CgenState.fresh with
  | .ok (.fixedSize cv, s) =>
      match runCode rt args s with
      | some (.returned v _) => some (.returns v)
      | some (.fallthrough env _) =>
          match evalOperand rt args env cv.value, cv.null with
          | some v, none => some (.yields v none)
          | some v, some n => (evalOperand rt args env n).map fun f => .yields v (some f)
          | none, _ => none
      | none => none
  | _ => none

/-- All instructions of a list of blocks. -/
def allInstrs : List BasicBlock → List Instr
  | [] => []
  | bb :: rest => bb.instrs ++ allInstrs rest

/-- The name of a runtime function starts with `stem`. -/
def hasStem (stem name : String) : Bool := stem.data.isPrefixOf name.data

/-- The emitted code calls a runtime function whose name starts with `stem`. -/
def emitsCallWithStem (stem : String) (s : CgenState) : Bool :=
  (allInstrs s.blocks).any fun i =>
    match i with
    | .assign _ (.call name _) => hasStem stem name
    | _ => false

/-- The emitted code has an exit returning the error sentinel `e`. -/
def emitsReturnOf (e : ErrorCode) (s : CgenState) : Bool :=
  (allInstrs s.blocks).any fun i =>
    match i with
    | .ret (.errCode e1) => decide (e1 = e)
    | _ => false

/-- The emitted code divides natively: a signed or floating division
instruction, or the null-propagating `div_` runtime function. -/
def emitsNativeDivision (s : CgenState) : Bool :=
  (allInstrs s.blocks).any fun i =>
    match i with
    | .assign _ (.bin .sdiv _ _) => true
    | .assign _ (.fbin .fdiv _ _) => true
    | .assign _ (.call name _) => hasStem "div_" name
    | _ => false

/-- The right-hand side of the instruction that defines the register `h`. -/
def definingOp (s : CgenState) (h : Operand) : Option Op :=
  match h with
  | .reg r _ =>
      (allInstrs s.blocks).findSome? fun i =>
        match i with
        | .assign d op => if d = r then some op else none
        | _ => none
  | _ => none

/-- The three treatments of a zero divisor in `codegenDiv`: the call mapping
to infinity, the call mapping to null, the branch returning `ERR_DIV_BY_ZERO`. -/
def usesInfinityMapping (s : CgenState) : Bool := emitsCallWithStem "safe_inf_div_" s

def usesNullMapping (s : CgenState) : Bool := emitsCallWithStem "safe_div_" s

def usesZeroCheck (s : CgenState) : Bool := emitsReturnOf .ERR_DIV_BY_ZERO s

/-- Which treatments of a zero divisor the emitted code contains, and whether
it divides natively. -/
structure DivSummary where
  infinityMapping : Bool
  nullMapping : Bool
  zeroCheck : Bool
  nativeDivision : Bool
  deriving DecidableEq, Repr

/-- Summary of the code that `c` emits into a fresh function; `none` when the
lowering aborts. -/
def divSummary (c : Cgen Operand) : Option DivSummary :=
  match c CgenState.fresh with
  | .ok (_, s) =>
      some { infinityMapping := usesInfinityMapping s, nullMapping := usesNullMapping s,
             zeroCheck := usesZeroCheck s, nativeDivision := emitsNativeDivision s }
  | .error _ => none

/-- Number of zero-divisor treatments in a summary. -/
def DivSummary.treatments (d : DivSummary) : Nat :=
  (if d.infinityMapping then 1 else 0) + (if d.nullMapping then 1 else 0)
    + (if d.zeroCheck then 1 else 0)

/-- The runtime function whose call defines the result handle of `c`, if the
result is defined by a call. -/
def resultCall (c : Cgen Operand) : Option String :=
  match c CgenState.fresh with
  | .ok (h, s) =>
      match definingOp s h with
      | some (.call name _) => some name
      | _ => none
  | .error _ => none

/-- The exact (unbounded) result of the three overflow-checked operators. -/
def exactResult : SQLOps → Int → Int → Int
  | .kPLUS, a, b => a + b
  | .kMINUS, a, b => a - b
  | .kMULTIPLY, a, b => a * b
  | _, _, _ => 0

/-- The overflow bit the intrinsic `id` reports on `w`-bit operands. -/
def overflowFlag (id : Intrinsic) (w : Nat) (a b : Int) : Bool :=
  match evalIntrinsic id (.int w) (.int a) (.int b) with
  | some (.agg _ o) => o
  | _ => false

/-- A context for closed examples: no divide-by-zero mapping, the null sentinel
of a type is the smallest integer of its width, `intN_t`-style type names, and
the null-check suffix is empty exactly for two NOT NULL types. -/
def exampleContext : Context where
  g_null_div_by_zero := false
  g_inf_div_by_zero := false
  inline_int_null_val := fun ti => intMin (8 * ti.size)
  numeric_type_name := fun ti => if ti.is_fp then "double" else "int64_t"
  get_null_check_suffix := fun l r => if l.notnull && r.notnull then "" else "_nullable"

/-- A runtime for closed examples: no library function is linked and floating
point is not interpreted. -/
def exampleRuntime : Runtime where
  call := fun _ _ => none
  fbin := fun _ _ _ => 0
  fneg := fun x => x
  fcmp := fun _ _ _ => false
  fconst := fun _ => 0

/-- A NOT NULL integer type of `size` bytes. -/
def intType (size : Nat) (notnull : Bool) : SQLTypeInfo :=
  { type := if size = 1 then .kTINYINT else if size = 2 then .kSMALLINT
            else if size = 4 then .kINT else .kBIGINT,
    notnull := notnull, size := size, scale := 0 }

/-- A binary node over a column of type `lhs_ti` and a column of type `rhs_ti`. -/
def binOperOf (o : SQLOps) (lhs_ti rhs_ti : SQLTypeInfo) : Analyzer.BinOper :=
  { type_info := lhs_ti, optype := o, left_operand := .ColumnVar lhs_ti 1,
    right_operand := .ColumnVar rhs_ti 2 }

/-- The null flag handle a lowered operand carries, if it is a nullable column
value and has one. -/
def CodegenColValues.getNull (cv : CodegenColValues) : Option Operand :=
  match cv.asNullable with
  | some n => n
  | none => none

/-- The null flag handle of an operand: argument `i` of the generated code when
the flag is present, no handle otherwise. -/
def flagHandle (present : Bool) (i : Nat) : Option Operand :=
  if present then some (.arg i (.int 1)) else none

/-- The error with which lowering into a fresh function aborts, if it does. -/
def loweringError {α : Type} (c : Cgen α) : Option CgenError :=
  match c CgenState.fresh with
  | .error e => some e
  | .ok _ => none

/-- The value handle of a lowered fixed-size column value. -/
def valueOf (c : Cgen CodegenColValues) : Cgen Operand := do
  let cv ← c
  match cv.asFixedSize with
  | some v => pure v.value
  | none => throw (.checkFailed "not a fixed-size column value")

/-- A dispatcher for operands that are already lowered: the expression `lhs`
is handed `lcv`, every other expression `rcv`, and nothing is emitted. -/
def loweredOperands (lhs : Analyzer.Expr) (lcv rcv : CodegenColValues) :
    Analyzer.Expr → CompilationOptions → Bool → Cgen CodegenColValues :=
  fun e _ _ => pure (if e = lhs then lcv else rcv)

/-! ## Observations on the legacy entry point and the oracle -/

/-- A decimal type backed by a 64-bit integer, with `scale` fractional digits. -/
def decimalType (scale : Nat) (notnull : Bool) : SQLTypeInfo :=
  { type := .kDECIMAL, notnull := notnull, size := 8, scale := scale }

/-- A decimal division node over the column of table 1 as dividend and the
expression `rhs` as divisor, both of the decimal type with `scale` digits. -/
def decimalDivision (scale : Nat) (rhs : Analyzer.Expr) : Analyzer.BinOper :=
  { type_info := decimalType scale true, optype := .kDIVIDE,
    left_operand := .ColumnVar (decimalType scale true) 1, right_operand := rhs }

/-- The type of a day-time interval, backed by a 64-bit integer. -/
def intervalType (notnull : Bool) : SQLTypeInfo :=
  { type := .kINTERVAL_DAY_TIME, notnull := notnull, size := 8, scale := 0 }

/-- Divisor pattern (a) in the words of the spec: "a compile-time constant that
is itself an exact multiple of 10^scale", not null and not zero. -/
def isScaledConstant (scale : Nat) : Analyzer.Expr → Prop
  | .Constant _ is_null bigintval =>
      is_null = false ∧ bigintval ≠ 0 ∧ (10 : Int) ^ scale ∣ bigintval
  | _ => False

/-- Divisor pattern (b) in the words of the spec: "an expression that is a cast
from a plain integer up to the decimal's representation". -/
def isCastFromInteger : Analyzer.Expr → Prop
  | .UOper _ optype operand => optype = .kCAST ∧ operand.get_type_info.is_integer = true
  | _ => False

/-- The lowering `c`, started in state `s`, hands back the null pointer and has
emitted nothing: the fast path is not applicable. -/
def notApplicable (c : Cgen (Option Operand)) (s : CgenState) : Prop :=
  c s = .ok (none, s)

/-- The precondition that `codegenDeciDiv` asserts on entry. -/
def deciDivPrecondition (bin_oper : Analyzer.BinOper) : Prop :=
  bin_oper.left_operand.get_type_info.is_decimal = true ∧
  bin_oper.right_operand.get_type_info.is_decimal = true ∧
  bin_oper.left_operand.get_type_info.scale = bin_oper.right_operand.get_type_info.scale

/-- A temporary column in the words of the spec: a column reference with a
negative table id. -/
def isTemporaryColumn (e : Analyzer.Expr) : Prop :=
  ∃ ti table_id, e = .ColumnVar ti table_id ∧ table_id < 0

/-- The estimate the oracle reads: the answer of the estimator, or the invalid
range when no query information is available. -/
def estimatedRange
    (getExpressionRange : Analyzer.BinOper → List InputTableInfo → Executor → ExpressionRange)
    (bin_oper : Analyzer.BinOper) (plan_state : PlanState) (executor : Executor) :
    ExpressionRange :=
  if plan_state.query_infos_ = [] then ExpressionRange.makeInvalidRange
  else getExpressionRange bin_oper plan_state.query_infos_ executor

/-- What a lowering emits to detect overflow: whether an overflow primitive is
among the emitted instructions, and whether there is an exit returning
`ERR_OVERFLOW_OR_UNDERFLOW`.  `none` when the lowering aborts. -/
def overflowInstrumentation {α : Type} (c : Cgen α) : Option (Bool × Bool) :=
  match c CgenState.fresh with
  | .ok (_, s) =>
      some (evaluatesOverflowPrimitive (allInstrs s.blocks),
            emitsReturnOf .ERR_OVERFLOW_OR_UNDERFLOW s)
  | .error _ => none

/-- An estimator for closed examples: every expression lies in `[0, 10]`. -/
def exampleRange : Analyzer.BinOper → List InputTableInfo → Executor → ExpressionRange :=
  fun _ _ _ => { type := .Integer, int_min := 0, int_max := 10 }

/-- Members of the code generator for closed examples: the column of table `i`
is argument `i - 1` of the generated code, a constant is lowered to a constant
of its width, every example operand is 64 bits wide so that a cast between
integer types hands back its operand, and a literal is a 64-bit constant node. -/
def exampleCodeGenerator : CodeGenerator where
  plan_state_ := some { query_infos_ := [{ table_id := 1 }] }
  executor_ := some { id := 0 }
  codegen := fun e _ _ =>
    match e with
    | .ColumnVar ti table_id => pure (.arg (table_id - 1).toNat (.int (8 * ti.size)))
    | .Constant ti _ v => pure (.constInt (.int (8 * ti.size)) v)
    | _ => throw (.checkFailed "no lowering in the example")
  codegenCastBetweenIntTypes := fun v _ _ _ => pure v
  cast_upscale := true
  mul_downscale := true
  analyzeValue := fun v => .Constant (intType 8 true) false v
  codegenIntConst := fun e =>
    match e with
    | .Constant ti _ v => .constInt (.int (8 * ti.size)) v
    | _ => .constInt (.int 64) 0

/-- Lower the two operands of `bin_oper` with the dispatcher of `G`, left one
first, and continue with `k` on the two value handles. -/
def withOperands (G : CodeGenerator) (bin_oper : Analyzer.BinOper) (co : CompilationOptions)
    (k : Operand → Operand → Cgen Operand) : Cgen Operand := do
  let lhs_lv ← G.codegen bin_oper.left_operand true co
  let rhs_lv ← G.codegen bin_oper.right_operand true co
  k lhs_lv rhs_lv

/-- The lowering `c`, started in state `s`, aborts and produces no value. -/
def abortsFrom {α : Type} (c : Cgen α) (s : CgenState) : Prop :=
  ∃ e, c s = .error e

/-! ## ArithmeticIR.cpp: unary minus -/

def codegenUMinus (X : Context) (G : CodeGenerator) (uoper : Analyzer.UOper)
    (co : CompilationOptions) : Cgen Operand := do
  CHECK "uoper->get_optype() == kUMINUS" (uoper.optype == .kUMINUS)
  let operand_lv ← G.codegen uoper.operand true co
  let ti := uoper.type_info
  let need_overflow_check := co.needs_error_check
  -- chosen_max and chosen_min stay null pointers for the other types
  let chosen : Option (Operand × Operand) :=
    if ti.is_integer || ti.is_decimal || ti.is_timeinterval then
      some (inlineIntMaxMin ti.size true)
    else none
  let blocks ←
    if need_overflow_check then do
      let uminus_ok ← BasicBlock.Create "uminus_ok"
      if !ti.notnull then
        codegenSkipOverflowCheckForNull X operand_lv none uminus_ok ti
      let uminus_fail ← BasicBlock.Create "uminus_fail"
      let chosen_min ← deref (chosen.map fun p => p.2)
      let const_min := Operand.constInt operand_lv.getType (getSExtValue chosen_min)
      let overflow ← CreateICmpEQ operand_lv const_min
      CreateCondBr overflow uminus_fail uminus_ok
      SetInsertPoint uminus_ok
      pure (some (uminus_ok, uminus_fail))
    else pure none
  let ret ←
    if ti.notnull then
      (if ti.is_fp then CreateFNeg operand_lv else CreateNeg operand_lv)
    else
      emitCall ("uminus_" ++ X.numeric_type_name ti ++ "_nullable")
        [operand_lv, if ti.is_fp then inlineFpNull ti else inlineIntNull X ti]
        operand_lv.getType
  match blocks with
  | some (uminus_ok, uminus_fail) => do
      SetInsertPoint uminus_fail
      CreateRet (llErr .ERR_OVERFLOW_OR_UNDERFLOW)
      SetInsertPoint uminus_ok
  | none => pure ()
  pure ret

def codegenUMinusFun
    (codegen : Analyzer.Expr → CompilationOptions → Bool → Cgen CodegenColValues)
    (uoper : Analyzer.UOper) (co : CompilationOptions) : Cgen CodegenColValues := do
  CHECK "uoper->get_optype() == kUMINUS" (uoper.optype == .kUMINUS)
  -- TODO: Overflow check.
  let operand_lv ← codegen uoper.operand co true
  let ti := uoper.type_info
  match operand_lv.asFixedSize with
  | none => throw (.checkFailed "fixedsize_lv")
  | some fixedsize_lv =>
      let result ←
        if ti.is_fp then CreateFNeg fixedsize_lv.value else CreateNeg fixedsize_lv.value
      pure (.fixedSize { value := result, null := fixedsize_lv.null })

/-- A unary minus node over a column of type `ti`. -/
def uminusOf (ti : SQLTypeInfo) : Analyzer.UOper :=
  { type_info := ti, optype := .kUMINUS, operand := .ColumnVar ti 1 }

/-- A floating-point type of 8 bytes. -/
def doubleType (notnull : Bool) : SQLTypeInfo :=
  { type := .kDOUBLE, notnull := notnull, size := 8, scale := 0 }

/-- The emitted code compares with an integer constant: an `icmp` one of whose
operands is a constant integer. -/
def comparesWithIntegerConstant (s : CgenState) : Bool :=
  (allInstrs s.blocks).any fun i =>
    match i with
    | .assign _ (.icmp _ _ (.constInt _ _)) => true
    | .assign _ (.icmp _ (.constInt _ _) _) => true
    | _ => false

/-- What the lowering of a unary minus emits to detect overflow: whether there
is a comparison with an integer constant, and whether there is an exit
returning `ERR_OVERFLOW_OR_UNDERFLOW`.  `none` when the lowering aborts. -/
def uminusInstrumentation {α : Type} (c : Cgen α) : Option (Bool × Bool) :=
  match c CgenState.fresh with
  | .ok (_, s) =>
      some (comparesWithIntegerConstant s, emitsReturnOf .ERR_OVERFLOW_OR_UNDERFLOW s)
  | .error _ => none

/-! ## Observations on division, modulo and floating arithmetic -/

/-- The native instruction of a columnar divide or modulo on integers. -/
def divModOp : SQLOps → BinOp
  | .kMODULO => .srem
  | _ => .sdiv

/-- The exact result of the native signed division or remainder. -/
def divModResult : SQLOps → Int → Int → Int
  | .kMODULO, a, b => Int.tmod a b
  | _, a, b => Int.tdiv a b

/-- The native instruction of a columnar divide or modulo on floating values. -/
def fdivModOp : SQLOps → FBinOp
  | .kMODULO => .frem
  | _ => .fdiv

/-- The native floating instruction of an add, subtract or multiply. -/
def fpArithOp : SQLOps → FBinOp
  | .kMINUS => .fsub
  | .kMULTIPLY => .fmul
  | _ => .fadd

/-- A runtime for closed examples on a null operand: every library function
hands back its last argument, which the null-suffixed functions receive as the
null sentinel of the type; floating point is not interpreted. -/
def nullPropagatingRuntime : Runtime where
  call := fun _ args => args.getLast?
  fbin := fun _ _ _ => 0
  fneg := fun x => x
  fcmp := fun _ _ _ => false
  fconst := fun _ => 0

/-- The members of `exampleCodeGenerator`, with a dispatcher that lowers every
expression to argument 0 of the generated code as a `double`. -/
def exampleFpCodeGenerator : CodeGenerator :=
  { exampleCodeGenerator with codegen := fun _ _ _ => pure (.arg 0 .double) }

/-! ## CiderBatchStringifier.cpp -/

/-- Ways `stringifyValueAt` ends without a string: the exception it throws, a
failed `CHECK`, the exceptions `std::invalid_argument` and `std::out_of_range`
of the standard library, and a read outside a buffer (undefined in C++). -/
inductive StringifyError
  | runtimeException (msg : String)
  | checkFailed (what : String)
  | invalidArgument
  | outOfRange
  | outOfBounds
  deriving DecidableEq, Repr

/-- Declarations the stringifiers use and that live outside the sources: the
macro `NULL_VALUE`, the bit test of `CiderBitUtils`, the two helpers of
`CiderInt128Utils`, the class `ConcatenatedRow`, and the rendering of a
floating value by `fps << std::setprecision(16) << value` (floating values
are kept as uninterpreted bit patterns). -/
structure StringifierEnv where
  NULL_VALUE : String
  isBitSetAt : List Nat → Int → Bool
  Int128ToString : Int → String
  Decimal128ToDouble : Int → Nat → Nat → Int
  floatToString : Int → String
  doubleToString : Int → String
  concatenatedRow : List String → String

mutual
/-- Modelled from the spec: a batch is "typed buffer pointers, a null bitmap
(bit-per-row, 1 = valid), and for variable-length types, an offset buffer";
the classes `CiderBatch`, `ScalarBatch<T>` and `VarcharBatch` are declared
outside the sources.  An integer scalar batch records the byte width of `T`, a
decimal batch its Arrow format string, a struct batch its children. -/
inductive CiderBatch
  | scalarInt (bytes : Nat) (nulls : Option (List Nat)) (rawData : List Int)
  | scalarFloat (nulls : Option (List Nat)) (rawData : List Int)
  | scalarDouble (nulls : Option (List Nat)) (rawData : List Int)
  | scalarBool (nulls : Option (List Nat)) (rawData : List Nat)
  | decimal (arrowFormatString : String) (nulls : Option (List Nat)) (rawData : List Int)
  | varchar (nulls : Option (List Nat)) (rawOffset : List Int) (rawData : List Char)
  | struct (nulls : Option (List Nat)) (children : CiderBatchList)
/-- The children of a struct batch. -/
inductive CiderBatchList
  | nil
  | cons (head : CiderBatch) (tail : CiderBatchList)
end

/-- The accessor `getNulls()`: the validity bitmap, if the batch has one. -/
def CiderBatch.getNulls : CiderBatch → Option (List Nat)
  | .scalarInt _ nulls _ => nulls
  | .scalarFloat nulls _ => nulls
  | .scalarDouble nulls _ => nulls
  | .scalarBool nulls _ => nulls
  | .decimal _ nulls _ => nulls
  | .varchar nulls _ _ => nulls
  | .struct nulls _ => nulls

/-- The children `getChildAt(0)`, ..., `getChildAt(getChildrenNum() - 1)`; a
batch that is not a struct has none. -/
def CiderBatch.getChildren : CiderBatch → CiderBatchList
  | .struct _ children => children
  | _ => .nil

def CiderBatchList.length : CiderBatchList → Nat
  | .nil => 0
  | .cons _ tail => tail.length + 1

/-- The element `buffer[index]` of a raw buffer. -/
def bufferAt {α : Type} (buffer : List α) (index : Int) : Except StringifyError α :=
  if index < 0 then .error .outOfBounds
  else
    match buffer[index.toNat]? with
    | some v => .ok v
    | none => .error .outOfBounds

/-- The value `std::string::npos`, the largest `size_t`. -/
def npos : Nat := 2 ^ 64 - 1

/-- The position `type_str.find(c)`: the index of the first `c`, and `npos`
when `c` does not occur. -/
def findChar (s : List Char) (c : Char) : Nat :=
  if (s.takeWhile fun x => x ≠ c).length < s.length then (s.takeWhile fun x => x ≠ c).length
  else npos

/-- The call `s.substr(pos, count)`: the characters from `pos` on, at most
`count` of them; `std::out_of_range` when `pos` is past the end. -/
def substr (s : List Char) (pos count : Nat) : Except StringifyError (List Char) :=
  if pos > s.length then .error .outOfRange else .ok ((s.drop pos).take count)

/-- The characters `std::isspace` accepts: the blank and the control
characters 9 to 13. -/
def isspace (c : Char) : Bool := c.toNat = 32 || (9 ≤ c.toNat && c.toNat ≤ 13)

/-- The call `std::stoi(s)`: skip white space, read an optional sign and the
decimal digits that follow; `std::invalid_argument` when there is no digit,
`std::out_of_range` when the number is not an `int`. -/
def stoi (s : List Char) : Except StringifyError Int :=
  let body := s.dropWhile isspace
  let negative : Bool := body.head? == some '-'
  let unsigned := if body.head? = some '-' ∨ body.head? = some '+' then body.tail else body
  let digits := unsigned.takeWhile Char.isDigit
  if digits = [] then .error .invalidArgument
  else
    let n : Int := digits.foldl (fun acc c => 10 * acc + ((c.toNat - 48 : Nat) : Int)) 0
    let v := if negative then -n else n
    if v < -(2 ^ 31) ∨ v > 2 ^ 31 - 1 then .error .outOfRange else .ok v

/-- The member `getScale`: the number after the comma of the format string,
converted to `uint8_t`.  Positions are `size_t` values, so `npos + 1` is 0. -/
def getScale (arrowFormatString : String) : Except StringifyError Nat := do
  let type_str := arrowFormatString.data
  let text ← substr type_str ((findChar type_str ',' + 1) % 2 ^ 64) npos
  let scale ← stoi text
  pure (scale % 256).toNat

/-- The member `getPrecision`: the number between the colon and the comma of
the format string, converted to `uint8_t`.  The length `end - start` is a
`size_t` difference. -/
def getPrecision (arrowFormatString : String) : Except StringifyError Nat := do
  let type_str := arrowFormatString.data
  let start := (findChar type_str ':' + 1) % 2 ^ 64
  let end_ := findChar type_str ','
  let text ← substr type_str start ((end_ + 2 ^ 64 - start) % 2 ^ 64)
  let precision ← stoi text
  pure (precision % 256).toNat

mutual
/-- The stringifier classes: `ScalarBatchStringifier<T>` for an integer `T` of
`bytes` bytes and its three specialisations, `DecimalBatchStringifier`,
`VarcharBatchStringifier`, and `StructBatchStringifier` with its
`child_stringifiers_`. -/
inductive Stringifier
  | scalarInt (bytes : Nat)
  | scalarFloat
  | scalarDouble
  | scalarBool
  | decimal
  | varchar
  | struct (child_stringifiers_ : StringifierList)
/-- The member `child_stringifiers_`. -/
inductive StringifierList
  | nil
  | cons (head : Stringifier) (tail : StringifierList)
end

def StringifierList.size : StringifierList → Nat
  | .nil => 0
  | .cons _ tail => tail.size + 1

mutual
/-- The virtual member `stringifyValueAt(batch, row_index)` of the stringifier
classes.  A cast `batch->as<...>()` to another batch class gives a null
pointer, on which the function throws. -/
def stringifyValueAt (E : StringifierEnv) :
    Stringifier → CiderBatch → Int → Except StringifyError String
  | .scalarInt bytes, batch, row_index =>
      match batch with
      | .scalarInt bytes1 valid_bitmap data_buffer =>
          if bytes1 ≠ bytes then
            .error (.runtimeException "ScalarBatch is nullptr, maybe check your casting?")
          else if (match valid_bitmap with
              | some bitmap => !E.isBitSetAt bitmap row_index
              | none => false : Bool) then
            pure E.NULL_VALUE
          else do
            let value ← bufferAt data_buffer row_index
            pure (toString value)
      | _ => .error (.runtimeException "ScalarBatch is nullptr, maybe check your casting?")
  | .scalarFloat, batch, row_index =>
      match batch with
      | .scalarFloat valid_bitmap data_buffer =>
          if (match valid_bitmap with
              | some bitmap => !E.isBitSetAt bitmap row_index
              | none => false : Bool) then
            pure E.NULL_VALUE
          else do
            let value ← bufferAt data_buffer row_index
            pure (E.floatToString value)
      | _ => .error (.runtimeException "ScalarBatch is nullptr, maybe check your casting?")
  | .scalarDouble, batch, row_index =>
      match batch with
      | .scalarDouble valid_bitmap data_buffer =>
          if (match valid_bitmap with
              | some bitmap => !E.isBitSetAt bitmap row_index
              | none => false : Bool) then
            pure E.NULL_VALUE
          else do
            let value ← bufferAt data_buffer row_index
            pure (E.doubleToString value)
      | _ => .error (.runtimeException "ScalarBatch is nullptr, maybe check your casting?")
  | .scalarBool, batch, row_index =>
      match batch with
      | .scalarBool valid_bitmap data_buffer =>
          if (match valid_bitmap with
              | some bitmap => !E.isBitSetAt bitmap row_index
              | none => false : Bool) then
            pure E.NULL_VALUE
          else
            pure (toString (if E.isBitSetAt data_buffer row_index then (1 : Int) else 0))
      | _ => .error (.runtimeException "ScalarBatch is nullptr, maybe check your casting?")
  | .decimal, batch, row_index =>
      match batch with
      | .decimal arrowFormatString valid_bitmap data_buffer => do
          let scale ← getScale arrowFormatString
          let precision ← getPrecision arrowFormatString
          if (match valid_bitmap with
              | some bitmap => !E.isBitSetAt bitmap row_index
              | none => false : Bool) then
            pure E.NULL_VALUE
          else do
            let value ← bufferAt data_buffer row_index
            if scale = 0 then
              -- integral types can be directly stringified
              pure (E.Int128ToString value)
            else
              -- fixed-point decimals are casted to double first
              pure (E.doubleToString (E.Decimal128ToDouble value precision scale))
      | _ => .error (.runtimeException "ScalarBatch is nullptr, maybe check your casting?")
  | .varchar, batch, row_index =>
      match batch with
      | .varchar valid_bitmap offset_buffer data_buffer =>
          if (match valid_bitmap with
              | some bitmap => !E.isBitSetAt bitmap row_index
              | none => false : Bool) then
            pure E.NULL_VALUE
          else do
            let start ← bufferAt offset_buffer row_index
            let end_ ← bufferAt offset_buffer (row_index + 1)
            let len := end_ - start
            if start < 0 ∨ len < 0 ∨ start + len > data_buffer.length then
              .error .outOfBounds
            else pure (String.mk ((data_buffer.drop start.toNat).take len.toNat))
      | _ => .error (.runtimeException "ScalarBatch is nullptr, maybe check your casting?")
  | .struct child_stringifiers_, batch, row_index =>
      -- a `CiderBatch` value stands for a non-null pointer: the test `!batch` fails
      if (match batch.getNulls with
          | some bitmap => !E.isBitSetAt bitmap row_index
          | none => false : Bool) then
        -- this usually should not happen, values in struct batch are expected to
        -- be valid but just in case
        pure E.NULL_VALUE
      else if batch.getChildren.length ≠ child_stringifiers_.size then
        .error (.checkFailed "col_num == child_stringifiers_.size()")
      else do
        let row ← stringifyChildren E child_stringifiers_ batch.getChildren row_index
        pure (E.concatenatedRow row)
/-- The loop of `StructBatchStringifier::stringifyValueAt` over the columns. -/
def stringifyChildren (E : StringifierEnv) :
    StringifierList → CiderBatchList → Int → Except StringifyError (List String)
  | .cons col_stringifier rest, .cons child children, row_index => do
      let value_str ← stringifyValueAt E col_stringifier child row_index
      let row ← stringifyChildren E rest children row_index
      pure (value_str :: row)
  | _, _, _ => pure []
end

end BDTK

/-! ## Theorems -/

namespace BDTK

/-! ### Arithmetic facts -/

theorem two_pow_eq_double (w : Nat) (hw : 0 < w) : (2 : Int) ^ w = 2 * 2 ^ (w - 1) := by
  obtain ⟨k, rfl⟩ : ∃ k, w = k + 1 := ⟨w - 1, by omega⟩
  simp [pow_succ]
  ring

theorem wrap_of_inRange (w : Nat) (hw : 0 < w) (x : Int) (h : inRange w x) : wrap w x = x := by
  unfold wrap
  unfold inRange intMin intMax at h
  rw [two_pow_eq_double w hw, Int.emod_eq_of_lt] <;> omega

theorem two_pow_pos_int (n : Nat) : (0 : Int) < 2 ^ n := by positivity

theorem wrap_intMax (w : Nat) (hw : 0 < w) : wrap w (intMax w) = intMax w := by
  have hM := two_pow_pos_int (w - 1)
  apply wrap_of_inRange w hw
  unfold inRange intMin intMax
  constructor <;> omega

theorem wrap_intMin (w : Nat) (hw : 0 < w) : wrap w (intMin w) = intMin w := by
  have hM := two_pow_pos_int (w - 1)
  apply wrap_of_inRange w hw
  unfold inRange intMin intMax
  constructor <;> omega

theorem wrap_zero (w : Nat) (hw : 0 < w) : wrap w 0 = 0 := by
  have hM := two_pow_pos_int (w - 1)
  apply wrap_of_inRange w hw
  unfold inRange intMin intMax
  constructor <;> omega

theorem overflowFlag_sadd (w : Nat) (a b : Int) :
    overflowFlag .sadd_with_overflow w a b = decide (¬ inRange w (a + b)) := by
  simp [overflowFlag, evalIntrinsic]

theorem overflowFlag_ssub (w : Nat) (a b : Int) :
    overflowFlag .ssub_with_overflow w a b = decide (¬ inRange w (a - b)) := by
  simp [overflowFlag, evalIntrinsic]

/-- With error checking enabled `codegenAdd` is `codegenBinOpWithOverflowForCPU`
once its two checks pass. -/
theorem codegenAdd_checked (X : Context) (bin_oper : Analyzer.BinOper) (lhs_lv rhs_lv : Operand)
    (null_typename null_check_suffix : String) (ti : SQLTypeInfo)
    (hty : lhs_lv.getType = rhs_lv.getType)
    (hti : (ti.is_integer || ti.is_decimal || ti.is_timeinterval) = true) :
    codegenAdd X bin_oper lhs_lv rhs_lv null_typename null_check_suffix ti ⟨true⟩
      = codegenBinOpWithOverflowForCPU X bin_oper lhs_lv rhs_lv null_check_suffix ti := by
  funext s
  simp only [Bool.or_eq_true] at hti
  simp [codegenAdd, CHECK, hty, hti, inlineIntMaxMin]

theorem codegenSub_checked (X : Context) (bin_oper : Analyzer.BinOper) (lhs_lv rhs_lv : Operand)
    (null_typename null_check_suffix : String) (ti : SQLTypeInfo)
    (hty : lhs_lv.getType = rhs_lv.getType)
    (hti : (ti.is_integer || ti.is_decimal || ti.is_timeinterval) = true) :
    codegenSub X bin_oper lhs_lv rhs_lv null_typename null_check_suffix ti ⟨true⟩
      = codegenBinOpWithOverflowForCPU X bin_oper lhs_lv rhs_lv null_check_suffix ti := by
  funext s
  simp only [Bool.or_eq_true] at hti
  simp [codegenSub, CHECK, hty, hti, inlineIntMaxMin]

theorem codegenMul_checked (X : Context) (bin_oper : Analyzer.BinOper) (lhs_lv rhs_lv : Operand)
    (null_typename null_check_suffix : String) (ti : SQLTypeInfo) (downscale : Bool)
    (hty : lhs_lv.getType = rhs_lv.getType)
    (hti : (ti.is_integer || ti.is_decimal || ti.is_timeinterval) = true) :
    codegenMul X bin_oper lhs_lv rhs_lv null_typename null_check_suffix ti ⟨true⟩ downscale
      = codegenBinOpWithOverflowForCPU X bin_oper lhs_lv rhs_lv null_check_suffix ti := by
  funext s
  simp only [Bool.or_eq_true] at hti
  simp [codegenMul, CHECK, hty, hti, inlineIntMaxMin]

/-- The code emitted by `codegenBinOpWithOverflowForCPU` without a null check:
the intrinsic, its two components, the branch on the overflow bit, and the
error exit. -/
theorem codegenBinOpWithOverflowForCPU_nonnull_code (X : Context) (bin_oper : Analyzer.BinOper)
    (w : Nat) (ti : SQLTypeInfo) :
    codegenBinOpWithOverflowForCPU X bin_oper (.arg 0 (.int w)) (.arg 1 (.int w)) "" ti
        CgenState.fresh
      = .ok (.reg 1 (.int w),
          { blocks :=
              [⟨"entry",
                [.assign 0 (.intrinsic (getArithWithOverflowIntrinsic bin_oper)
                    (.arg 0 (.int w)) (.arg 1 (.int w))),
                 .assign 1 (.extractValue (.reg 0 (.agg w)) 0),
                 .assign 2 (.extractValue (.reg 0 (.agg w)) 1),
                 .condBr (.reg 2 (.int 1)) 2 1]⟩,
               ⟨"ovf_ok", []⟩,
               ⟨"ovf_detected", [.ret (.errCode .ERR_OVERFLOW_OR_UNDERFLOW)]⟩],
            insertPoint := 1, nextReg := 3 }) := by
  simp [codegenBinOpWithOverflowForCPU, Operand.getType]
  rfl

/-- Without a null check the intrinsic path returns the overflow sentinel
exactly when the exact result is not representable and yields the exact result
otherwise. -/
theorem codegenBinOpWithOverflowForCPU_nonnull (X : Context) (rt : Runtime) (w : Nat)
    (hw : 0 < w) (ti : SQLTypeInfo) (bin_oper : Analyzer.BinOper)
    (hop : bin_oper.optype = .kPLUS ∨ bin_oper.optype = .kMINUS ∨ bin_oper.optype = .kMULTIPLY)
    (a b : Int) :
    observe rt (argsOf [.int a, .int b])
      (codegenBinOpWithOverflowForCPU X bin_oper (.arg 0 (.int w)) (.arg 1 (.int w)) "" ti)
      = some (if inRange w (exactResult bin_oper.optype a b)
          then .yields (.int (exactResult bin_oper.optype a b))
          else .returns (.err .ERR_OVERFLOW_OR_UNDERFLOW)) := by
  unfold observe
  rw [codegenBinOpWithOverflowForCPU_nonnull_code]
  rcases hop with h | h | h <;>
  by_cases hr : inRange w (exactResult bin_oper.optype a b) <;>
  simp [h, exactResult] at hr <;>
  simp [runCode, run, execInstrs, evalOp, evalOperand, evalIntrinsic, argsOf, Env.set,
    Operand.getType, h, hr, exactResult, getArithWithOverflowIntrinsic, wrap_of_inRange w hw]

/-- C1: legacy `codegenAdd`, `codegenSub` and `codegenMul` (each on a node of
its own operator, as `codegenIntArith` dispatches them), error checking
enabled, non-nullable operands (empty null-check suffix) of an integer type and
of width `w`: the generated code returns `ERR_OVERFLOW_OR_UNDERFLOW` exactly
when the exact result `a op b` is outside the signed `w`-bit range, and
otherwise yields exactly `a op b`. -/
theorem legacy_checked_arith_overflow_iff (X : Context) (rt : Runtime) (w : Nat) (hw : 0 < w)
    (ti : SQLTypeInfo) (hti : ti.is_integer = true) (bin_oper : Analyzer.BinOper)
    (null_typename : String) (downscale : Bool) (a b : Int) :
    (bin_oper.optype = .kPLUS →
      observe rt (argsOf [.int a, .int b])
        (codegenAdd X bin_oper (.arg 0 (.int w)) (.arg 1 (.int w)) null_typename "" ti ⟨true⟩)
        = some (if inRange w (a + b) then .yields (.int (a + b))
                else .returns (.err .ERR_OVERFLOW_OR_UNDERFLOW))) ∧
    (bin_oper.optype = .kMINUS →
      observe rt (argsOf [.int a, .int b])
        (codegenSub X bin_oper (.arg 0 (.int w)) (.arg 1 (.int w)) null_typename "" ti ⟨true⟩)
        = some (if inRange w (a - b) then .yields (.int (a - b))
                else .returns (.err .ERR_OVERFLOW_OR_UNDERFLOW))) ∧
    (bin_oper.optype = .kMULTIPLY →
      observe rt (argsOf [.int a, .int b])
        (codegenMul X bin_oper (.arg 0 (.int w)) (.arg 1 (.int w)) null_typename "" ti ⟨true⟩
          downscale)
        = some (if inRange w (a * b) then .yields (.int (a * b))
                else .returns (.err .ERR_OVERFLOW_OR_UNDERFLOW))) := by
  have hti2 : (ti.is_integer || ti.is_decimal || ti.is_timeinterval) = true := by simp [hti]
  refine ⟨fun h => ?_, fun h => ?_, fun h => ?_⟩
  · rw [codegenAdd_checked X bin_oper (.arg 0 (.int w)) (.arg 1 (.int w)) _ _ ti rfl hti2,
      codegenBinOpWithOverflowForCPU_nonnull X rt w hw ti bin_oper (Or.inl h)]
    simp [h, exactResult]
  · rw [codegenSub_checked X bin_oper (.arg 0 (.int w)) (.arg 1 (.int w)) _ _ ti rfl hti2,
      codegenBinOpWithOverflowForCPU_nonnull X rt w hw ti bin_oper (Or.inr (Or.inl h))]
    simp [h, exactResult]
  · rw [codegenMul_checked X bin_oper (.arg 0 (.int w)) (.arg 1 (.int w)) _ _ ti downscale rfl hti2,
      codegenBinOpWithOverflowForCPU_nonnull X rt w hw ti bin_oper (Or.inr (Or.inr h))]
    simp [h, exactResult]

/-- C1 at concrete inputs: 32-bit `7 + 3` yields `10`, and `INT32_MAX + 1`
returns the overflow sentinel. -/
theorem legacy_checked_arith_overflow_iff_witness :
    observe exampleRuntime (argsOf [.int 7, .int 3])
        (codegenAdd exampleContext (binOperOf .kPLUS (intType 4 true) (intType 4 true))
          (.arg 0 (.int 32)) (.arg 1 (.int 32)) "" "" (intType 4 true) ⟨true⟩)
      = some (.yields (.int 10)) ∧
    observe exampleRuntime (argsOf [.int 2147483647, .int 1])
        (codegenAdd exampleContext (binOperOf .kPLUS (intType 4 true) (intType 4 true))
          (.arg 0 (.int 32)) (.arg 1 (.int 32)) "" "" (intType 4 true) ⟨true⟩)
      = some (.returns (.err .ERR_OVERFLOW_OR_UNDERFLOW)) := by
  constructor
  · have h := (legacy_checked_arith_overflow_iff exampleContext exampleRuntime 32 (by decide)
      (intType 4 true) (by decide) (binOperOf .kPLUS (intType 4 true) (intType 4 true)) "" false 7 3).1 rfl
    rw [h]
    decide
  · have h := (legacy_checked_arith_overflow_iff exampleContext exampleRuntime 32 (by decide)
      (intType 4 true) (by decide) (binOperOf .kPLUS (intType 4 true) (intType 4 true)) "" false 2147483647 1).1 rfl
    rw [h]
    decide

/-! ### Legacy strategy: the explicit boundary comparisons -/

/-- The code of the explicit boundary check of `codegenAdd` (lines 393-424)
for non-nullable operands of width `w`. -/
theorem codegenAddTail_code (X : Context) (ti : SQLTypeInfo) (nt : String) (w : Nat) :
    codegenAddTail X (.arg 0 (.int w)) (.arg 1 (.int w)) nt "" ti
        (.constInt (.int w) (intMax w)) (.constInt (.int w) (intMin w)) true CgenState.fresh
      = .ok (.reg 9 (.int w),
          { blocks :=
              [⟨"entry",
                [.assign 0 (.icmp .sgt (.arg 0 (.int w)) (.constInt (.int w) 0)),
                 .assign 1 (.bin .sub (.constInt (.int w) (intMax w)) (.arg 0 (.int w))),
                 .assign 2 (.icmp .sgt (.arg 1 (.int w)) (.reg 1 (.int w))),
                 .assign 3 (.bin .and (.reg 0 (.int 1)) (.reg 2 (.int 1))),
                 .assign 4 (.icmp .slt (.arg 0 (.int w)) (.constInt (.int w) 0)),
                 .assign 5 (.bin .sub (.constInt (.int w) (intMin w)) (.arg 0 (.int w))),
                 .assign 6 (.icmp .slt (.arg 1 (.int w)) (.reg 5 (.int w))),
                 .assign 7 (.bin .and (.reg 4 (.int 1)) (.reg 6 (.int 1))),
                 .assign 8 (.bin .or (.reg 3 (.int 1)) (.reg 7 (.int 1))),
                 .condBr (.reg 8 (.int 1)) 2 1]⟩,
               ⟨"add_ok", [.assign 9 (.bin .add (.arg 0 (.int w)) (.arg 1 (.int w)))]⟩,
               ⟨"add_fail", [.ret (.errCode .ERR_OVERFLOW_OR_UNDERFLOW)]⟩],
            insertPoint := 1, nextReg := 10 }) := by
  simp [codegenAddTail, Operand.getType]
  rfl

/-- C3: the explicit boundary check of `codegenAdd` (lines 400-411, with
`chosen_max - lhs` and `chosen_min - lhs` computed by wrapping subtraction)
agrees with `sadd_with_overflow`.  For operands of the width `w = 8 * size` of
the operating type, the code built around the check returns the overflow
sentinel exactly when the intrinsic reports overflow, that is exactly when
`lhs + rhs` is not representable in `w` bits, and yields the sum otherwise. -/
theorem codegenAdd_boundary_check_agrees (X : Context) (rt : Runtime) (ti : SQLTypeInfo)
    (hsz : 0 < ti.size) (nt : String) (a b : Int)
    (ha : inRange (8 * ti.size) a) (hb : inRange (8 * ti.size) b) :
    observe rt (argsOf [.int a, .int b])
        (codegenAddTail X (.arg 0 (.int (8 * ti.size))) (.arg 1 (.int (8 * ti.size))) nt "" ti
          (inlineIntMaxMin ti.size true).1 (inlineIntMaxMin ti.size true).2 true)
      = some (if overflowFlag .sadd_with_overflow (8 * ti.size) a b = true
              then .returns (.err .ERR_OVERFLOW_OR_UNDERFLOW)
              else .yields (.int (a + b))) ∧
    (overflowFlag .sadd_with_overflow (8 * ti.size) a b = true ↔
      ¬ inRange (8 * ti.size) (a + b)) := by
  refine ⟨?_, by simp [overflowFlag_sadd]⟩
  unfold inlineIntMaxMin
  generalize hwdef : 8 * ti.size = w at *
  have hw0 : 0 < w := by omega
  rw [overflowFlag_sadd]
  unfold observe
  simp only [codegenAddTail_code]
  have hM := two_pow_pos_int (w - 1)
  have hmax := wrap_intMax w hw0
  have hmin := wrap_intMin w hw0
  have h0 := wrap_zero w hw0
  have ha1 := ha
  have hb1 := hb
  unfold inRange intMin intMax at ha1 hb1
  rcases lt_trichotomy a 0 with hneg | hz | hpos
  · have h1 : wrap w (intMin w - a) = intMin w - a := by
      apply wrap_of_inRange w hw0
      unfold inRange intMin intMax
      constructor <;> omega
    have f1 : ¬ (0 < a) := by omega
    by_cases hr : inRange w (a + b)
    · have hsum := wrap_of_inRange w hw0 _ hr
      have f2 : ¬ (b < intMin w - a) := by
        unfold inRange intMin intMax at hr
        unfold intMin
        omega
      simp [runCode, run, execInstrs, evalOp, evalOperand, evalBin, evalICmp, argsOf, Env.set,
        Operand.getType, hmax, hmin, h0, h1, f1, f2, hneg, hsum, hr]
    · have f2 : b < intMin w - a := by
        unfold inRange intMin intMax at hr
        unfold intMin
        omega
      simp [runCode, run, execInstrs, evalOp, evalOperand, evalBin, evalICmp, argsOf, Env.set,
        Operand.getType, hmax, hmin, h0, h1, f1, f2, hneg, hr]
  · subst hz
    have hsum := wrap_of_inRange w hw0 _ hb
    simp [runCode, run, execInstrs, evalOp, evalOperand, evalBin, evalICmp, argsOf, Env.set,
      Operand.getType, hmax, hmin, h0, hsum, hb]
  · have h1 : wrap w (intMax w - a) = intMax w - a := by
      apply wrap_of_inRange w hw0
      unfold inRange intMin intMax
      constructor <;> omega
    have f1 : ¬ (a < 0) := by omega
    by_cases hr : inRange w (a + b)
    · have hsum := wrap_of_inRange w hw0 _ hr
      have f2 : ¬ (intMax w - a < b) := by
        unfold inRange intMin intMax at hr
        unfold intMax
        omega
      simp [runCode, run, execInstrs, evalOp, evalOperand, evalBin, evalICmp, argsOf, Env.set,
        Operand.getType, hmax, hmin, h0, h1, f1, f2, hpos, hsum, hr]
    · have f2 : intMax w - a < b := by
        unfold inRange intMin intMax at hr
        unfold intMax
        omega
      simp [runCode, run, execInstrs, evalOp, evalOperand, evalBin, evalICmp, argsOf, Env.set,
        Operand.getType, hmax, hmin, h0, h1, f1, f2, hpos, hr]

/-- C3 at concrete inputs: 8-bit `100 + 27` passes, `100 + 28` is caught. -/
theorem codegenAdd_boundary_check_agrees_witness :
    observe exampleRuntime (argsOf [.int 100, .int 27])
        (codegenAddTail exampleContext (.arg 0 (.int 8)) (.arg 1 (.int 8)) "" "" (intType 1 true)
          (inlineIntMaxMin 1 true).1 (inlineIntMaxMin 1 true).2 true)
      = some (.yields (.int 127)) ∧
    observe exampleRuntime (argsOf [.int 100, .int 28])
        (codegenAddTail exampleContext (.arg 0 (.int 8)) (.arg 1 (.int 8)) "" "" (intType 1 true)
          (inlineIntMaxMin 1 true).1 (inlineIntMaxMin 1 true).2 true)
      = some (.returns (.err .ERR_OVERFLOW_OR_UNDERFLOW)) := by
  constructor
  · have h := (codegenAdd_boundary_check_agrees exampleContext exampleRuntime (intType 1 true)
      (by decide) "" 100 27 (by decide) (by decide)).1
    exact h.trans (by decide)
  · have h := (codegenAdd_boundary_check_agrees exampleContext exampleRuntime (intType 1 true)
      (by decide) "" 100 28 (by decide) (by decide)).1
    exact h.trans (by decide)

/-- The code of the explicit boundary check of `codegenSub` (lines 452-485)
for non-nullable operands of width `w`. -/
theorem codegenSubTail_code (X : Context) (ti : SQLTypeInfo) (nt : String) (w : Nat) :
    codegenSubTail X (.arg 0 (.int w)) (.arg 1 (.int w)) nt "" ti
        (.constInt (.int w) (intMax w)) (.constInt (.int w) (intMin w)) true CgenState.fresh
      = .ok (.reg 9 (.int w),
          { blocks :=
              [⟨"entry",
                [.assign 0 (.icmp .slt (.arg 1 (.int w)) (.constInt (.int w) 0)),
                 .assign 1 (.bin .add (.constInt (.int w) (intMax w)) (.arg 1 (.int w))),
                 .assign 2 (.icmp .sgt (.arg 0 (.int w)) (.reg 1 (.int w))),
                 .assign 3 (.bin .and (.reg 0 (.int 1)) (.reg 2 (.int 1))),
                 .assign 4 (.icmp .sgt (.arg 1 (.int w)) (.constInt (.int w) 0)),
                 .assign 5 (.bin .add (.constInt (.int w) (intMin w)) (.arg 1 (.int w))),
                 .assign 6 (.icmp .slt (.arg 0 (.int w)) (.reg 5 (.int w))),
                 .assign 7 (.bin .and (.reg 4 (.int 1)) (.reg 6 (.int 1))),
                 .assign 8 (.bin .or (.reg 3 (.int 1)) (.reg 7 (.int 1))),
                 .condBr (.reg 8 (.int 1)) 2 1]⟩,
               ⟨"sub_ok", [.assign 9 (.bin .sub (.arg 0 (.int w)) (.arg 1 (.int w)))]⟩,
               ⟨"sub_fail", [.ret (.errCode .ERR_OVERFLOW_OR_UNDERFLOW)]⟩],
            insertPoint := 1, nextReg := 10 }) := by
  simp [codegenSubTail, Operand.getType]
  rfl

/-- C4: the explicit boundary check of `codegenSub` (lines 459-472, with
`chosen_max + rhs` and `chosen_min + rhs` computed by wrapping addition) agrees
with `ssub_with_overflow`.  For operands of the width `w = 8 * size` of the
operating type, the code built around the check returns the overflow sentinel
exactly when the intrinsic reports overflow, that is exactly when `lhs - rhs`
is not representable in `w` bits, and yields the difference otherwise. -/
theorem codegenSub_boundary_check_agrees (X : Context) (rt : Runtime) (ti : SQLTypeInfo)
    (hsz : 0 < ti.size) (nt : String) (a b : Int)
    (ha : inRange (8 * ti.size) a) (hb : inRange (8 * ti.size) b) :
    observe rt (argsOf [.int a, .int b])
        (codegenSubTail X (.arg 0 (.int (8 * ti.size))) (.arg 1 (.int (8 * ti.size))) nt "" ti
          (inlineIntMaxMin ti.size true).1 (inlineIntMaxMin ti.size true).2 true)
      = some (if overflowFlag .ssub_with_overflow (8 * ti.size) a b = true
              then .returns (.err .ERR_OVERFLOW_OR_UNDERFLOW)
              else .yields (.int (a - b))) ∧
    (overflowFlag .ssub_with_overflow (8 * ti.size) a b = true ↔
      ¬ inRange (8 * ti.size) (a - b)) := by
  refine ⟨?_, by simp [overflowFlag_ssub]⟩
  unfold inlineIntMaxMin
  generalize hwdef : 8 * ti.size = w at *
  have hw0 : 0 < w := by omega
  rw [overflowFlag_ssub]
  unfold observe
  simp only [codegenSubTail_code]
  have hM := two_pow_pos_int (w - 1)
  have hmax := wrap_intMax w hw0
  have hmin := wrap_intMin w hw0
  have h0 := wrap_zero w hw0
  have ha1 := ha
  have hb1 := hb
  unfold inRange intMin intMax at ha1 hb1
  rcases lt_trichotomy b 0 with hneg | hz | hpos
  · have h1 : wrap w (intMax w + b) = intMax w + b := by
      apply wrap_of_inRange w hw0
      unfold inRange intMin intMax
      constructor <;> omega
    have f1 : ¬ (0 < b) := by omega
    by_cases hr : inRange w (a - b)
    · have hsum := wrap_of_inRange w hw0 _ hr
      have f2 : ¬ (intMax w + b < a) := by
        unfold inRange intMin intMax at hr
        unfold intMax
        omega
      simp [runCode, run, execInstrs, evalOp, evalOperand, evalBin, evalICmp, argsOf, Env.set,
        Operand.getType, hmax, hmin, h0, h1, f1, f2, hneg, hsum, hr]
    · have f2 : intMax w + b < a := by
        unfold inRange intMin intMax at hr
        unfold intMax
        omega
      simp [runCode, run, execInstrs, evalOp, evalOperand, evalBin, evalICmp, argsOf, Env.set,
        Operand.getType, hmax, hmin, h0, h1, f1, f2, hneg, hr]
  · subst hz
    have hsum := wrap_of_inRange w hw0 _ ha
    simp [runCode, run, execInstrs, evalOp, evalOperand, evalBin, evalICmp, argsOf, Env.set,
      Operand.getType, hmax, hmin, h0, hsum, ha]
  · have h1 : wrap w (intMin w + b) = intMin w + b := by
      apply wrap_of_inRange w hw0
      unfold inRange intMin intMax
      constructor <;> omega
    have f1 : ¬ (b < 0) := by omega
    by_cases hr : inRange w (a - b)
    · have hsum := wrap_of_inRange w hw0 _ hr
      have f2 : ¬ (a < intMin w + b) := by
        unfold inRange intMin intMax at hr
        unfold intMin
        omega
      simp [runCode, run, execInstrs, evalOp, evalOperand, evalBin, evalICmp, argsOf, Env.set,
        Operand.getType, hmax, hmin, h0, h1, f1, f2, hpos, hsum, hr]
    · have f2 : a < intMin w + b := by
        unfold inRange intMin intMax at hr
        unfold intMin
        omega
      simp [runCode, run, execInstrs, evalOp, evalOperand, evalBin, evalICmp, argsOf, Env.set,
        Operand.getType, hmax, hmin, h0, h1, f1, f2, hpos, hr]

/-- C4 at concrete inputs: 8-bit `-100 - 28` passes, `-100 - 29` is caught. -/
theorem codegenSub_boundary_check_agrees_witness :
    observe exampleRuntime (argsOf [.int (-100), .int 28])
        (codegenSubTail exampleContext (.arg 0 (.int 8)) (.arg 1 (.int 8)) "" "" (intType 1 true)
          (inlineIntMaxMin 1 true).1 (inlineIntMaxMin 1 true).2 true)
      = some (.yields (.int (-128))) ∧
    observe exampleRuntime (argsOf [.int (-100), .int 29])
        (codegenSubTail exampleContext (.arg 0 (.int 8)) (.arg 1 (.int 8)) "" "" (intType 1 true)
          (inlineIntMaxMin 1 true).1 (inlineIntMaxMin 1 true).2 true)
      = some (.returns (.err .ERR_OVERFLOW_OR_UNDERFLOW)) := by
  constructor
  · have h := (codegenSub_boundary_check_agrees exampleContext exampleRuntime (intType 1 true)
      (by decide) "" (-100) 28 (by decide) (by decide)).1
    exact h.trans (by decide)
  · have h := (codegenSub_boundary_check_agrees exampleContext exampleRuntime (intType 1 true)
      (by decide) "" (-100) 29 (by decide) (by decide)).1
    exact h.trans (by decide)

theorem wrap_neg_intMin (w : Nat) (hw : 0 < w) : wrap w (-(intMin w)) = intMin w := by
  unfold wrap intMin
  rw [neg_neg, two_pow_eq_double w hw]
  have : (2 : Int) ^ (w - 1) + 2 ^ (w - 1) = 2 * 2 ^ (w - 1) := by ring
  rw [this, Int.emod_self]
  simp

/-- The code emitted by `codegenBinOpWithOverflowForCPU` with a null check. -/
theorem codegenBinOpWithOverflowForCPU_nullable_code (X : Context) (bin_oper : Analyzer.BinOper)
    (w : Nat) (ti : SQLTypeInfo) (hfp : ti.is_fp = false) (sfx : String) (hs : sfx ≠ "") :
    codegenBinOpWithOverflowForCPU X bin_oper (.arg 0 (.int w)) (.arg 1 (.int w)) sfx ti
        CgenState.fresh
      = .ok (.reg 6 (.int w),
          { blocks :=
              [⟨"entry",
                [.assign 0 (.icmp .eq (.arg 0 (.int w)) (.constInt (.int w) (X.inline_int_null_val ti))),
                 .assign 1 (.icmp .eq (.arg 1 (.int w)) (.constInt (.int w) (X.inline_int_null_val ti))),
                 .assign 2 (.bin .or (.reg 0 (.int 1)) (.reg 1 (.int 1))),
                 .condBr (.reg 2 (.int 1)) 1 3]⟩,
               ⟨"ovf_ok",
                [.assign 6 (.phi [(.constInt (.int w) (X.inline_int_null_val ti), 0),
                                  (.reg 4 (.int w), 3)])]⟩,
               ⟨"ovf_detected", [.ret (.errCode .ERR_OVERFLOW_OR_UNDERFLOW)]⟩,
               ⟨"operands_not_null",
                [.assign 3 (.intrinsic (getArithWithOverflowIntrinsic bin_oper)
                    (.arg 0 (.int w)) (.arg 1 (.int w))),
                 .assign 4 (.extractValue (.reg 3 (.agg w)) 0),
                 .assign 5 (.extractValue (.reg 3 (.agg w)) 1),
                 .condBr (.reg 5 (.int 1)) 2 1]⟩],
            insertPoint := 1, nextReg := 7 }) := by
  simp [codegenBinOpWithOverflowForCPU, codegenSkipOverflowCheckForNull, codegenIsNullNumber, hs,
    hfp, Operand.getType]
  rfl

/-- C8: `codegenBinOpWithOverflowForCPU` with a non-empty null-check suffix on
an integer-backed type whose null sentinel is a `w`-bit value.  If either
operand equals the sentinel, then whatever the other operand is, the generated
code reaches the ok block without executing the overflow intrinsic, does not
return an error, and the result is the null sentinel.  If neither operand is
the sentinel, the result is that of the intrinsic: the exact result, or the
overflow sentinel when it is not representable. -/
theorem legacy_null_masking (X : Context) (rt : Runtime) (w : Nat) (hw : 0 < w)
    (ti : SQLTypeInfo) (hfp : ti.is_fp = false) (hN : inRange w (X.inline_int_null_val ti))
    (bin_oper : Analyzer.BinOper)
    (hop : bin_oper.optype = .kPLUS ∨ bin_oper.optype = .kMINUS ∨ bin_oper.optype = .kMULTIPLY)
    (sfx : String) (hs : sfx ≠ "") (a b : Int) :
    ((a = X.inline_int_null_val ti ∨ b = X.inline_int_null_val ti) →
      observe rt (argsOf [.int a, .int b])
          (codegenBinOpWithOverflowForCPU X bin_oper (.arg 0 (.int w)) (.arg 1 (.int w)) sfx ti)
        = some (.yields (.int (X.inline_int_null_val ti))) ∧
      (executed rt (argsOf [.int a, .int b])
          (codegenBinOpWithOverflowForCPU X bin_oper (.arg 0 (.int w)) (.arg 1 (.int w)) sfx ti)).map
        evaluatesOverflowPrimitive = some false) ∧
    ((a ≠ X.inline_int_null_val ti ∧ b ≠ X.inline_int_null_val ti) →
      observe rt (argsOf [.int a, .int b])
          (codegenBinOpWithOverflowForCPU X bin_oper (.arg 0 (.int w)) (.arg 1 (.int w)) sfx ti)
        = some (if inRange w (exactResult bin_oper.optype a b)
            then .yields (.int (exactResult bin_oper.optype a b))
            else .returns (.err .ERR_OVERFLOW_OR_UNDERFLOW))) := by
  have hNw := wrap_of_inRange w hw _ hN
  unfold observe executed
  rw [codegenBinOpWithOverflowForCPU_nullable_code X bin_oper w ti hfp sfx hs]
  constructor
  · rintro (h | h)
    · subst h
      simp [runCode, run, execInstrs, evalOp, evalOperand, evalICmp, evalBin, evalPhi, argsOf,
        Env.set, Operand.getType, hNw, Outcome.trace, evaluatesOverflowPrimitive]
    · subst h
      simp [runCode, run, execInstrs, evalOp, evalOperand, evalICmp, evalBin, evalPhi, argsOf,
        Env.set, Operand.getType, hNw, Outcome.trace, evaluatesOverflowPrimitive]
  · rintro ⟨h1, h2⟩
    rcases hop with h | h | h <;>
    by_cases hr : inRange w (exactResult bin_oper.optype a b) <;>
    simp [h, exactResult] at hr <;>
    simp [runCode, run, execInstrs, evalOp, evalOperand, evalICmp, evalBin, evalPhi,
      evalIntrinsic, argsOf, Env.set, Operand.getType, hNw, h, hr, h1, h2, exactResult,
      getArithWithOverflowIntrinsic, wrap_of_inRange w hw]

/-- C8 at concrete inputs: nullable 64-bit operands, the left one the null
sentinel `INT64_MIN`, the right one `-1` (a pair whose sum would overflow). -/
theorem legacy_null_masking_witness :
    observe exampleRuntime (argsOf [.int (intMin 64), .int (-1)])
        (codegenBinOpWithOverflowForCPU exampleContext
          (binOperOf .kPLUS (intType 8 false) (intType 8 false))
          (.arg 0 (.int 64)) (.arg 1 (.int 64)) "_nullable" (intType 8 false))
      = some (.yields (.int (intMin 64))) ∧
    (executed exampleRuntime (argsOf [.int (intMin 64), .int (-1)])
        (codegenBinOpWithOverflowForCPU exampleContext
          (binOperOf .kPLUS (intType 8 false) (intType 8 false))
          (.arg 0 (.int 64)) (.arg 1 (.int 64)) "_nullable" (intType 8 false))).map
      evaluatesOverflowPrimitive = some false :=
  (legacy_null_masking exampleContext exampleRuntime 64 (by decide) (intType 8 false)
    (by decide) (by decide) (binOperOf .kPLUS (intType 8 false) (intType 8 false))
    (Or.inl rfl) "_nullable" (by decide) (intMin 64) (-1)).1 (Or.inl (by decide))

/-! ### Columnar strategy: overflow check and null flags -/

/-- With error checking enabled an integer add, subtract or multiply goes to
`codegenArithWithOverflowCheckForArrow`, and the null flag is attached as given. -/
theorem codegenFixedSizeColArithFun_checked_int (X : Context) (bin_oper : Analyzer.BinOper)
    (l r : FixedSizeColValues) (null : Option Operand)
    (hop : bin_oper.optype = .kPLUS ∨ bin_oper.optype = .kMINUS ∨ bin_oper.optype = .kMULTIPLY)
    (hint : bin_oper.left_operand.get_type_info.is_integer = true) :
    codegenFixedSizeColArithFun X bin_oper (.fixedSize l) (.fixedSize r) null true
      = (do
          let v ← codegenArithWithOverflowCheckForArrow X bin_oper l r
            (X.get_null_check_suffix bin_oper.left_operand.get_type_info
              bin_oper.right_operand.get_type_info)
            (if bin_oper.right_operand.get_type_info.is_timeinterval
              then bin_oper.right_operand.get_type_info
              else bin_oper.left_operand.get_type_info)
          pure (.fixedSize { value := v, null := null })) := by
  rcases hop with h | h | h <;>
  simp [codegenFixedSizeColArithFun, h, hint, CodegenColValues.asFixedSize]

theorem codegenArithWithOverflowCheckForArrow_nonnull_code (X : Context)
    (bin_oper : Analyzer.BinOper) (w : Nat) (ln rn : Option Operand) (ti : SQLTypeInfo) :
    codegenArithWithOverflowCheckForArrow X bin_oper ⟨.arg 0 (.int w), ln⟩ ⟨.arg 1 (.int w), rn⟩ "" ti
        CgenState.fresh
      = .ok (.reg 1 (.int w),
          { blocks :=
              [⟨"entry",
                [.assign 0 (.intrinsic (getArithWithOverflowIntrinsic bin_oper)
                    (.arg 0 (.int w)) (.arg 1 (.int w))),
                 .assign 1 (.extractValue (.reg 0 (.agg w)) 0),
                 .assign 2 (.extractValue (.reg 0 (.agg w)) 1),
                 .condBr (.reg 2 (.int 1)) 2 1]⟩,
               ⟨"ovf_ok", []⟩,
               ⟨"ovf_detected", [.ret (.errCode .ERR_OVERFLOW_OR_UNDERFLOW)]⟩],
            insertPoint := 1, nextReg := 3 }) := by
  simp [codegenArithWithOverflowCheckForArrow, Operand.getType]
  rfl

theorem codegenArithWithOverflowCheckForArrow_both_flags_code (X : Context)
    (bin_oper : Analyzer.BinOper) (w : Nat) (l r : Operand) (ti : SQLTypeInfo)
    (sfx : String) (hs : sfx ≠ "") :
    codegenArithWithOverflowCheckForArrow X bin_oper ⟨.arg 0 (.int w), some l⟩
        ⟨.arg 1 (.int w), some r⟩ sfx ti CgenState.fresh
      = .ok (.reg 4 (.int w),
          { blocks :=
              [⟨"entry",
                [.assign 0 (.bin .or l r),
                 .condBr (.reg 0 l.getType) 1 3]⟩,
               ⟨"ovf_ok",
                [.assign 4 (.phi [(.constInt (.int w) (X.inline_int_null_val ti), 0),
                                  (.reg 2 (.int w), 3)])]⟩,
               ⟨"ovf_detected", [.ret (.errCode .ERR_OVERFLOW_OR_UNDERFLOW)]⟩,
               ⟨"operands_not_null",
                [.assign 1 (.intrinsic (getArithWithOverflowIntrinsic bin_oper)
                    (.arg 0 (.int w)) (.arg 1 (.int w))),
                 .assign 2 (.extractValue (.reg 1 (.agg w)) 0),
                 .assign 3 (.extractValue (.reg 1 (.agg w)) 1),
                 .condBr (.reg 3 (.int 1)) 2 1]⟩],
            insertPoint := 1, nextReg := 5 }) := by
  simp [codegenArithWithOverflowCheckForArrow, codegenSkipOverflowCheckForNullForArrow, deref, hs,
    Operand.getType]
  rfl

theorem codegenArithWithOverflowCheckForArrow_lhs_flag_code (X : Context)
    (bin_oper : Analyzer.BinOper) (w : Nat) (l : Operand) (ti : SQLTypeInfo)
    (sfx : String) (hs : sfx ≠ "") :
    codegenArithWithOverflowCheckForArrow X bin_oper ⟨.arg 0 (.int w), some l⟩
        ⟨.arg 1 (.int w), none⟩ sfx ti CgenState.fresh
      = .ok (.reg 3 (.int w),
          { blocks :=
              [⟨"entry", [.condBr l 1 3]⟩,
               ⟨"ovf_ok",
                [.assign 3 (.phi [(.constInt (.int w) (X.inline_int_null_val ti), 0),
                                  (.reg 1 (.int w), 3)])]⟩,
               ⟨"ovf_detected", [.ret (.errCode .ERR_OVERFLOW_OR_UNDERFLOW)]⟩,
               ⟨"operands_not_null",
                [.assign 0 (.intrinsic (getArithWithOverflowIntrinsic bin_oper)
                    (.arg 0 (.int w)) (.arg 1 (.int w))),
                 .assign 1 (.extractValue (.reg 0 (.agg w)) 0),
                 .assign 2 (.extractValue (.reg 0 (.agg w)) 1),
                 .condBr (.reg 2 (.int 1)) 2 1]⟩],
            insertPoint := 1, nextReg := 4 }) := by
  simp [codegenArithWithOverflowCheckForArrow, codegenSkipOverflowCheckForNullForArrow, deref, hs,
    Operand.getType]
  rfl

/-- With a non-empty null-check suffix and no null flag on the left operand the
null-skip branch cannot be built: a null handle reaches the IR builder. -/
theorem codegenArithWithOverflowCheckForArrow_no_lhs_flag (X : Context)
    (bin_oper : Analyzer.BinOper) (lv rv : Operand) (rn : Option Operand) (ti : SQLTypeInfo)
    (sfx : String) (hs : sfx ≠ "") (s : CgenState) :
    codegenArithWithOverflowCheckForArrow X bin_oper ⟨lv, none⟩ ⟨rv, rn⟩ sfx ti s
      = .error .nullValue := by
  cases rn <;>
  simp [codegenArithWithOverflowCheckForArrow, codegenSkipOverflowCheckForNullForArrow, deref,
    hs] <;>
  rfl

theorem is_integer_not_decimal (ti : SQLTypeInfo) (h : ti.is_integer = true) :
    ti.is_decimal = false := by
  rcases ti with ⟨ty, nn, sz, sc⟩
  cases ty <;> simp_all [SQLTypeInfo.is_integer, SQLTypeInfo.is_decimal]

theorem is_integer_not_timeinterval (ti : SQLTypeInfo) (h : ti.is_integer = true) :
    ti.is_timeinterval = false := by
  rcases ti with ⟨ty, nn, sz, sc⟩
  cases ty <;> simp_all [SQLTypeInfo.is_integer, SQLTypeInfo.is_timeinterval]

theorem same_type_not_timeinterval (l r : SQLTypeInfo) (h : l.is_integer = true)
    (hty : l.type = r.type) : r.is_timeinterval = false := by
  rcases l with ⟨ty, nn, sz, sc⟩
  rcases r with ⟨ty2, nn2, sz2, sc2⟩
  simp at hty
  subst hty
  cases ty <;> simp_all [SQLTypeInfo.is_integer, SQLTypeInfo.is_timeinterval]

theorem valueOf_fixedSize (c : Cgen Operand) (null : Option Operand) :
    valueOf (do
      let v ← c
      pure (.fixedSize { value := v, null := null })) = c := by
  funext s
  simp [valueOf, bind, StateT.bind, Except.bind, CodegenColValues.asFixedSize]
  cases h : c s <;> simp [pure, StateT.pure, Except.pure]

/-- Whenever the columnar overflow check can be lowered (empty null-check
suffix, or a null flag on the left operand) and no present flag is set, the
generated code returns the overflow sentinel exactly when the exact result is
not representable and yields the exact result otherwise. -/
theorem columnar_checked_arith_when_lowered (X : Context) (rt : Runtime)
    (bin_oper : Analyzer.BinOper)
    (hop : bin_oper.optype = .kPLUS ∨ bin_oper.optype = .kMINUS ∨ bin_oper.optype = .kMULTIPLY)
    (hint : bin_oper.left_operand.get_type_info.is_integer = true)
    (w : Nat) (hw : 0 < w) (lp rp : Bool) (null : Option Operand)
    (hdef : X.get_null_check_suffix bin_oper.left_operand.get_type_info
              bin_oper.right_operand.get_type_info = "" ∨ lp = true)
    (a b : Int) :
    observe rt (argsOf [.int a, .int b, .bool false, .bool false])
        (valueOf (codegenFixedSizeColArithFun X bin_oper
          (.fixedSize ⟨.arg 0 (.int w), flagHandle lp 2⟩)
          (.fixedSize ⟨.arg 1 (.int w), flagHandle rp 3⟩) null true))
      = some (if inRange w (exactResult bin_oper.optype a b)
          then .yields (.int (exactResult bin_oper.optype a b))
          else .returns (.err .ERR_OVERFLOW_OR_UNDERFLOW)) := by
  rw [codegenFixedSizeColArithFun_checked_int X bin_oper _ _ null hop hint, valueOf_fixedSize]
  unfold observe
  by_cases hs : X.get_null_check_suffix bin_oper.left_operand.get_type_info
      bin_oper.right_operand.get_type_info = ""
  · rw [hs, codegenArithWithOverflowCheckForArrow_nonnull_code]
    rcases hop with h | h | h <;>
    by_cases hr : inRange w (exactResult bin_oper.optype a b) <;>
    simp [h, exactResult] at hr <;>
    simp [runCode, run, execInstrs, evalOp, evalOperand, evalIntrinsic, argsOf, Env.set,
      Operand.getType, h, hr, exactResult, getArithWithOverflowIntrinsic, wrap_of_inRange w hw]
  · have hlp : lp = true := by
      rcases hdef with h | h
      · exact absurd h hs
      · exact h
    subst hlp
    cases rp
    · simp only [flagHandle, if_true, Bool.false_eq_true, if_false]
      rw [codegenArithWithOverflowCheckForArrow_lhs_flag_code X bin_oper w _ _ _ hs]
      rcases hop with h | h | h <;>
      by_cases hr : inRange w (exactResult bin_oper.optype a b) <;>
      simp [h, exactResult] at hr <;>
      simp [runCode, run, execInstrs, evalOp, evalOperand, evalIntrinsic, evalPhi, evalBin,
        argsOf, Env.set, Operand.getType, h, hr, exactResult, getArithWithOverflowIntrinsic,
        wrap_of_inRange w hw]
    · simp only [flagHandle, if_true]
      rw [codegenArithWithOverflowCheckForArrow_both_flags_code X bin_oper w _ _ _ _ hs]
      rcases hop with h | h | h <;>
      by_cases hr : inRange w (exactResult bin_oper.optype a b) <;>
      simp [h, exactResult] at hr <;>
      simp [runCode, run, execInstrs, evalOp, evalOperand, evalIntrinsic, evalPhi, evalBin,
        argsOf, Env.set, Operand.getType, h, hr, exactResult, getArithWithOverflowIntrinsic,
        wrap_of_inRange w hw]

/-- C2, evaluated at the failing input: a NOT NULL 64-bit left operand without
a null flag handle, a nullable right operand with a flag (not set), `1 + 1`,
error checking enabled.  The null-check suffix is non-empty, the null-skip
branch is built from the absent left flag, and lowering aborts on the null
handle: no code is generated that could produce `2`. -/
theorem columnar_checked_arith_aborts_without_lhs_flag :
    loweringError (codegenFixedSizeColArithFun exampleContext
        (binOperOf .kPLUS (intType 8 true) (intType 8 false))
        (.fixedSize ⟨.arg 0 (.int 64), none⟩)
        (.fixedSize ⟨.arg 1 (.int 64), some (.arg 2 (.int 1))⟩)
        (some (.arg 2 (.int 1))) true) = some .nullValue ∧
    observeCol exampleRuntime (argsOf [.int 1, .int 1, .bool false])
      (codegenFixedSizeColArithFun exampleContext
        (binOperOf .kPLUS (intType 8 true) (intType 8 false))
        (.fixedSize ⟨.arg 0 (.int 64), none⟩)
        (.fixedSize ⟨.arg 1 (.int 64), some (.arg 2 (.int 1))⟩)
        (some (.arg 2 (.int 1))) true) = none := by
  decide

theorem codegenArithFun_both_flags_code (X : Context)
    (codegen : Analyzer.Expr → CompilationOptions → Bool → Cgen CodegenColValues)
    (bin_oper : Analyzer.BinOper)
    (hop : bin_oper.optype = .kPLUS ∨ bin_oper.optype = .kMINUS ∨ bin_oper.optype = .kMULTIPLY)
    (hint : bin_oper.left_operand.get_type_info.is_integer = true)
    (hty : bin_oper.left_operand.get_type_info.type = bin_oper.right_operand.get_type_info.type)
    (hs : X.get_null_check_suffix bin_oper.left_operand.get_type_info
            bin_oper.right_operand.get_type_info ≠ "")
    (w : Nat)
    (hl : codegen bin_oper.left_operand ⟨true⟩ true
            = pure (.fixedSize ⟨.arg 0 (.int w), some (.arg 2 (.int 1))⟩))
    (hr : codegen bin_oper.right_operand ⟨true⟩ true
            = pure (.fixedSize ⟨.arg 1 (.int w), some (.arg 3 (.int 1))⟩)) :
    codegenArithFun X codegen bin_oper ⟨true⟩ CgenState.fresh
      = .ok (.fixedSize ⟨.reg 5 (.int w), some (.reg 0 (.int 1))⟩,
          { blocks :=
              [⟨"entry",
                [.assign 0 (.bin .or (.arg 2 (.int 1)) (.arg 3 (.int 1))),
                 .assign 1 (.bin .or (.arg 2 (.int 1)) (.arg 3 (.int 1))),
                 .condBr (.reg 1 (.int 1)) 1 3]⟩,
               ⟨"ovf_ok",
                [.assign 5 (.phi
                  [(.constInt (.int w)
                      (X.inline_int_null_val bin_oper.left_operand.get_type_info), 0),
                   (.reg 3 (.int w), 3)])]⟩,
               ⟨"ovf_detected", [.ret (.errCode .ERR_OVERFLOW_OR_UNDERFLOW)]⟩,
               ⟨"operands_not_null",
                [.assign 2 (.intrinsic (getArithWithOverflowIntrinsic bin_oper)
                    (.arg 0 (.int w)) (.arg 1 (.int w))),
                 .assign 3 (.extractValue (.reg 2 (.agg w)) 0),
                 .assign 4 (.extractValue (.reg 2 (.agg w)) 1),
                 .condBr (.reg 4 (.int 1)) 2 1]⟩],
            insertPoint := 1, nextReg := 6 }) := by
  have hd := is_integer_not_decimal _ hint
  have ht := is_integer_not_timeinterval _ hint
  have ht2 := same_type_not_timeinterval _ _ hint hty
  have harith : IS_ARITHMETIC bin_oper.optype = true := by
    rcases hop with h | h | h <;> simp [h, IS_ARITHMETIC]
  simp [codegenArithFun, CHECK, harith, hl, hr, hd, ht, ht2, hty, codegenArithFunNull,
    CodegenColValues.asNullable,
    codegenFixedSizeColArithFun_checked_int X bin_oper _ _ _ hop hint,
    codegenArithWithOverflowCheckForArrow, codegenSkipOverflowCheckForNullForArrow, deref, hs,
    Operand.getType]
  rfl

theorem codegenArithFun_lhs_flag_code (X : Context)
    (codegen : Analyzer.Expr → CompilationOptions → Bool → Cgen CodegenColValues)
    (bin_oper : Analyzer.BinOper)
    (hop : bin_oper.optype = .kPLUS ∨ bin_oper.optype = .kMINUS ∨ bin_oper.optype = .kMULTIPLY)
    (hint : bin_oper.left_operand.get_type_info.is_integer = true)
    (hty : bin_oper.left_operand.get_type_info.type = bin_oper.right_operand.get_type_info.type)
    (hs : X.get_null_check_suffix bin_oper.left_operand.get_type_info
            bin_oper.right_operand.get_type_info ≠ "")
    (w : Nat)
    (hl : codegen bin_oper.left_operand ⟨true⟩ true
            = pure (.fixedSize ⟨.arg 0 (.int w), some (.arg 2 (.int 1))⟩))
    (hr : codegen bin_oper.right_operand ⟨true⟩ true
            = pure (.fixedSize ⟨.arg 1 (.int w), none⟩)) :
    codegenArithFun X codegen bin_oper ⟨true⟩ CgenState.fresh
      = .ok (.fixedSize ⟨.reg 3 (.int w), some (.arg 2 (.int 1))⟩,
          { blocks :=
              [⟨"entry", [.condBr (.arg 2 (.int 1)) 1 3]⟩,
               ⟨"ovf_ok",
                [.assign 3 (.phi
                  [(.constInt (.int w)
                      (X.inline_int_null_val bin_oper.left_operand.get_type_info), 0),
                   (.reg 1 (.int w), 3)])]⟩,
               ⟨"ovf_detected", [.ret (.errCode .ERR_OVERFLOW_OR_UNDERFLOW)]⟩,
               ⟨"operands_not_null",
                [.assign 0 (.intrinsic (getArithWithOverflowIntrinsic bin_oper)
                    (.arg 0 (.int w)) (.arg 1 (.int w))),
                 .assign 1 (.extractValue (.reg 0 (.agg w)) 0),
                 .assign 2 (.extractValue (.reg 0 (.agg w)) 1),
                 .condBr (.reg 2 (.int 1)) 2 1]⟩],
            insertPoint := 1, nextReg := 4 }) := by
  have hd := is_integer_not_decimal _ hint
  have ht := is_integer_not_timeinterval _ hint
  have ht2 := same_type_not_timeinterval _ _ hint hty
  have harith : IS_ARITHMETIC bin_oper.optype = true := by
    rcases hop with h | h | h <;> simp [h, IS_ARITHMETIC]
  simp [codegenArithFun, CHECK, harith, hl, hr, hd, ht, ht2, hty, codegenArithFunNull,
    CodegenColValues.asNullable,
    codegenFixedSizeColArithFun_checked_int X bin_oper _ _ _ hop hint,
    codegenArithWithOverflowCheckForArrow, codegenSkipOverflowCheckForNullForArrow, deref, hs,
    Operand.getType]
  rfl

/-- Where the null-skip branch can be lowered, null propagation masks
overflow: columnar add, subtract or multiply on integers with error checking
enabled, when the operand types make the null-check suffix non-empty and the
left operand carries a null flag (the right one may or may not).  For every
pair of operand values, if a present null flag is set then the generated code
does not return an error, the overflow intrinsic is not executed, the null flag
of the result is set, and the result value is the null sentinel of the
operating type. -/
theorem columnar_null_masks_overflow (X : Context) (rt : Runtime)
    (codegen : Analyzer.Expr → CompilationOptions → Bool → Cgen CodegenColValues)
    (bin_oper : Analyzer.BinOper)
    (hop : bin_oper.optype = .kPLUS ∨ bin_oper.optype = .kMINUS ∨ bin_oper.optype = .kMULTIPLY)
    (hint : bin_oper.left_operand.get_type_info.is_integer = true)
    (hty : bin_oper.left_operand.get_type_info.type = bin_oper.right_operand.get_type_info.type)
    (hs : X.get_null_check_suffix bin_oper.left_operand.get_type_info
            bin_oper.right_operand.get_type_info ≠ "")
    (w : Nat) (hw : 0 < w)
    (hN : inRange w (X.inline_int_null_val bin_oper.left_operand.get_type_info))
    (rp : Bool)
    (hl : codegen bin_oper.left_operand ⟨true⟩ true
            = pure (.fixedSize ⟨.arg 0 (.int w), some (.arg 2 (.int 1))⟩))
    (hr : codegen bin_oper.right_operand ⟨true⟩ true
            = pure (.fixedSize ⟨.arg 1 (.int w), flagHandle rp 3⟩))
    (a b : Int) (fl fr : Bool) (hset : fl = true ∨ (rp = true ∧ fr = true)) :
    observeCol rt (argsOf [.int a, .int b, .bool fl, .bool fr])
        (codegenArithFun X codegen bin_oper ⟨true⟩)
      = some (.yields (.int (X.inline_int_null_val bin_oper.left_operand.get_type_info))
          (some (.bool true))) ∧
    (executed rt (argsOf [.int a, .int b, .bool fl, .bool fr])
        (codegenArithFun X codegen bin_oper ⟨true⟩)).map evaluatesOverflowPrimitive
      = some false := by
  have hNw := wrap_of_inRange w hw _ hN
  unfold observeCol executed
  cases rp
  · have hfl : fl = true := by
      rcases hset with h | ⟨h, _⟩
      · exact h
      · exact absurd h (by decide)
    subst hfl
    simp only [flagHandle, Bool.false_eq_true, if_false] at hr
    rw [codegenArithFun_lhs_flag_code X codegen bin_oper hop hint hty hs w hl hr]
    simp [runCode, run, execInstrs, evalOp, evalOperand, evalPhi, evalBin, argsOf, Env.set,
      Operand.getType, hNw, Outcome.trace, evaluatesOverflowPrimitive]
  · simp only [flagHandle, if_true] at hr
    rw [codegenArithFun_both_flags_code X codegen bin_oper hop hint hty hs w hl hr]
    have hor : (fl || fr) = true := by
      rcases hset with h | ⟨_, h⟩ <;> simp [h]
    simp [runCode, run, execInstrs, evalOp, evalOperand, evalPhi, evalBin, argsOf, Env.set,
      Operand.getType, hNw, Outcome.trace, evaluatesOverflowPrimitive, hor]

/-- Null masking at concrete inputs: nullable 64-bit `INT64_MAX + 1` where only
the right operand is flagged null. -/
theorem columnar_null_masks_overflow_witness :
    observeCol exampleRuntime (argsOf [.int (intMax 64), .int 1, .bool false, .bool true])
        (codegenArithFun exampleContext
          (loweredOperands (.ColumnVar (intType 8 false) 1)
            (.fixedSize ⟨.arg 0 (.int 64), some (.arg 2 (.int 1))⟩)
            (.fixedSize ⟨.arg 1 (.int 64), flagHandle true 3⟩))
          (binOperOf .kPLUS (intType 8 false) (intType 8 false)) ⟨true⟩)
      = some (.yields (.int (intMin 64)) (some (.bool true))) ∧
    (executed exampleRuntime (argsOf [.int (intMax 64), .int 1, .bool false, .bool true])
        (codegenArithFun exampleContext
          (loweredOperands (.ColumnVar (intType 8 false) 1)
            (.fixedSize ⟨.arg 0 (.int 64), some (.arg 2 (.int 1))⟩)
            (.fixedSize ⟨.arg 1 (.int 64), flagHandle true 3⟩))
          (binOperOf .kPLUS (intType 8 false) (intType 8 false)) ⟨true⟩)).map
      evaluatesOverflowPrimitive = some false :=
  columnar_null_masks_overflow exampleContext exampleRuntime _
    (binOperOf .kPLUS (intType 8 false) (intType 8 false)) (Or.inl rfl) (by decide) (by decide)
    (by decide) 64 (by decide) (by decide) true rfl rfl (intMax 64) 1 false true
    (Or.inr ⟨rfl, rfl⟩)

/-- C7, evaluated at the failing input: a NOT NULL 64-bit left operand without a
null flag handle, a nullable right operand whose null flag is set, error
checking enabled, for `INT64_MAX + 1` and for `1 + 1`.  The null-check suffix
is non-empty, the null-skip branch is built from the absent left flag, and
lowering aborts on the null handle: no code is generated, so no result with a
set null flag and the null sentinel is produced. -/
theorem columnar_null_operand_aborts_without_lhs_flag :
    loweringError
        (codegenArithFun exampleContext
          (loweredOperands (.ColumnVar (intType 8 true) 1)
            (.fixedSize ⟨.arg 0 (.int 64), none⟩)
            (.fixedSize ⟨.arg 1 (.int 64), some (.arg 2 (.int 1))⟩))
          (binOperOf .kPLUS (intType 8 true) (intType 8 false)) ⟨true⟩)
      = some .nullValue ∧
    observeCol exampleRuntime (argsOf [.int (intMax 64), .int 1, .bool true])
        (codegenArithFun exampleContext
          (loweredOperands (.ColumnVar (intType 8 true) 1)
            (.fixedSize ⟨.arg 0 (.int 64), none⟩)
            (.fixedSize ⟨.arg 1 (.int 64), some (.arg 2 (.int 1))⟩))
          (binOperOf .kPLUS (intType 8 true) (intType 8 false)) ⟨true⟩)
      = none ∧
    observeCol exampleRuntime (argsOf [.int 1, .int 1, .bool true])
        (codegenArithFun exampleContext
          (loweredOperands (.ColumnVar (intType 8 true) 1)
            (.fixedSize ⟨.arg 0 (.int 64), none⟩)
            (.fixedSize ⟨.arg 1 (.int 64), some (.arg 2 (.int 1))⟩))
          (binOperOf .kPLUS (intType 8 true) (intType 8 false)) ⟨true⟩)
      = none := by
  decide

/-! ### Columnar strategy: the null flag of the result -/

theorem Cgen.bind_ok {α β : Type} (x : Cgen α) (f : α → Cgen β) (s : CgenState)
    (r : β × CgenState) :
    (x >>= f) s = .ok r ↔ ∃ a s1, x s = .ok (a, s1) ∧ f a s1 = .ok r := by
  simp only [bind, StateT.bind, Except.bind]
  cases h : x s with
  | error e => simp
  | ok p =>
    rcases p with ⟨a, s1⟩
    simp only [Except.ok.injEq, Prod.mk.injEq]
    constructor
    · intro h1
      exact ⟨a, s1, ⟨rfl, rfl⟩, h1⟩
    · rintro ⟨_, _, ⟨rfl, rfl⟩, h1⟩
      exact h1

theorem Cgen.pure_ok {α : Type} (a : α) (s : CgenState) (r : α × CgenState) :
    (pure a : Cgen α) s = .ok r ↔ r = (a, s) := by
  simp only [pure, StateT.pure, Except.pure]
  constructor
  · intro h; cases h; rfl
  · intro h; rw [h]

theorem Cgen.map_ok {α β : Type} (g : α → β) (x : Cgen α) (s : CgenState)
    (r : β × CgenState) :
    (g <$> x) s = .ok r ↔ ∃ a s1, x s = .ok (a, s1) ∧ r = (g a, s1) := by
  simp only [Functor.map, StateT.map, bind, Except.bind]
  cases h : x s with
  | error e => simp
  | ok p =>
    rcases p with ⟨a, s1⟩
    simp only [pure, Except.pure, Except.ok.injEq, Prod.mk.injEq]
    constructor
    · intro h1
      exact ⟨a, s1, ⟨rfl, rfl⟩, h1.symm⟩
    · rintro ⟨_, _, ⟨rfl, rfl⟩, h1⟩
      exact h1.symm

theorem Cgen.throw_ok {α : Type} (e : CgenError) (s : CgenState) (r : α × CgenState) :
    (throw e : Cgen α) s = .ok r ↔ False := by
  simp [throw, throwThe, MonadExceptOf.throw, StateT.lift, bind, Except.bind]

/-- Every column value returned by `codegenFixedSizeColArithFun` carries the
null flag handle it was given, whatever the operator and the operands. -/
theorem codegenFixedSizeColArithFun_null (X : Context) (bin_oper : Analyzer.BinOper)
    (lhs rhs : CodegenColValues) (null : Option Operand) (nec : Bool) (s s1 : CgenState)
    (cv : CodegenColValues)
    (h : codegenFixedSizeColArithFun X bin_oper lhs rhs null nec s = .ok (cv, s1)) :
    cv.asNullable = some null := by
  unfold codegenFixedSizeColArithFun at h
  cases hl : lhs.asFixedSize <;> cases hr : rhs.asFixedSize <;> simp only [hl, hr] at h
  · exact absurd h (by simp [Cgen.throw_ok])
  · exact absurd h (by simp [Cgen.throw_ok])
  · exact absurd h (by simp [Cgen.throw_ok])
  · cases nec <;> cases hop : bin_oper.optype <;>
      simp [hop, Cgen.bind_ok, Cgen.pure_ok, Cgen.throw_ok, Cgen.map_ok] at h
    all_goals (try split at h)
    all_goals (try simp [Cgen.bind_ok, Cgen.pure_ok, Cgen.throw_ok, Cgen.map_ok] at h)
    all_goals (try (obtain ⟨_, _, rfl⟩ := h; rfl))
    all_goals (obtain ⟨_, _, _, _, _, rfl⟩ := h; rfl)

/-- C6: the null flag of the result of a columnar binary operation.  (1) Lines
107-120 of `codegenArithFun` compute it from the flags the two lowered operands
carry: both present gives a new `or` instruction over the two flags, exactly
one present gives that handle unchanged and emits nothing, none present (or
neither operand a nullable column value) gives no handle.  (2) The emitted `or`
evaluates to the logical OR of the two flag values.  (3) Whatever the operator,
the compilation options and the operand values, a column value returned by
`codegenArithFun` carries exactly the handle computed in (1). -/
theorem codegenArithFun_null_flag (X : Context)
    (codegen : Analyzer.Expr → CompilationOptions → Bool → Cgen CodegenColValues)
    (bin_oper : Analyzer.BinOper) (co : CompilationOptions) :
    (∀ (lcv rcv : CodegenColValues) (s : CgenState),
      codegenArithFunNull lcv rcv s =
        match lcv.getNull, rcv.getNull with
        | some l, some r =>
            .ok (some (.reg s.nextReg l.getType),
              { s with
                blocks := appendInstr (.assign s.nextReg (.bin .or l r)) s.blocks s.insertPoint,
                nextReg := s.nextReg + 1 })
        | some l, none => .ok (some l, s)
        | none, some r => .ok (some r, s)
        | none, none => .ok (none, s)) ∧
    (∀ (rt : Runtime) (args : Nat → Option RtVal) (env : Env) (pred : Nat) (l r : Operand)
        (x y : Bool),
      evalOperand rt args env l = some (.bool x) →
      evalOperand rt args env r = some (.bool y) →
      evalOp rt args env pred (.bin .or l r) = some (.bool (x || y))) ∧
    (∀ (s s1 : CgenState) (cv : CodegenColValues),
      codegenArithFun X codegen bin_oper co s = .ok (cv, s1) →
      ∃ lcv sa rcv sb null sc,
        codegen bin_oper.left_operand co true s = .ok (lcv, sa) ∧
        codegen bin_oper.right_operand co true sa = .ok (rcv, sb) ∧
        codegenArithFunNull lcv rcv sb = .ok (null, sc) ∧
        cv.asNullable = some null) := by
  refine ⟨?_, ?_, ?_⟩
  · intro lcv rcv s
    rcases lcv with ⟨lv, _ | l⟩ | (_ | l) | _ <;> rcases rcv with ⟨rv, _ | r⟩ | (_ | r) | _ <;>
      simp [codegenArithFunNull, CodegenColValues.getNull, CodegenColValues.asNullable] <;> rfl
  · intro rt args env pred l r x y hl hr
    simp [evalOp, hl, hr, evalBin]
  · intro s s1 cv h
    unfold codegenArithFun at h
    simp only [Cgen.bind_ok] at h
    obtain ⟨_, s0, h0, lcv, sa, hl, rcv, sb, hr, h⟩ := h
    have hs0 : s0 = s := by
      unfold CHECK at h0
      split at h0
      · simp [Cgen.pure_ok] at h0
        exact h0
      · simp [Cgen.throw_ok] at h0
    subst hs0
    refine ⟨lcv, sa, rcv, sb, ?_⟩
    split at h
    · simp [Cgen.throw_ok, Cgen.bind_ok] at h
    · simp only [Cgen.bind_ok, Cgen.pure_ok] at h
      obtain ⟨_, sb1, hsb, _, sb2, hc, null, sc, hn, h⟩ := h
      cases hsb
      have hs2 : sb2 = sb := by
        unfold CHECK at hc
        split at hc
        · simp [Cgen.pure_ok] at hc
          exact hc
        · simp [Cgen.throw_ok] at hc
      subst hs2
      exact ⟨null, sc, hl, hr, hn, codegenFixedSizeColArithFun_null X bin_oper _ _ _ _ _ _ _ h⟩

/-- C6 at concrete inputs: two nullable 64-bit operands that both carry a flag. -/
theorem codegenArithFun_null_flag_witness :
    evalOp exampleRuntime (argsOf [.int 1, .int 2, .bool true, .bool false]) (fun _ => none) 0
        (.bin .or (.arg 2 (.int 1)) (.arg 3 (.int 1))) = some (.bool (true || false)) ∧
    ∃ lcv sa rcv sb null sc,
      loweredOperands (.ColumnVar (intType 8 false) 1)
          (.fixedSize ⟨.arg 0 (.int 64), some (.arg 2 (.int 1))⟩)
          (.fixedSize ⟨.arg 1 (.int 64), some (.arg 3 (.int 1))⟩)
          (binOperOf .kPLUS (intType 8 false) (intType 8 false)).left_operand ⟨false⟩ true
          CgenState.fresh = .ok (lcv, sa) ∧
      loweredOperands (.ColumnVar (intType 8 false) 1)
          (.fixedSize ⟨.arg 0 (.int 64), some (.arg 2 (.int 1))⟩)
          (.fixedSize ⟨.arg 1 (.int 64), some (.arg 3 (.int 1))⟩)
          (binOperOf .kPLUS (intType 8 false) (intType 8 false)).right_operand ⟨false⟩ true
          sa = .ok (rcv, sb) ∧
      codegenArithFunNull lcv rcv sb = .ok (null, sc) ∧
      (CodegenColValues.fixedSize ⟨.reg 1 (.int 64), some (.reg 0 (.int 1))⟩).asNullable
        = some null :=
  ⟨(codegenArithFun_null_flag exampleContext
      (loweredOperands (.ColumnVar (intType 8 false) 1)
        (.fixedSize ⟨.arg 0 (.int 64), some (.arg 2 (.int 1))⟩)
        (.fixedSize ⟨.arg 1 (.int 64), some (.arg 3 (.int 1))⟩))
      (binOperOf .kPLUS (intType 8 false) (intType 8 false)) ⟨false⟩).2.1
      exampleRuntime _ _ 0 _ _ true false rfl rfl,
   (codegenArithFun_null_flag exampleContext
      (loweredOperands (.ColumnVar (intType 8 false) 1)
        (.fixedSize ⟨.arg 0 (.int 64), some (.arg 2 (.int 1))⟩)
        (.fixedSize ⟨.arg 1 (.int 64), some (.arg 3 (.int 1))⟩))
      (binOperOf .kPLUS (intType 8 false) (intType 8 false)) ⟨false⟩).2.2
      CgenState.fresh
      { blocks := [⟨"entry",
          [.assign 0 (.bin .or (.arg 2 (.int 1)) (.arg 3 (.int 1))),
           .assign 1 (.bin .add (.arg 0 (.int 64)) (.arg 1 (.int 64)))]⟩],
        insertPoint := 0, nextReg := 2 }
      (.fixedSize ⟨.reg 1 (.int 64), some (.reg 0 (.int 1))⟩) rfl⟩

/-! ### Legacy strategy: divide-by-zero policy -/

theorem is_fp_not_decimal (ti : SQLTypeInfo) (h : ti.is_fp = true) : ti.is_decimal = false := by
  rcases ti with ⟨ty, nn, sz, sc⟩
  cases ty <;> simp_all [SQLTypeInfo.is_fp, SQLTypeInfo.is_decimal]

theorem is_decimal_not_fp (ti : SQLTypeInfo) (h : ti.is_decimal = true) : ti.is_fp = false := by
  rcases ti with ⟨ty, nn, sz, sc⟩
  cases ty <;> simp_all [SQLTypeInfo.is_fp, SQLTypeInfo.is_decimal]

/-- Infinity mapping: flag set and floating type. -/
theorem codegenDiv_inf (X : Context) (ty : LType) (nt sfx : String) (ti : SQLTypeInfo)
    (co : CompilationOptions) (upscale : Bool)
    (hinf : X.g_inf_div_by_zero = true) (hfp : ti.is_fp = true) :
    divSummary (codegenDiv X (.arg 0 ty) (.arg 1 ty) nt sfx ti co upscale)
      = some ⟨true, false, false, false⟩ ∧
    resultCall (codegenDiv X (.arg 0 ty) (.arg 1 ty) nt sfx ti co upscale)
      = some ("safe_inf_div_" ++ X.numeric_type_name ti) := by
  have hd := is_fp_not_decimal ti hfp
  simp [divSummary, resultCall, codegenDiv, CHECK, hinf, hfp, hd, emitCall, emit, bind,
    StateT.bind, Except.bind, pure, StateT.pure, Except.pure, CgenState.fresh, appendInstr,
    Operand.getType, definingOp, allInstrs, usesInfinityMapping, usesNullMapping, usesZeroCheck,
    emitsNativeDivision, emitsCallWithStem, emitsReturnOf, hasStem, String.data_append,
    List.isPrefixOf]

/-- Null mapping: the infinity mapping does not apply and the null flag is set. -/
theorem codegenDiv_null (X : Context) (ty : LType) (nt sfx : String) (ti : SQLTypeInfo)
    (co : CompilationOptions) (upscale : Bool)
    (hdec : (ti.is_decimal && upscale) = true → ty.isIntegerTy = true)
    (hinf : (X.g_inf_div_by_zero && ti.is_fp) = false) (hnull : X.g_null_div_by_zero = true) :
    divSummary (codegenDiv X (.arg 0 ty) (.arg 1 ty) nt sfx ti co upscale)
      = some ⟨false, true, false, false⟩ ∧
    resultCall (codegenDiv X (.arg 0 ty) (.arg 1 ty) nt sfx ti co upscale)
      = some ("safe_div_" ++ X.numeric_type_name ti) := by
  by_cases hd : (ti.is_decimal && upscale) = true
  · have hty := hdec hd
    have hfp : ti.is_fp = false := is_decimal_not_fp ti (by simp at hd; exact hd.1)
    cases ty <;> simp [LType.isIntegerTy] at hty
    by_cases hs : sfx = "" <;> by_cases hn : nt = "" <;> cases hnn : ti.notnull <;>
    simp [divSummary, resultCall, codegenDiv, CHECK, hinf, hnull, hd, hs, hn, hnn, hfp, emitCall,
      emit, bind, StateT.bind, Except.bind, pure, StateT.pure, Except.pure, CgenState.fresh,
      appendInstr, Operand.getType, definingOp, allInstrs, usesInfinityMapping, usesNullMapping,
      usesZeroCheck, emitsNativeDivision, emitsCallWithStem, emitsReturnOf, hasStem,
      String.data_append, List.isPrefixOf, CreateSExt, get_int_type, LType.isIntegerTy,
      inlineIntMaxMin, BasicBlock.Create, codegenSkipOverflowCheckForNull, codegenIsNullNumber,
      CreateICmpSGT, CreateICmp, CreateFCmp, CreateOr, CreateCondBr, CreateRet, CreateMul,
      SetInsertPoint, emitTerminator, toBool, inlineIntNull, llInt, llErr]
  · simp [divSummary, resultCall, codegenDiv, CHECK, hinf, hnull, hd, emitCall, emit, bind,
      StateT.bind, Except.bind, pure, StateT.pure, Except.pure, CgenState.fresh, appendInstr,
      Operand.getType, definingOp, allInstrs, usesInfinityMapping, usesNullMapping, usesZeroCheck,
      emitsNativeDivision, emitsCallWithStem, emitsReturnOf, hasStem, String.data_append,
      List.isPrefixOf, llInt]

set_option maxHeartbeats 4000000 in
/-- No mapping applies: native division, with the zero check exactly when error
checking is enabled. -/
theorem codegenDiv_native (X : Context) (ty : LType) (nt sfx : String) (ti : SQLTypeInfo)
    (co : CompilationOptions) (upscale : Bool)
    (hdec : (ti.is_decimal && upscale) = true → ty.isIntegerTy = true)
    (hinf : (X.g_inf_div_by_zero && ti.is_fp) = false) (hnull : X.g_null_div_by_zero = false) :
    divSummary (codegenDiv X (.arg 0 ty) (.arg 1 ty) nt sfx ti co upscale)
      = some ⟨false, false, co.needs_error_check, true⟩ := by
  rcases co with ⟨nec⟩
  by_cases hfp : ti.is_fp = true
  · have hg : X.g_inf_div_by_zero = false := by simpa [hfp] using hinf
    have hd : ti.is_decimal = false := is_fp_not_decimal ti hfp
    cases nec
    · cases ty <;> by_cases hn : nt = "" <;>
      simp [divSummary, codegenDiv, CHECK, hg, hnull, hd, hn, emitCall, emit, bind, StateT.bind,
        Except.bind, pure, StateT.pure, Except.pure, CgenState.fresh, appendInstr,
        Operand.getType, allInstrs, usesInfinityMapping, usesNullMapping, usesZeroCheck,
        emitsNativeDivision, emitsCallWithStem, emitsReturnOf, hasStem, String.data_append,
        List.isPrefixOf, LType.isIntegerTy, LType.isFloatingPointTy, CreateSDiv, CreateFDiv,
        llInt, llErr]
    · cases ty <;> by_cases hs : sfx = "" <;> by_cases hn : nt = "" <;>
      simp [divSummary, codegenDiv, CHECK, hg, hnull, hd, hs, hn, hfp, emitCall, emit, bind,
        StateT.bind, Except.bind, pure, StateT.pure, Except.pure, CgenState.fresh, appendInstr,
        Operand.getType, allInstrs, usesInfinityMapping, usesNullMapping, usesZeroCheck,
        emitsNativeDivision, emitsCallWithStem, emitsReturnOf, hasStem, String.data_append,
        List.isPrefixOf, LType.isIntegerTy, LType.isFloatingPointTy, BasicBlock.Create,
        codegenSkipOverflowCheckForNull, codegenIsNullNumber, CreateICmp, CreateFCmp, CreateOr,
        CreateCondBr, CreateRet, CreateSDiv, CreateFDiv, SetInsertPoint, emitTerminator, llInt,
        llErr]
  · by_cases hd : (ti.is_decimal && upscale) = true
    · have hty := hdec hd
      cases ty <;> simp [LType.isIntegerTy] at hty
      cases nec <;>
      by_cases hs : sfx = "" <;> by_cases hn : nt = "" <;> cases hnn : ti.notnull <;>
      simp [divSummary, codegenDiv, CHECK, hnull, hd, hs, hn, hnn, hfp, emitCall, emit, bind,
        StateT.bind, Except.bind, pure, StateT.pure, Except.pure, CgenState.fresh, appendInstr,
        Operand.getType, allInstrs, usesInfinityMapping, usesNullMapping, usesZeroCheck,
        emitsNativeDivision, emitsCallWithStem, emitsReturnOf, hasStem, String.data_append,
        List.isPrefixOf, CreateSExt, get_int_type, LType.isIntegerTy, LType.isFloatingPointTy,
        inlineIntMaxMin, BasicBlock.Create, codegenSkipOverflowCheckForNull, codegenIsNullNumber,
        CreateICmpSGT, CreateICmp, CreateFCmp, CreateOr, CreateCondBr, CreateRet, CreateMul,
        CreateSDiv, CreateFDiv, SetInsertPoint, emitTerminator, toBool, inlineIntNull, llInt,
        llErr]
    · cases nec
      · cases ty <;> by_cases hn : nt = "" <;>
        simp [divSummary, codegenDiv, CHECK, hfp, hnull, hd, hn, emitCall, emit, bind,
          StateT.bind, Except.bind, pure, StateT.pure, Except.pure, CgenState.fresh, appendInstr,
          Operand.getType, allInstrs, usesInfinityMapping, usesNullMapping, usesZeroCheck,
          emitsNativeDivision, emitsCallWithStem, emitsReturnOf, hasStem, String.data_append,
          List.isPrefixOf, LType.isIntegerTy, LType.isFloatingPointTy, CreateSDiv, CreateFDiv,
          llInt, llErr]
      · cases ty <;> by_cases hs : sfx = "" <;> by_cases hn : nt = "" <;>
        simp [divSummary, codegenDiv, CHECK, hnull, hd, hs, hn, hfp, emitCall, emit, bind,
          StateT.bind, Except.bind, pure, StateT.pure, Except.pure, CgenState.fresh, appendInstr,
          Operand.getType, allInstrs, usesInfinityMapping, usesNullMapping, usesZeroCheck,
          emitsNativeDivision, emitsCallWithStem, emitsReturnOf, hasStem, String.data_append,
          List.isPrefixOf, LType.isIntegerTy, LType.isFloatingPointTy, BasicBlock.Create,
          codegenSkipOverflowCheckForNull, codegenIsNullNumber, CreateICmp, CreateFCmp, CreateOr,
          CreateCondBr, CreateRet, CreateSDiv, CreateFDiv, SetInsertPoint, emitTerminator, llInt,
          llErr]

/-- The zero-divisor treatment `codegenDiv` emits, for every configuration in
which its checks pass. -/
theorem codegenDiv_summary (X : Context) (ty : LType) (nt sfx : String) (ti : SQLTypeInfo)
    (co : CompilationOptions) (upscale : Bool)
    (hdec : (ti.is_decimal && upscale) = true → ty.isIntegerTy = true) :
    divSummary (codegenDiv X (.arg 0 ty) (.arg 1 ty) nt sfx ti co upscale)
      = some (if (X.g_inf_div_by_zero && ti.is_fp) = true then ⟨true, false, false, false⟩
              else if X.g_null_div_by_zero = true then ⟨false, true, false, false⟩
              else ⟨false, false, co.needs_error_check, true⟩) := by
  by_cases hinf : (X.g_inf_div_by_zero && ti.is_fp) = true
  · rw [if_pos hinf]
    simp only [Bool.and_eq_true] at hinf
    exact (codegenDiv_inf X ty nt sfx ti co upscale hinf.1 hinf.2).1
  · rw [if_neg hinf]
    have hinf1 : (X.g_inf_div_by_zero && ti.is_fp) = false := by simpa using hinf
    by_cases hnull : X.g_null_div_by_zero = true
    · rw [if_pos hnull]
      exact (codegenDiv_null X ty nt sfx ti co upscale hdec hinf1 hnull).1
    · rw [if_neg hnull]
      have hnull1 : X.g_null_div_by_zero = false := by simpa using hnull
      exact codegenDiv_native X ty nt sfx ti co upscale hdec hinf1 hnull1

/-- C9: the priority of the divide-by-zero policies in legacy `codegenDiv`, for
operands of one type `ty` (an integer type when a decimal dividend is
upscaled, as the source checks).  If the map-to-infinity flag is set and the
type is floating-point, the result is the call of `safe_inf_div_*`, whatever
the map-to-null flag, and neither the null-mapping call, nor a zero check, nor
a native division is emitted.  Otherwise, if the map-to-null flag is set, the
result is the call of `safe_div_*` (also for integer types with both flags
set), and no zero check or native division is emitted.  Only when neither
applies is the native division emitted, without any mapping call. -/
theorem codegenDiv_policy_priority (X : Context) (ty : LType) (nt sfx : String)
    (ti : SQLTypeInfo) (co : CompilationOptions) (upscale : Bool)
    (hdec : (ti.is_decimal && upscale) = true → ty.isIntegerTy = true) :
    ((X.g_inf_div_by_zero && ti.is_fp) = true →
      divSummary (codegenDiv X (.arg 0 ty) (.arg 1 ty) nt sfx ti co upscale)
        = some ⟨true, false, false, false⟩ ∧
      resultCall (codegenDiv X (.arg 0 ty) (.arg 1 ty) nt sfx ti co upscale)
        = some ("safe_inf_div_" ++ X.numeric_type_name ti)) ∧
    ((X.g_inf_div_by_zero && ti.is_fp) = false → X.g_null_div_by_zero = true →
      divSummary (codegenDiv X (.arg 0 ty) (.arg 1 ty) nt sfx ti co upscale)
        = some ⟨false, true, false, false⟩ ∧
      resultCall (codegenDiv X (.arg 0 ty) (.arg 1 ty) nt sfx ti co upscale)
        = some ("safe_div_" ++ X.numeric_type_name ti)) ∧
    ((X.g_inf_div_by_zero && ti.is_fp) = false → X.g_null_div_by_zero = false →
      divSummary (codegenDiv X (.arg 0 ty) (.arg 1 ty) nt sfx ti co upscale)
        = some ⟨false, false, co.needs_error_check, true⟩) := by
  refine ⟨fun h => ?_, fun h1 h2 => ?_, fun h1 h2 => ?_⟩
  · simp only [Bool.and_eq_true] at h
    exact codegenDiv_inf X ty nt sfx ti co upscale h.1 h.2
  · exact codegenDiv_null X ty nt sfx ti co upscale hdec h1 h2
  · exact codegenDiv_native X ty nt sfx ti co upscale hdec h1 h2

/-- C9 at concrete inputs: both flags set, a `double` division takes the
infinity mapping, a 64-bit integer division the null mapping. -/
theorem codegenDiv_policy_priority_witness :
    (divSummary (codegenDiv { exampleContext with g_inf_div_by_zero := true,
                                                  g_null_div_by_zero := true }
        (.arg 0 .double) (.arg 1 .double) "" ""
        { type := .kDOUBLE, notnull := true, size := 8, scale := 0 } ⟨true⟩ true)
      = some ⟨true, false, false, false⟩ ∧
     resultCall (codegenDiv { exampleContext with g_inf_div_by_zero := true,
                                                  g_null_div_by_zero := true }
        (.arg 0 .double) (.arg 1 .double) "" ""
        { type := .kDOUBLE, notnull := true, size := 8, scale := 0 } ⟨true⟩ true)
      = some "safe_inf_div_double") ∧
    (divSummary (codegenDiv { exampleContext with g_inf_div_by_zero := true,
                                                  g_null_div_by_zero := true }
        (.arg 0 (.int 64)) (.arg 1 (.int 64)) "" "" (intType 8 true) ⟨true⟩ true)
      = some ⟨false, true, false, false⟩ ∧
     resultCall (codegenDiv { exampleContext with g_inf_div_by_zero := true,
                                                  g_null_div_by_zero := true }
        (.arg 0 (.int 64)) (.arg 1 (.int 64)) "" "" (intType 8 true) ⟨true⟩ true)
      = some "safe_div_int64_t") :=
  ⟨(codegenDiv_policy_priority { exampleContext with g_inf_div_by_zero := true,
                                                      g_null_div_by_zero := true }
      .double "" "" { type := .kDOUBLE, notnull := true, size := 8, scale := 0 } ⟨true⟩ true
      (by decide)).1 (by decide),
   (codegenDiv_policy_priority { exampleContext with g_inf_div_by_zero := true,
                                                      g_null_div_by_zero := true }
      (.int 64) "" "" (intType 8 true) ⟨true⟩ true (by decide)).2.1 (by decide) (by decide)⟩

/-- C10 as amended: for every configuration in which the checks of
`codegenDiv` pass, the emitted code contains at most one of the three
zero-divisor treatments (infinity-mapping call, null-mapping call, zero-check
branch returning `ERR_DIV_BY_ZERO`); it contains exactly one when a mapping
applies (infinity flag with a floating type, or null flag) or error checking is
enabled, and none when error checking is disabled and no mapping applies, in
which case the division is emitted without a zero check. -/
theorem codegenDiv_treatments (X : Context) (ty : LType) (nt sfx : String)
    (ti : SQLTypeInfo) (co : CompilationOptions) (upscale : Bool)
    (hdec : (ti.is_decimal && upscale) = true → ty.isIntegerTy = true) :
    ∃ d, divSummary (codegenDiv X (.arg 0 ty) (.arg 1 ty) nt sfx ti co upscale) = some d ∧
      d.treatments ≤ 1 ∧
      (d.treatments = 1 ↔
        ((X.g_inf_div_by_zero && ti.is_fp) = true ∨ X.g_null_div_by_zero = true ∨
          co.needs_error_check = true)) ∧
      (d.treatments = 0 → d.nativeDivision = true) := by
  refine ⟨_, codegenDiv_summary X ty nt sfx ti co upscale hdec, ?_⟩
  rcases co with ⟨nec⟩
  cases h1 : (X.g_inf_div_by_zero && ti.is_fp) <;> cases h2 : X.g_null_div_by_zero <;>
    cases nec <;> simp [DivSummary.treatments]

/-- C10 as amended, at concrete inputs: integer division with error checking
enabled and no mapping flag has exactly one treatment, the zero check. -/
theorem codegenDiv_treatments_witness :
    ∃ d, divSummary (codegenDiv exampleContext (.arg 0 (.int 64)) (.arg 1 (.int 64)) "" ""
          (intType 8 true) ⟨true⟩ true) = some d ∧
      d.treatments ≤ 1 ∧
      (d.treatments = 1 ↔
        ((exampleContext.g_inf_div_by_zero && (intType 8 true).is_fp) = true ∨
          exampleContext.g_null_div_by_zero = true ∨
          (CompilationOptions.mk true).needs_error_check = true)) ∧
      (d.treatments = 0 → d.nativeDivision = true) :=
  codegenDiv_treatments exampleContext (.int 64) "" "" (intType 8 true) ⟨true⟩ true (by decide)

/-- C10 as stated fails: with error checking disabled and no mapping flag set,
64-bit integer division emits none of the three treatments, only the native
division. -/
theorem codegenDiv_no_treatment_counterexample :
    divSummary (codegenDiv exampleContext (.arg 0 (.int 64)) (.arg 1 (.int 64)) "" ""
        (intType 8 true) ⟨false⟩ true)
      = some ⟨false, false, false, true⟩ ∧
    (divSummary (codegenDiv exampleContext (.arg 0 (.int 64)) (.arg 1 (.int 64)) "" ""
        (intType 8 true) ⟨false⟩ true)).map DivSummary.treatments = some 0 := by
  decide

/-! ### Legacy strategy: division and modulo by zero -/

theorem is_integer_not_fp (ti : SQLTypeInfo) (h : ti.is_integer = true) : ti.is_fp = false := by
  cases hf : ti.is_fp
  · rfl
  · simp [SQLTypeInfo.is_fp, SQLTypeInfo.is_integer] at hf h
    rcases hf with h1 | h1 <;> simp [h1] at h

/-- The code `codegenDiv` emits for non-nullable integer operands when no
null mapping is configured and error checking is enabled: the comparison of
the divisor with zero, the native division, and the error exit. -/
theorem codegenDiv_fault_code (X : Context) (w : Nat) (ti : SQLTypeInfo)
    (hti : ti.is_integer = true) (hnull : X.g_null_div_by_zero = false) (upscale : Bool) :
    codegenDiv X (.arg 0 (.int w)) (.arg 1 (.int w)) "" "" ti ⟨true⟩ upscale CgenState.fresh
      = .ok (.reg 1 (.int w),
          { blocks :=
              [⟨"entry",
                [.assign 0 (.icmp .ne (.arg 1 (.int w)) (.constInt (.int w) 0)),
                 .condBr (.reg 0 (.int 1)) 1 2]⟩,
               ⟨"div_ok", [.assign 1 (.bin .sdiv (.arg 0 (.int w)) (.arg 1 (.int w)))]⟩,
               ⟨"div_zero", [.ret (.errCode .ERR_DIV_BY_ZERO)]⟩],
            insertPoint := 1, nextReg := 2 }) := by
  have hd : ti.is_decimal = false := is_integer_not_decimal ti hti
  have hfp : ti.is_fp = false := is_integer_not_fp ti hti
  simp [codegenDiv, CHECK, hd, hfp, hnull, Operand.getType, LType.isIntegerTy,
    LType.isFloatingPointTy]
  rfl

/-- C11, as amended: legacy integer division under the fault policy (no null
mapping; the infinity mapping does not apply to an integer type), error
checking enabled, non-nullable operands of width `w`.  For all `a`, `b` the
generated code returns `ERR_DIV_BY_ZERO` exactly when `b = 0`; for `b ≠ 0` it
yields the truncating quotient `a / b`, except for the one pair
`a = -2^(w-1)`, `b = -1`, whose quotient is not representable. -/
theorem legacy_division_fault_policy (X : Context) (rt : Runtime) (w : Nat) (hw : 0 < w)
    (ti : SQLTypeInfo) (hti : ti.is_integer = true) (hnull : X.g_null_div_by_zero = false)
    (upscale : Bool) (a b : Int) :
    (observe rt (argsOf [.int a, .int b])
        (codegenDiv X (.arg 0 (.int w)) (.arg 1 (.int w)) "" "" ti ⟨true⟩ upscale)
        = some (.returns (.err .ERR_DIV_BY_ZERO)) ↔ b = 0) ∧
    (b ≠ 0 → ¬ (a = intMin w ∧ b = -1) →
      observe rt (argsOf [.int a, .int b])
        (codegenDiv X (.arg 0 (.int w)) (.arg 1 (.int w)) "" "" ti ⟨true⟩ upscale)
        = some (.yields (.int (Int.tdiv a b)))) := by
  unfold observe
  rw [codegenDiv_fault_code X w ti hti hnull]
  have h0 := wrap_zero w hw
  by_cases hb : b = 0
  · simp [runCode, run, execInstrs, evalOp, evalOperand, evalBin, evalICmp, argsOf, Env.set,
      Operand.getType, h0, hb]
  · by_cases hq : a = intMin w ∧ b = -1
    · simp [runCode, run, execInstrs, evalOp, evalOperand, evalBin, evalICmp, argsOf, Env.set,
        Operand.getType, h0, hb, hq]
    · simp [runCode, run, execInstrs, evalOp, evalOperand, evalBin, evalICmp, argsOf, Env.set,
        Operand.getType, h0, hb, hq]

/-- C11 at concrete inputs: 32-bit `5 / 0` returns the divide-by-zero sentinel
and `-7 / 2` yields the truncating quotient. -/
theorem legacy_division_fault_policy_witness :
    observe exampleRuntime (argsOf [.int 5, .int 0])
        (codegenDiv exampleContext (.arg 0 (.int 32)) (.arg 1 (.int 32)) "" "" (intType 4 true)
          ⟨true⟩ true)
      = some (.returns (.err .ERR_DIV_BY_ZERO)) ∧
    observe exampleRuntime (argsOf [.int (-7), .int 2])
        (codegenDiv exampleContext (.arg 0 (.int 32)) (.arg 1 (.int 32)) "" "" (intType 4 true)
          ⟨true⟩ true)
      = some (.yields (.int (Int.tdiv (-7) 2))) :=
  ⟨(legacy_division_fault_policy exampleContext exampleRuntime 32 (by decide) (intType 4 true)
      (by decide) rfl true 5 0).1.mpr rfl,
   (legacy_division_fault_policy exampleContext exampleRuntime 32 (by decide) (intType 4 true)
      (by decide) rfl true (-7) 2).2 (by decide) (by decide)⟩

/-- C11 as stated fails at the 64-bit operands `-2^63` and `-1`: the divisor is
not zero, and the run of the generated code has no defined result, so it does
not yield the quotient. -/
theorem legacy_division_min_by_minus_one_counterexample :
    observe exampleRuntime (argsOf [.int (-9223372036854775808), .int (-1)])
        (codegenDiv exampleContext (.arg 0 (.int 64)) (.arg 1 (.int 64)) "" "" (intType 8 true)
          ⟨true⟩ true)
      = none ∧
    inRange 64 (-9223372036854775808) ∧ (-1 : Int) ≠ 0 := by
  decide

/-- The code `codegenMod` emits for non-nullable operands with error checking
enabled: the comparison of the divisor with zero, the native remainder, and
the error exit.  The context is not consulted. -/
theorem codegenMod_checked_code (X : Context) (w : Nat) (ti : SQLTypeInfo)
    (hti : ti.is_integer = true) :
    codegenMod X (.arg 0 (.int w)) (.arg 1 (.int w)) "" "" ti ⟨true⟩ CgenState.fresh
      = .ok (.reg 1 (.int w),
          { blocks :=
              [⟨"entry",
                [.assign 0 (.icmp .ne (.arg 1 (.int w)) (.constInt (.int w) 0)),
                 .condBr (.reg 0 (.int 1)) 1 2]⟩,
               ⟨"mod_ok", [.assign 1 (.bin .srem (.arg 0 (.int w)) (.arg 1 (.int w)))]⟩,
               ⟨"mod_zero", [.ret (.errCode .ERR_DIV_BY_ZERO)]⟩],
            insertPoint := 1, nextReg := 2 }) := by
  simp [codegenMod, CHECK, hti, Operand.getType]
  rfl

/-- For a modulo node over non-nullable operands `codegenIntArith` is
`codegenMod`. -/
theorem codegenIntArith_modulo (X : Context) (G : CodeGenerator) (bin_oper : Analyzer.BinOper)
    (lhs_lv rhs_lv : Operand) (co : CompilationOptions) (hop : bin_oper.optype = .kMODULO)
    (hsfx : X.get_null_check_suffix bin_oper.left_operand.get_type_info
      bin_oper.right_operand.get_type_info = "") :
    codegenIntArith X G bin_oper lhs_lv rhs_lv co
      = codegenMod X lhs_lv rhs_lv "" ""
          (if bin_oper.right_operand.get_type_info.is_timeinterval
           then bin_oper.right_operand.get_type_info
           else bin_oper.left_operand.get_type_info) co := by
  simp [codegenIntArith, hop, hsfx]

/-- C12, the behaviour of the code: for every setting of the two
divide-by-zero policy flags, the map-to-null policy included, legacy modulo of
non-nullable integers by zero with error checking enabled returns
`ERR_DIV_BY_ZERO`; it does not yield the null sentinel. -/
theorem codegenMod_ignores_div_by_zero_policy (X : Context) (rt : Runtime) (w : Nat)
    (hw : 0 < w) (ti : SQLTypeInfo) (hti : ti.is_integer = true) (g_null g_inf : Bool)
    (a : Int) :
    observe rt (argsOf [.int a, .int 0])
      (codegenMod { X with g_null_div_by_zero := g_null, g_inf_div_by_zero := g_inf }
        (.arg 0 (.int w)) (.arg 1 (.int w)) "" "" ti ⟨true⟩)
      = some (.returns (.err .ERR_DIV_BY_ZERO)) := by
  unfold observe
  rw [codegenMod_checked_code _ w ti hti]
  have h0 := wrap_zero w hw
  simp [runCode, run, execInstrs, evalOp, evalOperand, evalBin, evalICmp, argsOf, Env.set,
    Operand.getType, h0]

/-- C12 at a concrete input: with the map-to-null policy active, 32-bit
`5 % 0` returns the divide-by-zero sentinel. -/
theorem codegenMod_ignores_div_by_zero_policy_witness :
    observe exampleRuntime (argsOf [.int 5, .int 0])
      (codegenMod { exampleContext with g_null_div_by_zero := true, g_inf_div_by_zero := false }
        (.arg 0 (.int 32)) (.arg 1 (.int 32)) "" "" (intType 4 true) ⟨true⟩)
      = some (.returns (.err .ERR_DIV_BY_ZERO)) :=
  codegenMod_ignores_div_by_zero_policy exampleContext exampleRuntime 32 (by decide)
    (intType 4 true) (by decide) true false 5

/-! ### Legacy strategy: decimal division -/

/-- Reduction to `w` bits may be done before or after a multiplication. -/
theorem wrap_mul_wrap (w : Nat) (a b : Int) : wrap w (a * wrap w b) = wrap w (a * b) := by
  unfold wrap
  have hb : (b + 2 ^ (w - 1)) % 2 ^ w - 2 ^ (w - 1)
      = b - 2 ^ w * ((b + 2 ^ (w - 1)) / 2 ^ w) := by
    have := Int.emod_add_ediv (b + 2 ^ (w - 1)) (2 ^ w)
    omega
  rw [hb]
  have : a * (b - 2 ^ w * ((b + 2 ^ (w - 1)) / 2 ^ w)) + 2 ^ (w - 1)
      = (a * b + 2 ^ (w - 1)) + 2 ^ w * (-(a * ((b + 2 ^ (w - 1)) / 2 ^ w))) := by ring
  rw [this, Int.add_mul_emod_self_left]

/-- The rescale factor is positive. -/
theorem exp_to_scale_pos (s : Nat) : 0 < exp_to_scale s := by
  unfold exp_to_scale
  positivity

/-- Truncating division cancels a common positive factor, non-negative case. -/
theorem tdiv_mul_mul_right_of_nonneg (v k p : Int) (hv : 0 ≤ v) (hk : 0 ≤ k) (hp : 0 < p) :
    Int.tdiv (v * p) (k * p) = Int.tdiv v k := by
  rw [Int.tdiv_eq_ediv (Int.mul_nonneg hv hp.le) (Int.mul_nonneg hk hp.le),
    Int.tdiv_eq_ediv hv hk, Int.mul_ediv_mul_of_pos_left _ _ hp]

/-- Truncating division cancels a common positive factor. -/
theorem tdiv_mul_mul_right (v k p : Int) (hp : 0 < p) :
    Int.tdiv (v * p) (k * p) = Int.tdiv v k := by
  rcases Int.le_total 0 v with hv | hv <;> rcases Int.le_total 0 k with hk | hk
  · exact tdiv_mul_mul_right_of_nonneg v k p hv hk hp
  · obtain ⟨k1, rfl⟩ : ∃ k1, k = -k1 := ⟨-k, by ring⟩
    rw [Int.neg_mul, Int.tdiv_neg, Int.tdiv_neg,
      tdiv_mul_mul_right_of_nonneg v k1 p hv (by omega) hp]
  · obtain ⟨v1, rfl⟩ : ∃ v1, v = -v1 := ⟨-v, by ring⟩
    rw [Int.neg_mul, Int.neg_tdiv, Int.neg_tdiv,
      tdiv_mul_mul_right_of_nonneg v1 k p (by omega) hk hp]
  · obtain ⟨v1, rfl⟩ : ∃ v1, v = -v1 := ⟨-v, by ring⟩
    obtain ⟨k1, rfl⟩ : ∃ k1, k = -k1 := ⟨-k, by ring⟩
    rw [Int.neg_mul, Int.neg_mul, Int.neg_tdiv, Int.neg_tdiv, Int.tdiv_neg, Int.tdiv_neg,
      tdiv_mul_mul_right_of_nonneg v1 k1 p (by omega) (by omega) hp]

/-- The bound of the rescale guard, `INT64_MAX / 10^scale`, is a 64-bit value. -/
theorem wrap_rescale_bound (p : Int) (hp : 0 < p) :
    wrap 64 (Int.tdiv (intMax 64) p) = Int.tdiv (intMax 64) p := by
  apply wrap_of_inRange 64 (by decide)
  have hmax : (0 : Int) ≤ intMax 64 := by decide
  rw [Int.tdiv_eq_ediv hmax hp.le]
  have h1 : 0 ≤ intMax 64 / p := Int.ediv_nonneg hmax hp.le
  have h2 : intMax 64 / p ≤ intMax 64 := Int.ediv_le_self _ hmax
  have h3 : intMin 64 ≤ 0 := by decide
  exact ⟨le_trans h3 h1, h2⟩

/-- A dividend whose rescaled value does not exceed `INT64_MAX` passes the rescale
guard. -/
theorem le_rescale_bound (v p : Int) (hp : 0 < p) (h : v * p ≤ intMax 64) :
    ¬ v > Int.tdiv (intMax 64) p := by
  have hmax : (0 : Int) ≤ intMax 64 := by decide
  rw [Int.tdiv_eq_ediv hmax hp.le]
  have := (Int.le_ediv_iff_mul_le hp).mpr h
  omega

/-- For a dividend that is not negative the rescale guard is sound: a value
that passes it has a representable rescaled value. -/
theorem rescale_guard_sound_of_nonneg (s : Nat) (v : Int) (hv : 0 ≤ v)
    (hg : ¬ v > Int.tdiv (intMax 64) (exp_to_scale s)) : inRange 64 (v * exp_to_scale s) := by
  have hp := exp_to_scale_pos s
  have hmax : (0 : Int) ≤ intMax 64 := by decide
  rw [Int.tdiv_eq_ediv hmax hp.le] at hg
  have h1 : v ≤ intMax 64 / exp_to_scale s := by omega
  have h2 := (Int.le_ediv_iff_mul_le hp).mp h1
  have h3 : intMin 64 ≤ 0 := by decide
  exact ⟨le_trans h3 (Int.mul_nonneg hv hp.le), h2⟩

/-- The code `codegenDiv` emits without rescaling (`upscale` false) for a 64-bit
dividend and a non-nullable type under the fault policy: the zero check when
error checking is enabled, and the native division of the two operands. -/
theorem codegenDiv_no_upscale_code (X : Context) (rhs_lv : Operand) (ti : SQLTypeInfo)
    (hty : rhs_lv.getType = .int 64) (hfp : ti.is_fp = false)
    (hnull : X.g_null_div_by_zero = false) (nec : Bool) :
    codegenDiv X (.arg 0 (.int 64)) rhs_lv "" "" ti ⟨nec⟩ false CgenState.fresh
      = .ok (if nec then
          (.reg 1 (.int 64),
            { blocks :=
                [⟨"entry",
                  [.assign 0 (.icmp .ne rhs_lv (.constInt (.int 64) 0)),
                   .condBr (.reg 0 (.int 1)) 1 2]⟩,
                 ⟨"div_ok", [.assign 1 (.bin .sdiv (.arg 0 (.int 64)) rhs_lv)]⟩,
                 ⟨"div_zero", [.ret (.errCode .ERR_DIV_BY_ZERO)]⟩],
              insertPoint := 1, nextReg := 2 })
        else
          (.reg 0 (.int 64),
            { blocks := [⟨"entry", [.assign 0 (.bin .sdiv (.arg 0 (.int 64)) rhs_lv)]⟩],
              insertPoint := 0, nextReg := 1 })) := by
  have hA : ∀ i ty, (Operand.arg i ty).getType = ty := fun _ _ => rfl
  have hR : ∀ i ty, (Operand.reg i ty).getType = ty := fun _ _ => rfl
  have hC : ∀ ty v, (Operand.constInt ty v).getType = ty := fun _ _ => rfl
  cases nec <;>
  simp [codegenDiv, CHECK, hfp, hnull, hty, hA, hR, hC, LType.isIntegerTy,
    LType.isFloatingPointTy] <;> rfl

/-- The code of the general decimal division (`upscale` true) for a 64-bit
dividend of a NOT NULL decimal type under the fault policy: the rescale guard
against `INT64_MAX / 10^scale`, the rescale multiplication, the zero check when
error checking is enabled, and the native division. -/
theorem codegenDiv_upscale_code (X : Context) (rhs_lv : Operand) (ti : SQLTypeInfo)
    (hty : rhs_lv.getType = .int 64) (hd : ti.is_decimal = true) (hnn : ti.notnull = true)
    (hnull : X.g_null_div_by_zero = false) (nec : Bool) :
    codegenDiv X (.arg 0 (.int 64)) rhs_lv "" "" ti ⟨nec⟩ true CgenState.fresh
      = .ok (if nec then
          (.reg 4 (.int 64),
            { blocks :=
                [⟨"entry",
                  [.assign 0 (.sext (.arg 0 (.int 64)) 64),
                   .assign 1 (.icmp .sgt (.reg 0 (.int 64))
                     (.constInt (.int 64) (Int.tdiv (intMax 64) (exp_to_scale ti.scale)))),
                   .condBr (.reg 1 (.int 1)) 2 1]⟩,
                 ⟨"decimal_div_ok",
                  [.assign 2 (.bin .mul (.reg 0 (.int 64))
                     (.constInt (.int 64) (exp_to_scale ti.scale))),
                   .assign 3 (.icmp .ne rhs_lv (.constInt (.int 64) 0)),
                   .condBr (.reg 3 (.int 1)) 3 4]⟩,
                 ⟨"decimal_div_fail", [.ret (.errCode .ERR_OVERFLOW_OR_UNDERFLOW)]⟩,
                 ⟨"div_ok", [.assign 4 (.bin .sdiv (.reg 2 (.int 64)) rhs_lv)]⟩,
                 ⟨"div_zero", [.ret (.errCode .ERR_DIV_BY_ZERO)]⟩],
              insertPoint := 3, nextReg := 5 })
        else
          (.reg 3 (.int 64),
            { blocks :=
                [⟨"entry",
                  [.assign 0 (.sext (.arg 0 (.int 64)) 64),
                   .assign 1 (.icmp .sgt (.reg 0 (.int 64))
                     (.constInt (.int 64) (Int.tdiv (intMax 64) (exp_to_scale ti.scale)))),
                   .condBr (.reg 1 (.int 1)) 2 1]⟩,
                 ⟨"decimal_div_ok",
                  [.assign 2 (.bin .mul (.reg 0 (.int 64))
                     (.constInt (.int 64) (exp_to_scale ti.scale))),
                   .assign 3 (.bin .sdiv (.reg 2 (.int 64)) rhs_lv)]⟩,
                 ⟨"decimal_div_fail", [.ret (.errCode .ERR_OVERFLOW_OR_UNDERFLOW)]⟩],
              insertPoint := 1, nextReg := 4 })) := by
  have hfp := is_decimal_not_fp ti hd
  have hA : ∀ i ty, (Operand.arg i ty).getType = ty := fun _ _ => rfl
  have hR : ∀ i ty, (Operand.reg i ty).getType = ty := fun _ _ => rfl
  have hC : ∀ ty v, (Operand.constInt ty v).getType = ty := fun _ _ => rfl
  cases nec <;>
  simp [codegenDiv, CHECK, hd, hfp, hnn, hnull, hty, hA, hR, hC, LType.isIntegerTy,
    LType.isFloatingPointTy, CreateSExt, get_int_type, inlineIntMaxMin, getSExtValue] <;> rfl

/-- What the division without rescaling computes for a constant divisor `k`. -/
theorem codegenDiv_no_upscale_constant (X : Context) (rt : Runtime) (ti : SQLTypeInfo)
    (hfp : ti.is_fp = false) (hnull : X.g_null_div_by_zero = false) (nec : Bool)
    (v k : Int) (hk : k ≠ 0) (hkr : inRange 64 k) :
    observe rt (argsOf [.int v])
      (codegenDiv X (.arg 0 (.int 64)) (.constInt (.int 64) k) "" "" ti ⟨nec⟩ false)
      = if v = intMin 64 ∧ k = -1 then none else some (.yields (.int (Int.tdiv v k))) := by
  unfold observe
  rw [codegenDiv_no_upscale_code X (.constInt (.int 64) k) ti rfl hfp hnull]
  have h0 := wrap_zero 64 (by decide)
  have hwk := wrap_of_inRange 64 (by decide) k hkr
  by_cases hq : v = intMin 64 ∧ k = -1
  · obtain ⟨rfl, rfl⟩ := hq
    cases nec <;>
    simp [runCode, run, execInstrs, evalOp, evalOperand, evalBin, evalICmp, argsOf, Env.set,
      Operand.getType, h0, hwk]
  · cases nec <;>
    simp [runCode, run, execInstrs, evalOp, evalOperand, evalBin, evalICmp, argsOf, Env.set,
      Operand.getType, h0, hwk, hk, hq]

/-- What the general decimal division computes for a constant divisor `c`: the
guard looks at the upper bound only, and the rescaled dividend is reduced to 64
bits. -/
theorem codegenDiv_upscale_constant (X : Context) (rt : Runtime) (ti : SQLTypeInfo)
    (hd : ti.is_decimal = true) (hnn : ti.notnull = true)
    (hnull : X.g_null_div_by_zero = false) (nec : Bool)
    (v c : Int) (hc : c ≠ 0) (hcr : inRange 64 c) :
    observe rt (argsOf [.int v])
      (codegenDiv X (.arg 0 (.int 64)) (.constInt (.int 64) c) "" "" ti ⟨nec⟩ true)
      = if v > Int.tdiv (intMax 64) (exp_to_scale ti.scale) then
          some (.returns (.err .ERR_OVERFLOW_OR_UNDERFLOW))
        else if wrap 64 (v * exp_to_scale ti.scale) = intMin 64 ∧ c = -1 then none
        else some (.yields (.int (Int.tdiv (wrap 64 (v * exp_to_scale ti.scale)) c))) := by
  unfold observe
  rw [codegenDiv_upscale_code X (.constInt (.int 64) c) ti rfl hd hnn hnull]
  have h0 := wrap_zero 64 (by decide)
  have hwc := wrap_of_inRange 64 (by decide) c hcr
  have hb := wrap_rescale_bound (exp_to_scale ti.scale) (exp_to_scale_pos ti.scale)
  have hm := wrap_mul_wrap 64 v (exp_to_scale ti.scale)
  by_cases hg : v > Int.tdiv (intMax 64) (exp_to_scale ti.scale)
  · cases nec <;>
    simp [runCode, run, execInstrs, evalOp, evalOperand, evalBin, evalICmp, argsOf, Env.set,
      Operand.getType, h0, hwc, hb, hm, hc, hg]
  · have hg2 : ¬ Int.tdiv (intMax 64) (exp_to_scale ti.scale) < v := hg
    by_cases hq : wrap 64 (v * exp_to_scale ti.scale) = intMin 64 ∧ c = -1
    · obtain ⟨hq1, rfl⟩ := hq
      cases nec <;>
      simp [runCode, run, execInstrs, evalOp, evalOperand, evalBin, evalICmp, argsOf, Env.set,
        Operand.getType, h0, hwc, hb, hm, hg2, hq1]
    · cases nec <;>
      simp [runCode, run, execInstrs, evalOp, evalOperand, evalBin, evalICmp, argsOf, Env.set,
        Operand.getType, h0, hwc, hb, hm, hc, hg2, hq]

/-- The rescale guard never fires for a dividend that is not positive: the
general decimal division does not return `ERR_OVERFLOW_OR_UNDERFLOW` there,
whether or not the rescaled dividend is representable. -/
theorem codegenDiv_rescale_guard_passes_nonpositive (X : Context) (rt : Runtime)
    (ti : SQLTypeInfo) (hd : ti.is_decimal = true) (hnn : ti.notnull = true)
    (hnull : X.g_null_div_by_zero = false) (nec : Bool)
    (v c : Int) (hc : c ≠ 0) (hcr : inRange 64 c) (hv : v ≤ 0) :
    observe rt (argsOf [.int v])
      (codegenDiv X (.arg 0 (.int 64)) (.constInt (.int 64) c) "" "" ti ⟨nec⟩ true)
      ≠ some (.returns (.err .ERR_OVERFLOW_OR_UNDERFLOW)) := by
  rw [codegenDiv_upscale_constant X rt ti hd hnn hnull nec v c hc hcr]
  have hp := exp_to_scale_pos ti.scale
  have hmax : (0 : Int) ≤ intMax 64 := by decide
  have hq : 0 ≤ Int.tdiv (intMax 64) (exp_to_scale ti.scale) := by
    rw [Int.tdiv_eq_ediv hmax hp.le]
    exact Int.ediv_nonneg hmax hp.le
  have hg : ¬ v > Int.tdiv (intMax 64) (exp_to_scale ti.scale) := by omega
  rw [if_neg hg]
  split <;> simp

/-- C13, the behaviour of the code at a negative dividend: for the 64-bit
dividend `-10^18` of a NOT NULL decimal type of scale 1 and the divisor `10`
the rescale guard does not return `ERR_OVERFLOW_OR_UNDERFLOW`, although
`-10^18 * 10` is not representable in 64 bits; the multiplication wraps and
the code yields a positive quotient. -/
theorem codegenDiv_rescale_guard_misses_negative :
    observe exampleRuntime (argsOf [.int (-1000000000000000000), .int 10])
        (codegenDiv exampleContext (.arg 0 (.int 64)) (.arg 1 (.int 64)) "" ""
          (decimalType 1 true) ⟨true⟩ true)
      = some (.yields (.int 844674407370955161)) ∧
    inRange 64 (-1000000000000000000) ∧
    ¬ inRange 64 (-1000000000000000000 * exp_to_scale (decimalType 1 true).scale) := by
  decide

/-- A lowering that wraps a value handle never hands back the null pointer. -/
theorem some_map_not_none (c : Cgen Operand) (s s1 : CgenState) :
    ¬ ((do let ret ← c; pure (some ret) : Cgen (Option Operand)) s = .ok (none, s1)) := by
  intro h
  simp only [bind, StateT.bind, pure, StateT.pure] at h
  cases hc : c s with
  | error e => simp [hc, Except.bind] at h
  | ok r =>
      rcases r with ⟨v, s2⟩
      simp [hc, Except.bind, Except.pure] at h

/-- C14: under the precondition that `codegenDeciDiv` asserts (both operands
decimal, of the same scale), the function hands back the null pointer ("not
applicable") if and only if the divisor is neither a non-null, non-zero
constant that is an exact multiple of `10^scale` nor a `CAST` whose operand has
an integer type. -/
theorem codegenDeciDiv_not_applicable_iff (X : Context) (G : CodeGenerator)
    (bin_oper : Analyzer.BinOper) (co : CompilationOptions) (s : CgenState)
    (hpre : deciDivPrecondition bin_oper) :
    notApplicable (codegenDeciDiv X G bin_oper co) s ↔
      ¬ (isScaledConstant bin_oper.right_operand.get_type_info.scale bin_oper.right_operand ∨
         isCastFromInteger bin_oper.right_operand) := by
  obtain ⟨h1, h2, h3⟩ := hpre
  unfold notApplicable codegenDeciDiv
  simp only [CHECK, h1, h2, h3, Bool.and_self, beq_self_eq_true, if_true, pure_bind]
  cases hr : bin_oper.right_operand with
  | ColumnVar ti t =>
      simp [Analyzer.Expr.asConstant, Analyzer.Expr.asUOper, isScaledConstant, isCastFromInteger,
        pure, StateT.pure, Except.pure]
  | Other ti =>
      simp [Analyzer.Expr.asConstant, Analyzer.Expr.asUOper, isScaledConstant, isCastFromInteger,
        pure, StateT.pure, Except.pure]
  | BinOper ti o l r =>
      simp [Analyzer.Expr.asConstant, Analyzer.Expr.asUOper, isScaledConstant, isCastFromInteger,
        pure, StateT.pure, Except.pure]
  | Constant ti n v =>
      by_cases hc : (n = false ∧ v ≠ 0 ∧ (10 : Int) ^ ti.scale ∣ v)
      · have hc2 : (!n && v != 0 && Int.tmod v (exp_to_scale ti.scale) == 0) = true := by
          obtain ⟨a, b, c⟩ := hc
          simp [a, b, exp_to_scale, Int.dvd_iff_tmod_eq_zero.mp c]
        simp only [Analyzer.Expr.asConstant, Analyzer.Expr.get_type_info, hc2, if_true]
        constructor
        · intro h
          exact absurd h (some_map_not_none _ s s)
        · intro h
          exact absurd (Or.inl hc) h
      · have hc2 : (!n && v != 0 && Int.tmod v (exp_to_scale ti.scale) == 0) = false := by
          rw [Bool.eq_false_iff]
          intro h
          apply hc
          simp [exp_to_scale] at h
          exact ⟨h.1.1, h.1.2, Int.dvd_iff_tmod_eq_zero.mpr h.2⟩
        simp [Analyzer.Expr.asConstant, Analyzer.Expr.asUOper, Analyzer.Expr.get_type_info, hc2,
          isScaledConstant, isCastFromInteger, hc, pure, StateT.pure, Except.pure]
  | UOper ti o e =>
      by_cases hc : (o = .kCAST ∧ e.get_type_info.is_integer = true)
      · have hc2 : (o == .kCAST && e.get_type_info.is_integer) = true := by
          simp [hc.1, hc.2]
        simp only [Analyzer.Expr.asConstant, Analyzer.Expr.asUOper, hc2, if_true]
        simp only [Bool.false_eq_true, if_false]
        constructor
        · intro h
          exact absurd h (some_map_not_none _ s s)
        · intro h
          exact absurd (Or.inr hc) h
      · have hc2 : (o == .kCAST && e.get_type_info.is_integer) = false := by
          rw [Bool.eq_false_iff]
          intro h
          apply hc
          simpa using h
        simp [Analyzer.Expr.asConstant, Analyzer.Expr.asUOper, hc2,
          isScaledConstant, isCastFromInteger, hc, pure, StateT.pure, Except.pure]

/-- C14 at concrete divisors of scale 2: the constant zero, a null constant
and the constant `150` (not a multiple of `100`) fall back to the general path;
the constant `200` does not. -/
theorem codegenDeciDiv_not_applicable_iff_witness :
    notApplicable
        (codegenDeciDiv exampleContext exampleCodeGenerator
          (decimalDivision 2 (.Constant (decimalType 2 true) false 0)) ⟨true⟩) CgenState.fresh ∧
    notApplicable
        (codegenDeciDiv exampleContext exampleCodeGenerator
          (decimalDivision 2 (.Constant (decimalType 2 true) true 200)) ⟨true⟩) CgenState.fresh ∧
    notApplicable
        (codegenDeciDiv exampleContext exampleCodeGenerator
          (decimalDivision 2 (.Constant (decimalType 2 true) false 150)) ⟨true⟩) CgenState.fresh ∧
    ¬ notApplicable
        (codegenDeciDiv exampleContext exampleCodeGenerator
          (decimalDivision 2 (.Constant (decimalType 2 true) false 200)) ⟨true⟩)
        CgenState.fresh := by
  refine ⟨?_, ?_, ?_, ?_⟩
  · exact (codegenDeciDiv_not_applicable_iff exampleContext exampleCodeGenerator
      (decimalDivision 2 (.Constant (decimalType 2 true) false 0)) ⟨true⟩ CgenState.fresh
      ⟨rfl, rfl, rfl⟩).mpr (by simp [decimalDivision, isScaledConstant, isCastFromInteger])
  · exact (codegenDeciDiv_not_applicable_iff exampleContext exampleCodeGenerator
      (decimalDivision 2 (.Constant (decimalType 2 true) true 200)) ⟨true⟩ CgenState.fresh
      ⟨rfl, rfl, rfl⟩).mpr (by simp [decimalDivision, isScaledConstant, isCastFromInteger])
  · exact (codegenDeciDiv_not_applicable_iff exampleContext exampleCodeGenerator
      (decimalDivision 2 (.Constant (decimalType 2 true) false 150)) ⟨true⟩ CgenState.fresh
      ⟨rfl, rfl, rfl⟩).mpr (by
        simp [decimalDivision, isScaledConstant, isCastFromInteger, Analyzer.Expr.get_type_info,
          decimalType]
        decide)
  · rw [codegenDeciDiv_not_applicable_iff exampleContext exampleCodeGenerator
      (decimalDivision 2 (.Constant (decimalType 2 true) false 200)) ⟨true⟩ CgenState.fresh
      ⟨rfl, rfl, rfl⟩]
    simp [decimalDivision, isScaledConstant, isCastFromInteger, Analyzer.Expr.get_type_info,
      decimalType]
    decide

/-- For a divisor that is the constant `k * 10^scale`, `k ≠ 0`, `codegenArith`
takes the fast path: the division without rescaling of the dividend by the
constant `k`. -/
theorem codegenArith_scaled_constant (X : Context) (G : CodeGenerator) (ti lti rti : SQLTypeInfo)
    (table_id : Int) (k : Int) (co : CompilationOptions)
    (hld : lti.is_decimal = true) (hrd : rti.is_decimal = true) (hsc : lti.scale = rti.scale)
    (hk : k ≠ 0)
    (hG1 : G.codegen (.ColumnVar lti table_id) true co = pure (.arg 0 (.int 64)))
    (hG3 : G.codegenCastBetweenIntTypes (G.codegenIntConst (G.analyzeValue k))
      (G.analyzeValue k).get_type_info lti false = pure (.constInt (.int 64) k)) :
    codegenArith X G
        ⟨ti, .kDIVIDE, .ColumnVar lti table_id, .Constant rti false (k * exp_to_scale rti.scale)⟩
        co
      = codegenDiv X (.arg 0 (.int 64)) (.constInt (.int 64) k)
          (if X.get_null_check_suffix lti rti = "" then ""
           else numeric_or_time_interval_type_name X lti rti)
          (X.get_null_check_suffix lti rti) lti co false := by
  have hT1 : (Analyzer.Expr.ColumnVar lti table_id).get_type_info = lti := rfl
  have hT2 : (Analyzer.Expr.Constant rti false (k * exp_to_scale rti.scale)).get_type_info
      = rti := rfl
  have hp := exp_to_scale_pos rti.scale
  have h1 : k * exp_to_scale rti.scale ≠ 0 := Int.mul_ne_zero hk (by omega)
  have h2 : Int.tmod (k * exp_to_scale rti.scale) (exp_to_scale rti.scale) = 0 :=
    Int.dvd_iff_tmod_eq_zero.mp ⟨k, by ring⟩
  have h3 : Int.tdiv (k * exp_to_scale rti.scale) (exp_to_scale rti.scale) = k :=
    Int.mul_tdiv_cancel k (by omega)
  simp [codegenArith, CHECK, IS_ARITHMETIC, codegenDeciDiv, codegenDeciDivTail, hT1, hT2,
    Analyzer.Expr.asConstant, Analyzer.Expr.asUOper, hld, hrd, hsc, hG1, hG3, h1, h2, h3]

/-- For a constant divisor `c` the general lowering is the division with
rescaling of the dividend by the stored constant `c`. -/
theorem codegenArithGeneral_constant (X : Context) (G : CodeGenerator) (ti lti rti : SQLTypeInfo)
    (table_id : Int) (c : Int) (co : CompilationOptions)
    (hld : lti.is_decimal = true) (hrd : rti.is_decimal = true)
    (hG1 : G.codegen (.ColumnVar lti table_id) true co = pure (.arg 0 (.int 64)))
    (hG2 : G.codegen (.Constant rti false c) true co = pure (.constInt (.int 64) c)) :
    codegenArithGeneral X G ⟨ti, .kDIVIDE, .ColumnVar lti table_id, .Constant rti false c⟩ co
      = codegenDiv X (.arg 0 (.int 64)) (.constInt (.int 64) c)
          (if X.get_null_check_suffix lti rti = "" then ""
           else numeric_or_time_interval_type_name X lti rti)
          (X.get_null_check_suffix lti rti) lti co true := by
  have hT1 : (Analyzer.Expr.ColumnVar lti table_id).get_type_info = lti := rfl
  have hT2 : (Analyzer.Expr.Constant rti false c).get_type_info = rti := rfl
  have hli : lti.is_timeinterval = false := by
    simp [SQLTypeInfo.is_timeinterval, SQLTypeInfo.is_decimal] at hld ⊢
    simp [hld]
  have hri : rti.is_timeinterval = false := by
    simp [SQLTypeInfo.is_timeinterval, SQLTypeInfo.is_decimal] at hrd ⊢
    simp [hrd]
  have hty : lti.type = rti.type := by
    simp [SQLTypeInfo.is_decimal] at hld hrd
    rw [hld, hrd]
  simp [codegenArithGeneral, codegenIntArith, CHECK, hT1, hT2, hld, hli, hri, hty, hG1, hG2,
    codegenDiv_upscale]

/-- C15: a decimal dividend `v` (a 64-bit column of a NOT NULL type, fault
policy) divided by the constant `c = k * 10^s`, `k ≠ 0`, where `c` and
`v * 10^s` are representable in 64 bits.  The code of the fast path
(`codegenArith`, which divides `v` by `c / 10^s = k`) and the code of the
general path (`codegenArithGeneral`, which divides `v * 10^s` by `c`) have the
same observable result, and that result is the truncating quotient `v / k`
(the pair `v = -2^63`, `k = -1`, where neither division is defined, apart). -/
theorem decimal_fast_path_agrees_with_general_path (X : Context) (G : CodeGenerator)
    (rt : Runtime) (ti lti rti : SQLTypeInfo) (table_id : Int) (co : CompilationOptions)
    (k v : Int)
    (hld : lti.is_decimal = true) (hrd : rti.is_decimal = true) (hsc : lti.scale = rti.scale)
    (hnn : lti.notnull = true) (hsfx : X.get_null_check_suffix lti rti = "")
    (hnull : X.g_null_div_by_zero = false) (hk : k ≠ 0)
    (hG1 : G.codegen (.ColumnVar lti table_id) true co = pure (.arg 0 (.int 64)))
    (hG2 : G.codegen (.Constant rti false (k * exp_to_scale rti.scale)) true co
      = pure (.constInt (.int 64) (k * exp_to_scale rti.scale)))
    (hG3 : G.codegenCastBetweenIntTypes (G.codegenIntConst (G.analyzeValue k))
      (G.analyzeValue k).get_type_info lti false = pure (.constInt (.int 64) k))
    (hcr : inRange 64 (k * exp_to_scale rti.scale))
    (hvr : inRange 64 (v * exp_to_scale lti.scale)) :
    observe rt (argsOf [.int v])
        (codegenArith X G
          ⟨ti, .kDIVIDE, .ColumnVar lti table_id,
            .Constant rti false (k * exp_to_scale rti.scale)⟩ co)
      = observe rt (argsOf [.int v])
        (codegenArithGeneral X G
          ⟨ti, .kDIVIDE, .ColumnVar lti table_id,
            .Constant rti false (k * exp_to_scale rti.scale)⟩ co) ∧
    (¬ (v = intMin 64 ∧ k = -1) →
      observe rt (argsOf [.int v])
        (codegenArith X G
          ⟨ti, .kDIVIDE, .ColumnVar lti table_id,
            .Constant rti false (k * exp_to_scale rti.scale)⟩ co)
        = some (.yields (.int (Int.tdiv v k)))) := by
  rw [codegenArith_scaled_constant X G ti lti rti table_id k co hld hrd hsc hk hG1 hG3,
    codegenArithGeneral_constant X G ti lti rti table_id _ co hld hrd hG1 hG2]
  simp only [hsfx, if_true]
  rcases co with ⟨nec⟩
  rw [hsc] at hvr
  have hp := exp_to_scale_pos rti.scale
  have hs2 : exp_to_scale lti.scale = exp_to_scale rti.scale := by rw [hsc]
  generalize exp_to_scale rti.scale = p at *
  have hfp := is_decimal_not_fp lti hld
  have hmin : intMin 64 = -9223372036854775808 := by decide
  have hmax : intMax 64 = 9223372036854775807 := by decide
  have hkr : inRange 64 k := by
    obtain ⟨hc1, hc2⟩ := hcr
    rw [hmin] at hc1
    rw [hmax] at hc2
    unfold inRange
    rw [hmin, hmax]
    rcases le_or_lt 0 k with h | h
    · have h1 : k ≤ k * p := by nlinarith
      constructor <;> linarith
    · have h1 : k * p ≤ k := by nlinarith
      constructor <;> linarith
  have hc : k * p ≠ 0 := Int.mul_ne_zero hk (by omega)
  have hw : wrap 64 (v * p) = v * p := wrap_of_inRange 64 (by decide) _ hvr
  have hg : ¬ v > Int.tdiv (intMax 64) p := le_rescale_bound v p hp hvr.2
  have hiff : (v * p = intMin 64 ∧ k * p = -1) ↔ (v = intMin 64 ∧ k = -1) := by
    constructor
    · rintro ⟨h1, h2⟩
      have hp1 : p = 1 := Int.eq_one_of_dvd_one hp.le ⟨-k, by linarith⟩
      subst hp1
      simpa using And.intro h1 h2
    · rintro ⟨h1, h2⟩
      have hp1 : p = 1 := by
        have := hvr.1
        rw [h1, hmin] at this
        nlinarith
      subst hp1
      simpa using And.intro h1 h2
  rw [codegenDiv_no_upscale_constant X rt lti hfp hnull nec v k hk hkr,
    codegenDiv_upscale_constant X rt lti hld hnn hnull nec v (k * p) hc hcr]
  rw [hs2, if_neg hg, hw, tdiv_mul_mul_right v k p hp]
  by_cases hq : v = intMin 64 ∧ k = -1
  · rw [if_pos hq, if_pos (hiff.mpr hq)]
    exact ⟨rfl, fun h => absurd hq h⟩
  · rw [if_neg hq, if_neg (fun h => hq (hiff.mp h))]
    exact ⟨rfl, fun _ => rfl⟩

/-- C15 at a concrete input: `12.34 / 2.00` at scale 2 gives the same result on
both paths, the quotient `1234 / 2`. -/
theorem decimal_fast_path_agrees_with_general_path_witness :
    observe exampleRuntime (argsOf [.int 1234])
        (codegenArith exampleContext exampleCodeGenerator
          ⟨decimalType 2 true, .kDIVIDE, .ColumnVar (decimalType 2 true) 1,
            .Constant (decimalType 2 true) false (2 * exp_to_scale (decimalType 2 true).scale)⟩
          ⟨true⟩)
      = observe exampleRuntime (argsOf [.int 1234])
        (codegenArithGeneral exampleContext exampleCodeGenerator
          ⟨decimalType 2 true, .kDIVIDE, .ColumnVar (decimalType 2 true) 1,
            .Constant (decimalType 2 true) false (2 * exp_to_scale (decimalType 2 true).scale)⟩
          ⟨true⟩) ∧
    observe exampleRuntime (argsOf [.int 1234])
        (codegenArith exampleContext exampleCodeGenerator
          ⟨decimalType 2 true, .kDIVIDE, .ColumnVar (decimalType 2 true) 1,
            .Constant (decimalType 2 true) false (2 * exp_to_scale (decimalType 2 true).scale)⟩
          ⟨true⟩)
      = some (.yields (.int (Int.tdiv 1234 2))) :=
  have h := decimal_fast_path_agrees_with_general_path exampleContext exampleCodeGenerator
    exampleRuntime (decimalType 2 true) (decimalType 2 true) (decimalType 2 true) 1 ⟨true⟩ 2 1234
    (by decide) (by decide) rfl rfl rfl rfl (by decide) rfl rfl rfl (by decide) (by decide)
  ⟨h.1, h.2 (by decide)⟩

/-- For a divisor that is a `CAST` of an integer expression, `codegenArith` takes
the fast path: the division without rescaling of the dividend by the lowered
operand of the cast. -/
theorem codegenArith_cast_divisor (X : Context) (G : CodeGenerator) (ti lti rti : SQLTypeInfo)
    (table_id : Int) (operand : Analyzer.Expr) (co : CompilationOptions)
    (hoi : operand.get_type_info.is_integer = true)
    (hld : lti.is_decimal = true) (hrd : rti.is_decimal = true) (hsc : lti.scale = rti.scale)
    (hG1 : G.codegen (.ColumnVar lti table_id) true co = pure (.arg 0 (.int 64)))
    (hG2 : G.codegen operand true co = pure (.arg 1 (.int 64)))
    (hG3 : G.codegenCastBetweenIntTypes (.arg 1 (.int 64)) operand.get_type_info lti false
      = pure (.arg 1 (.int 64))) :
    codegenArith X G ⟨ti, .kDIVIDE, .ColumnVar lti table_id, .UOper rti .kCAST operand⟩ co
      = codegenDiv X (.arg 0 (.int 64)) (.arg 1 (.int 64))
          (if X.get_null_check_suffix lti rti = "" then ""
           else numeric_or_time_interval_type_name X lti rti)
          (X.get_null_check_suffix lti rti) lti co false := by
  have hT1 : (Analyzer.Expr.ColumnVar lti table_id).get_type_info = lti := rfl
  have hT2 : (Analyzer.Expr.UOper rti .kCAST operand).get_type_info = rti := rfl
  simp [codegenArith, CHECK, IS_ARITHMETIC, codegenDeciDiv, codegenDeciDivTail, hT1, hT2,
    Analyzer.Expr.asConstant, Analyzer.Expr.asUOper, hoi, hld, hrd, hsc, hG1, hG2, hG3]

/-- Without rescaling `codegenDiv` emits neither an overflow primitive nor an
exit returning `ERR_OVERFLOW_OR_UNDERFLOW`, in every configuration. -/
theorem codegenDiv_no_upscale_no_overflow_exit (X : Context) (nt sfx : String)
    (ti : SQLTypeInfo) (hfp : ti.is_fp = false) (co : CompilationOptions) :
    overflowInstrumentation
        (codegenDiv X (.arg 0 (.int 64)) (.arg 1 (.int 64)) nt sfx ti co false)
      = some (false, false) := by
  rcases co with ⟨nec⟩
  cases nec <;> cases hnull : X.g_null_div_by_zero <;> by_cases hs : sfx = "" <;>
  by_cases hn : nt = "" <;>
  simp [overflowInstrumentation, codegenDiv, CHECK, hfp, hnull, hs, hn, emitCall, emit, bind,
    StateT.bind, Except.bind, pure, StateT.pure, Except.pure, CgenState.fresh, appendInstr,
    Operand.getType, allInstrs, evaluatesOverflowPrimitive, emitsReturnOf, LType.isIntegerTy,
    LType.isFloatingPointTy, BasicBlock.Create, codegenSkipOverflowCheckForNull,
    codegenIsNullNumber, CreateICmp, CreateFCmp, CreateOr, CreateCondBr, CreateRet, CreateSDiv,
    CreateFDiv, SetInsertPoint, emitTerminator, llInt, llErr]

/-- C16: decimal dividend `v` (a 64-bit column) divided by a `CAST` of an integer
expression with value `n`.  The generated code divides `v` by `n` itself: for a
NOT NULL type under the fault policy it yields the truncating quotient `v / n`
wherever that quotient is defined; and in every configuration the code has no
overflow primitive and no exit returning `ERR_OVERFLOW_OR_UNDERFLOW` (no
rescale guard is emitted). -/
theorem codegenDeciDiv_cast_from_integer (X : Context) (G : CodeGenerator) (rt : Runtime)
    (ti lti rti : SQLTypeInfo) (table_id : Int) (operand : Analyzer.Expr)
    (co : CompilationOptions)
    (hoi : operand.get_type_info.is_integer = true)
    (hld : lti.is_decimal = true) (hrd : rti.is_decimal = true) (hsc : lti.scale = rti.scale)
    (hG1 : G.codegen (.ColumnVar lti table_id) true co = pure (.arg 0 (.int 64)))
    (hG2 : G.codegen operand true co = pure (.arg 1 (.int 64)))
    (hG3 : G.codegenCastBetweenIntTypes (.arg 1 (.int 64)) operand.get_type_info lti false
      = pure (.arg 1 (.int 64))) :
    (X.get_null_check_suffix lti rti = "" → X.g_null_div_by_zero = false →
      ∀ v n : Int, n ≠ 0 → ¬ (v = intMin 64 ∧ n = -1) →
        observe rt (argsOf [.int v, .int n])
          (codegenArith X G ⟨ti, .kDIVIDE, .ColumnVar lti table_id, .UOper rti .kCAST operand⟩
            co)
          = some (.yields (.int (Int.tdiv v n)))) ∧
    overflowInstrumentation
        (codegenArith X G ⟨ti, .kDIVIDE, .ColumnVar lti table_id, .UOper rti .kCAST operand⟩ co)
      = some (false, false) := by
  rw [codegenArith_cast_divisor X G ti lti rti table_id operand co hoi hld hrd hsc hG1 hG2 hG3]
  have hfp := is_decimal_not_fp lti hld
  refine ⟨?_, codegenDiv_no_upscale_no_overflow_exit X _ _ lti hfp co⟩
  intro hsfx hnull v n hn hq
  rcases co with ⟨nec⟩
  have h0 := wrap_zero 64 (by decide)
  unfold observe
  simp only [hsfx, if_true]
  rw [codegenDiv_no_upscale_code X (.arg 1 (.int 64)) lti rfl hfp hnull]
  cases nec <;>
  simp [runCode, run, execInstrs, evalOp, evalOperand, evalBin, evalICmp, argsOf, Env.set,
    Operand.getType, h0, hn, hq]

/-- C16 at a concrete input: `12.34` (stored `1234`, scale 2) divided by the
integer `2` yields `617`, that is `6.17`. -/
theorem codegenDeciDiv_cast_from_integer_witness :
    observe exampleRuntime (argsOf [.int 1234, .int 2])
        (codegenArith exampleContext exampleCodeGenerator
          ⟨decimalType 2 true, .kDIVIDE, .ColumnVar (decimalType 2 true) 1,
            .UOper (decimalType 2 true) .kCAST (.ColumnVar (intType 8 true) 2)⟩ ⟨true⟩)
      = some (.yields (.int (Int.tdiv 1234 2))) ∧ Int.tdiv 1234 2 = 617 :=
  ⟨(codegenDeciDiv_cast_from_integer exampleContext exampleCodeGenerator exampleRuntime
      (decimalType 2 true) (decimalType 2 true) (decimalType 2 true) 1
      (.ColumnVar (intType 8 true) 2) ⟨true⟩ (by decide) (by decide) (by decide) rfl rfl rfl
      rfl).1 rfl rfl 1234 2 (by decide) (by decide), by decide⟩

/-! ### Range-elision oracle -/

/-- The test `is_temporary_column` recognises exactly the column references with
a negative table id. -/
theorem is_temporary_column_iff (e : Analyzer.Expr) :
    is_temporary_column e = true ↔ isTemporaryColumn e := by
  cases e with
  | ColumnVar ti t =>
      simp only [is_temporary_column, isTemporaryColumn, decide_eq_true_eq]
      constructor
      · intro h
        exact ⟨ti, t, rfl, h⟩
      · rintro ⟨ti1, t1, h, hlt⟩
        cases h
        exact hlt
  | Constant ti n v => simp [is_temporary_column, isTemporaryColumn]
  | UOper ti o e => simp [is_temporary_column, isTemporaryColumn]
  | BinOper ti o l r => simp [is_temporary_column, isTemporaryColumn]
  | Other ti => simp [is_temporary_column, isTemporaryColumn]

/-- C17: with the plan state present (the function asserts it),
`checkExpressionRanges(bin_oper, min, max)` returns true if and only if neither
operand is a temporary column, the result type is not decimal, an executor is
present, the estimated range has type `Integer`, and `min ≤ range.min` and
`range.max ≤ max`; in every other case it returns false, in particular when no
query information is available. -/
theorem checkExpressionRanges_iff (G : CodeGenerator)
    (getExpressionRange : Analyzer.BinOper → List InputTableInfo → Executor → ExpressionRange)
    (bin_oper : Analyzer.BinOper) (min max : Int) (plan_state : PlanState)
    (hps : G.plan_state_ = some plan_state) :
    (checkExpressionRanges G getExpressionRange bin_oper min max = .ok true ↔
      ¬ isTemporaryColumn bin_oper.left_operand ∧ ¬ isTemporaryColumn bin_oper.right_operand ∧
      bin_oper.type_info.is_decimal = false ∧
      ∃ executor, G.executor_ = some executor ∧
        (estimatedRange getExpressionRange bin_oper plan_state executor).type = .Integer ∧
        min ≤ (estimatedRange getExpressionRange bin_oper plan_state executor).int_min ∧
        (estimatedRange getExpressionRange bin_oper plan_state executor).int_max ≤ max) ∧
    (checkExpressionRanges G getExpressionRange bin_oper min max ≠ .ok true →
      checkExpressionRanges G getExpressionRange bin_oper min max = .ok false) ∧
    (plan_state.query_infos_ = [] →
      checkExpressionRanges G getExpressionRange bin_oper min max = .ok false) := by
  simp only [← is_temporary_column_iff]
  cases he : G.executor_ with
  | none =>
      cases hl : is_temporary_column bin_oper.left_operand <;>
      cases hr : is_temporary_column bin_oper.right_operand <;>
      cases hd : bin_oper.type_info.is_decimal <;>
      simp [checkExpressionRanges, hps, he, hl, hr, hd, pure, Except.pure]
  | some executor =>
      have hest : (if plan_state.query_infos_.length > 0 then
            getExpressionRange bin_oper plan_state.query_infos_ executor
          else ExpressionRange.makeInvalidRange)
          = estimatedRange getExpressionRange bin_oper plan_state executor := by
        unfold estimatedRange
        cases plan_state.query_infos_ <;> simp
      have hinv : plan_state.query_infos_ = [] →
          (estimatedRange getExpressionRange bin_oper plan_state executor).type = .Invalid := by
        intro h
        simp [estimatedRange, h, ExpressionRange.makeInvalidRange]
      simp only [checkExpressionRanges, hps, he, hest, Option.some.injEq, exists_eq_left']
      generalize estimatedRange getExpressionRange bin_oper plan_state executor = r at hinv ⊢
      cases hl : is_temporary_column bin_oper.left_operand <;>
      cases hr : is_temporary_column bin_oper.right_operand <;>
      cases hd : bin_oper.type_info.is_decimal <;>
      simp [pure, Except.pure]
      by_cases hty : r.type = .Integer
      · by_cases hb : min ≤ r.int_min ∧ r.int_max ≤ max
        · simp [ExpressionRange.getType, ExpressionRange.getIntMin, ExpressionRange.getIntMax,
            hty, hb]
          intro h
          simp [hinv h] at hty
        · simp [ExpressionRange.getType, ExpressionRange.getIntMin, ExpressionRange.getIntMax,
            hty, hb]
          have hn : min ≤ r.int_min → max < r.int_max := by
            intro h1
            by_contra h2
            exact hb ⟨h1, not_lt.mp h2⟩
          exact ⟨hn, fun _ => hn⟩
      · simp [ExpressionRange.getType, ExpressionRange.getIntMin, ExpressionRange.getIntMax, hty]

/-- C17 at concrete inputs: an estimate `[0, 10]` within the 32-bit bounds
gives true; without query information the answer is false. -/
theorem checkExpressionRanges_iff_witness :
    checkExpressionRanges exampleCodeGenerator exampleRange
        (binOperOf .kPLUS (intType 4 true) (intType 4 true)) (intMin 32) (intMax 32)
      = .ok true ∧
    checkExpressionRanges { exampleCodeGenerator with plan_state_ := some { query_infos_ := [] } }
        exampleRange (binOperOf .kPLUS (intType 4 true) (intType 4 true)) (intMin 32) (intMax 32)
      = .ok false := by
  constructor
  · refine (checkExpressionRanges_iff exampleCodeGenerator exampleRange
      (binOperOf .kPLUS (intType 4 true) (intType 4 true)) (intMin 32) (intMax 32)
      { query_infos_ := [{ table_id := 1 }] } rfl).1.mpr ⟨?_, ?_, rfl, ⟨{ id := 0 }, rfl, ?_⟩⟩
    · rw [← is_temporary_column_iff]; decide
    · rw [← is_temporary_column_iff]; decide
    · decide
  · exact (checkExpressionRanges_iff
      { exampleCodeGenerator with plan_state_ := some { query_infos_ := [] } } exampleRange
      (binOperOf .kPLUS (intType 4 true) (intType 4 true)) (intMin 32) (intMax 32)
      { query_infos_ := [] } rfl).2.2 rfl

/-- Whenever the null-skip condition of the columnar lowering is defined (error
checking disabled, an empty null-check suffix, or a null flag on the left
operand), the code emitted for an integer add, subtract or multiply has the
overflow primitive and the overflow error exit exactly when error checking is
enabled. -/
theorem columnar_overflow_check_follows_error_checking_flag (X : Context)
    (bin_oper : Analyzer.BinOper) (w : Nat) (lhs_null rhs_null null : Option Operand)
    (nec : Bool)
    (hop : bin_oper.optype = .kPLUS ∨ bin_oper.optype = .kMINUS ∨ bin_oper.optype = .kMULTIPLY)
    (hint : bin_oper.left_operand.get_type_info.is_integer = true)
    (hdef : nec = false ∨
      X.get_null_check_suffix bin_oper.left_operand.get_type_info
        bin_oper.right_operand.get_type_info = "" ∨ lhs_null.isSome = true) :
    overflowInstrumentation
        (codegenFixedSizeColArithFun X bin_oper (.fixedSize ⟨.arg 0 (.int w), lhs_null⟩)
          (.fixedSize ⟨.arg 1 (.int w), rhs_null⟩) null nec)
      = some (nec, nec) := by
  have hA : ∀ i ty, (Operand.arg i ty).getType = ty := fun _ _ => rfl
  have hR : ∀ i ty, (Operand.reg i ty).getType = ty := fun _ _ => rfl
  have hC : ∀ ty v, (Operand.constInt ty v).getType = ty := fun _ _ => rfl
  revert hdef
  rcases hop with h | h | h <;> cases nec <;>
  by_cases hs : X.get_null_check_suffix bin_oper.left_operand.get_type_info
    bin_oper.right_operand.get_type_info = "" <;>
  rcases lhs_null with _ | l <;> rcases rhs_null with _ | rn <;>
  simp [overflowInstrumentation, codegenFixedSizeColArithFun, CodegenColValues.asFixedSize,
    codegenArithWithOverflowCheckForArrow, codegenSkipOverflowCheckForNullForArrow, deref,
    h, hs, hint, hA, hR, hC, LType.isIntegerTy, emit, bind, StateT.bind,
    Except.bind, pure, StateT.pure, Except.pure, CgenState.fresh, appendInstr,
    allInstrs, evaluatesOverflowPrimitive, emitsReturnOf, BasicBlock.Create, GetInsertBlock,
    CreateCall, CreateExtractValue, CreateCondBr, CreateRet, CreatePHI, CreateAdd, CreateSub,
    CreateMul, CreateOr, SetInsertPoint, emitTerminator, llErr, overflowResultType, throw,
    throwThe, MonadExceptOf.throw, StateT.lift, getArithWithOverflowIntrinsic]

/-- C18 (amended): range elision is not applied.  For an integer add, subtract
or multiply the legacy lowering emits the runtime overflow check (the overflow
primitive and the exit returning `ERR_OVERFLOW_OR_UNDERFLOW`) exactly when
error checking is enabled, and so does the columnar lowering whenever its
null-skip condition is defined (error checking disabled, an empty null-check
suffix, or a null flag on the left operand).  The range-elision oracle is not
an input of the lowering: the check is there whatever the oracle would report. -/
theorem overflow_check_follows_error_checking_flag (X : Context) (bin_oper : Analyzer.BinOper)
    (w : Nat) (ti : SQLTypeInfo) (hti : ti.is_integer = true)
    (null_typename null_check_suffix : String) (co : CompilationOptions) (downscale : Bool) :
    overflowInstrumentation
        (codegenAdd X bin_oper (.arg 0 (.int w)) (.arg 1 (.int w)) null_typename
          null_check_suffix ti co)
      = some (co.needs_error_check, co.needs_error_check) ∧
    overflowInstrumentation
        (codegenSub X bin_oper (.arg 0 (.int w)) (.arg 1 (.int w)) null_typename
          null_check_suffix ti co)
      = some (co.needs_error_check, co.needs_error_check) ∧
    overflowInstrumentation
        (codegenMul X bin_oper (.arg 0 (.int w)) (.arg 1 (.int w)) null_typename
          null_check_suffix ti co downscale)
      = some (co.needs_error_check, co.needs_error_check) ∧
    (∀ (lhs_null rhs_null null : Option Operand),
      (bin_oper.optype = .kPLUS ∨ bin_oper.optype = .kMINUS ∨ bin_oper.optype = .kMULTIPLY) →
      bin_oper.left_operand.get_type_info.is_integer = true →
      (co.needs_error_check = false ∨
        X.get_null_check_suffix bin_oper.left_operand.get_type_info
          bin_oper.right_operand.get_type_info = "" ∨ lhs_null.isSome = true) →
      overflowInstrumentation
          (codegenFixedSizeColArithFun X bin_oper (.fixedSize ⟨.arg 0 (.int w), lhs_null⟩)
            (.fixedSize ⟨.arg 1 (.int w), rhs_null⟩) null co.needs_error_check)
        = some (co.needs_error_check, co.needs_error_check)) := by
  rcases co with ⟨nec⟩
  refine ⟨?_, ?_, ?_, fun lhs_null rhs_null null hop hint hdef =>
    columnar_overflow_check_follows_error_checking_flag X bin_oper w lhs_null rhs_null null nec
      hop hint hdef⟩ <;> cases nec <;> by_cases hs : null_check_suffix = "" <;>
  simp [overflowInstrumentation, codegenAdd, codegenSub, codegenMul, codegenAddTail,
    codegenSubTail, codegenMulTail, codegenBinOpWithOverflowForCPU,
    codegenSkipOverflowCheckForNull, codegenIsNullNumber, CHECK, hti, hs, inlineIntMaxMin,
    emitCall, emit, bind, StateT.bind, Except.bind, pure, StateT.pure, Except.pure,
    CgenState.fresh, appendInstr, Operand.getType, allInstrs, evaluatesOverflowPrimitive,
    emitsReturnOf, BasicBlock.Create, GetInsertBlock, CreateCall, CreateExtractValue,
    CreateCondBr, CreateRet, CreatePHI, CreateAdd, CreateSub, CreateMul, CreateICmp, CreateFCmp,
    CreateOr, SetInsertPoint, emitTerminator, llInt, llErr, overflowResultType,
    is_integer_not_fp ti hti]

/-- C18 at concrete inputs: with error checking disabled the legacy 32-bit
addition is emitted without overflow check; with error checking enabled the
columnar 32-bit addition of two NOT NULL columns is emitted with it. -/
theorem overflow_check_follows_error_checking_flag_witness :
    overflowInstrumentation
        (codegenAdd exampleContext (binOperOf .kPLUS (intType 4 true) (intType 4 true))
          (.arg 0 (.int 32)) (.arg 1 (.int 32)) "" "" (intType 4 true) ⟨false⟩)
      = some (false, false) ∧
    overflowInstrumentation
        (codegenFixedSizeColArithFun exampleContext
          (binOperOf .kPLUS (intType 4 true) (intType 4 true))
          (.fixedSize ⟨.arg 0 (.int 32), none⟩) (.fixedSize ⟨.arg 1 (.int 32), none⟩) none true)
      = some (true, true) :=
  ⟨(overflow_check_follows_error_checking_flag exampleContext
      (binOperOf .kPLUS (intType 4 true) (intType 4 true)) 32 (intType 4 true) (by decide) "" ""
      ⟨false⟩ true).1,
   (overflow_check_follows_error_checking_flag exampleContext
      (binOperOf .kPLUS (intType 4 true) (intType 4 true)) 32 (intType 4 true) (by decide) "" ""
      ⟨true⟩ true).2.2.2 none none none (Or.inl rfl) (by decide) (Or.inr (Or.inl rfl))⟩

/-- C18 as stated fails: for a 32-bit addition of two table columns the oracle
reports that the result range `[0, 10]` lies within the bounds of the type, and
the lowering of the node with error checking enabled still emits the overflow
primitive and the overflow error exit. -/
theorem range_elision_not_applied_counterexample :
    checkExpressionRanges exampleCodeGenerator exampleRange
        (binOperOf .kPLUS (intType 4 true) (intType 4 true)) (intMin 32) (intMax 32)
      = .ok true ∧
    overflowInstrumentation
        (codegenArith exampleContext exampleCodeGenerator
          (binOperOf .kPLUS (intType 4 true) (intType 4 true)) ⟨true⟩)
      = some (true, true) :=
  ⟨rfl, by decide⟩

/-! ### Legacy entry point: operand compatibility -/

/-- When the fast path of the decimal division is not tried, `codegenArith` is
the general lowering. -/
theorem codegenArith_general (X : Context) (G : CodeGenerator) (bin_oper : Analyzer.BinOper)
    (co : CompilationOptions) (harith : IS_ARITHMETIC bin_oper.optype = true)
    (hfast : (bin_oper.left_operand.get_type_info.is_decimal &&
      bin_oper.right_operand.get_type_info.is_decimal && bin_oper.optype == .kDIVIDE) = false) :
    codegenArith X G bin_oper co = codegenArithGeneral X G bin_oper co := by
  simp [codegenArith, CHECK, harith, hfast]

/-- A time interval type is not a decimal type. -/
theorem is_timeinterval_not_decimal (ti : SQLTypeInfo) (h : ti.is_timeinterval = true) :
    ti.is_decimal = false := by
  simp [SQLTypeInfo.is_timeinterval, SQLTypeInfo.is_decimal] at *
  rcases h with h | h <;> simp [h]

/-- A lowering that has no successful result aborts. -/
theorem abortsFrom_of_no_ok {α : Type} (c : Cgen α) (s : CgenState)
    (h : ∀ r, c s ≠ .ok r) : abortsFrom c s := by
  unfold abortsFrom
  cases hc : c s with
  | error e => exact ⟨e, rfl⟩
  | ok r => exact absurd hc (h r)

/-- C19: operand compatibility in legacy `codegenArith` (on an arithmetic node,
as the function asserts).  A time interval on the left: the right value is cast
to the left type and integer arithmetic follows.  Otherwise a time interval on
the right: the left value is cast to the right type, and the left type selects
integer or floating arithmetic.  Otherwise the two kinds must be equal: when
they differ the lowering aborts and produces no value; when they are equal an
integer or decimal left type dispatches to `codegenIntArith` (for a decimal
division once the fast path has handed back "not applicable"), a floating left
type to `codegenFpArith`, and any other left type aborts. -/
theorem codegenArith_operand_compatibility (X : Context) (G : CodeGenerator)
    (bin_oper : Analyzer.BinOper) (co : CompilationOptions)
    (harith : IS_ARITHMETIC bin_oper.optype = true) :
    (bin_oper.left_operand.get_type_info.is_timeinterval = true →
      codegenArith X G bin_oper co = withOperands G bin_oper co fun lhs_lv rhs_lv => do
        let rhs_lv ← G.codegenCastBetweenIntTypes rhs_lv
          bin_oper.right_operand.get_type_info bin_oper.left_operand.get_type_info G.cast_upscale
        codegenIntArith X G bin_oper lhs_lv rhs_lv co) ∧
    (bin_oper.left_operand.get_type_info.is_timeinterval = false →
      bin_oper.right_operand.get_type_info.is_timeinterval = true →
      codegenArith X G bin_oper co = withOperands G bin_oper co fun lhs_lv rhs_lv => do
        let lhs_lv ← G.codegenCastBetweenIntTypes lhs_lv
          bin_oper.left_operand.get_type_info bin_oper.right_operand.get_type_info G.cast_upscale
        if bin_oper.left_operand.get_type_info.is_integer
            || bin_oper.left_operand.get_type_info.is_decimal then
          codegenIntArith X G bin_oper lhs_lv rhs_lv co
        else if bin_oper.left_operand.get_type_info.is_fp then
          codegenFpArith X bin_oper lhs_lv rhs_lv co
        else throw (.checkFailed "false")) ∧
    (bin_oper.left_operand.get_type_info.is_timeinterval = false →
      bin_oper.right_operand.get_type_info.is_timeinterval = false →
      bin_oper.left_operand.get_type_info.type ≠ bin_oper.right_operand.get_type_info.type →
      ∀ s, abortsFrom (codegenArith X G bin_oper co) s) ∧
    (bin_oper.left_operand.get_type_info.is_timeinterval = false →
      bin_oper.right_operand.get_type_info.is_timeinterval = false →
      bin_oper.left_operand.get_type_info.type = bin_oper.right_operand.get_type_info.type →
      (bin_oper.left_operand.get_type_info.is_integer = true →
        codegenArith X G bin_oper co = withOperands G bin_oper co fun lhs_lv rhs_lv =>
          codegenIntArith X G bin_oper lhs_lv rhs_lv co) ∧
      (bin_oper.left_operand.get_type_info.is_decimal = true →
        ∀ s, (bin_oper.optype = .kDIVIDE → notApplicable (codegenDeciDiv X G bin_oper co) s) →
          codegenArith X G bin_oper co s = (withOperands G bin_oper co fun lhs_lv rhs_lv =>
            codegenIntArith X G bin_oper lhs_lv rhs_lv co) s) ∧
      (bin_oper.left_operand.get_type_info.is_fp = true →
        codegenArith X G bin_oper co = withOperands G bin_oper co fun lhs_lv rhs_lv =>
          codegenFpArith X bin_oper lhs_lv rhs_lv co) ∧
      (bin_oper.left_operand.get_type_info.is_integer = false →
        bin_oper.left_operand.get_type_info.is_decimal = false →
        bin_oper.left_operand.get_type_info.is_fp = false →
        ∀ s, abortsFrom (codegenArith X G bin_oper co) s)) := by
  refine ⟨fun hl => ?_, fun hl hr => ?_, fun hl hr hne s => ?_, fun hl hr heq => ⟨fun hi => ?_,
    fun hd s hna => ?_, fun hf => ?_, fun hi hd hf s => ?_⟩⟩
  · rw [codegenArith_general X G bin_oper co harith
      (by simp [is_timeinterval_not_decimal _ hl])]
    simp [codegenArithGeneral, withOperands, hl]
  · have hrd := is_timeinterval_not_decimal _ hr
    rw [codegenArith_general X G bin_oper co harith (by simp [hrd])]
    simp [codegenArithGeneral, withOperands, hl, hr]
  · have hfast : (bin_oper.left_operand.get_type_info.is_decimal &&
        bin_oper.right_operand.get_type_info.is_decimal && bin_oper.optype == .kDIVIDE)
        = false := by
      rw [Bool.eq_false_iff]
      intro h
      simp [SQLTypeInfo.is_decimal] at h
      exact hne (h.1.1.trans h.1.2.symm)
    rw [codegenArith_general X G bin_oper co harith hfast]
    apply abortsFrom_of_no_ok
    intro r hok
    simp [codegenArithGeneral, hl, hr, CHECK, hne, Cgen.bind_ok, Cgen.throw_ok] at hok
  · rw [codegenArith_general X G bin_oper co harith
      (by simp [is_integer_not_decimal _ hi])]
    simp [codegenArithGeneral, withOperands, hl, hr, heq, CHECK, hi]
  · have hg : codegenArithGeneral X G bin_oper co = withOperands G bin_oper co
        fun lhs_lv rhs_lv => codegenIntArith X G bin_oper lhs_lv rhs_lv co := by
      simp [codegenArithGeneral, withOperands, hl, hr, heq, CHECK, hd]
    rw [← hg]
    by_cases hop : bin_oper.optype = .kDIVIDE
    · have hna2 := hna hop
      unfold notApplicable at hna2
      have hrd : bin_oper.right_operand.get_type_info.is_decimal = true := by
        simp [SQLTypeInfo.is_decimal] at hd ⊢
        rw [← heq]
        exact hd
      simp [codegenArith, CHECK, IS_ARITHMETIC, hd, hrd, hop, bind, StateT.bind, Except.bind, hna2,
        pure, StateT.pure, Except.pure]
    · rw [codegenArith_general X G bin_oper co harith (by simp [hop])]
  · rw [codegenArith_general X G bin_oper co harith
      (by simp [is_fp_not_decimal _ hf])]
    have hi : bin_oper.left_operand.get_type_info.is_integer = false := by
      cases hi : bin_oper.left_operand.get_type_info.is_integer
      · rfl
      · simp [is_integer_not_fp _ hi] at hf
    simp [codegenArithGeneral, withOperands, hl, hr, heq, CHECK, hi, hf, is_fp_not_decimal _ hf]
  · rw [codegenArith_general X G bin_oper co harith (by simp [hd])]
    apply abortsFrom_of_no_ok
    intro r hok
    simp [codegenArithGeneral, hl, hr, heq, CHECK, hi, hd, hf, Cgen.bind_ok, Cgen.throw_ok,
      Cgen.pure_ok] at hok

/-- C19 at concrete nodes: an interval plus an integer casts the right value
and runs integer arithmetic; an integer plus a decimal aborts. -/
theorem codegenArith_operand_compatibility_witness :
    codegenArith exampleContext exampleCodeGenerator
        (binOperOf .kPLUS (intervalType true) (intType 8 true)) ⟨true⟩
      = (withOperands exampleCodeGenerator
          (binOperOf .kPLUS (intervalType true) (intType 8 true)) ⟨true⟩
          fun lhs_lv rhs_lv => do
            let rhs_lv ← exampleCodeGenerator.codegenCastBetweenIntTypes rhs_lv
              (binOperOf .kPLUS (intervalType true) (intType 8 true)).right_operand.get_type_info
              (binOperOf .kPLUS (intervalType true) (intType 8 true)).left_operand.get_type_info
              exampleCodeGenerator.cast_upscale
            codegenIntArith exampleContext exampleCodeGenerator
              (binOperOf .kPLUS (intervalType true) (intType 8 true)) lhs_lv rhs_lv ⟨true⟩) ∧
    abortsFrom
        (codegenArith exampleContext exampleCodeGenerator
          (binOperOf .kPLUS (intType 8 true) (decimalType 2 true)) ⟨true⟩) CgenState.fresh :=
  ⟨(codegenArith_operand_compatibility exampleContext exampleCodeGenerator
      (binOperOf .kPLUS (intervalType true) (intType 8 true)) ⟨true⟩ (by decide)).1 (by decide),
   (codegenArith_operand_compatibility exampleContext exampleCodeGenerator
      (binOperOf .kPLUS (intType 8 true) (decimalType 2 true)) ⟨true⟩ (by decide)).2.2.1
      (by decide) (by decide) (by decide) CgenState.fresh⟩

/-! ### Columnar strategy: unsupported operand types -/

/-- With a decimal or time-interval left operand the columnar lowering raises
the compile-time "unsupported" exception. -/
theorem codegenArithFun_lhs_unsupported (X : Context) (bin_oper : Analyzer.BinOper)
    (co : CompilationOptions) (lcv rcv : CodegenColValues)
    (harith : IS_ARITHMETIC bin_oper.optype = true)
    (hl : bin_oper.left_operand.get_type_info.is_decimal = true ∨
      bin_oper.left_operand.get_type_info.is_timeinterval = true) :
    loweringError
        (codegenArithFun X (loweredOperands bin_oper.left_operand lcv rcv) bin_oper co)
      = some (.compileException
          "Decimal and TimeInterval are not supported in arithmetic codegen now.") := by
  have h : (bin_oper.left_operand.get_type_info.is_decimal ||
      bin_oper.left_operand.get_type_info.is_timeinterval) = true := by
    rcases hl with h | h <;> simp [h]
  simp [loweringError, codegenArithFun, CHECK, harith, loweredOperands, h, bind, StateT.bind,
    Except.bind, pure, StateT.pure, Except.pure, throw, throwThe, MonadExceptOf.throw,
    StateT.lift]

/-- C20, the behaviour of the code when only the right operand is of a decimal
or time-interval type: the columnar lowering does not raise the "unsupported"
exception; it aborts on the failed equality check of the two operand kinds. -/
theorem codegenArithFun_rhs_unsupported_is_check_failure (X : Context)
    (bin_oper : Analyzer.BinOper) (co : CompilationOptions) (lcv rcv : CodegenColValues)
    (harith : IS_ARITHMETIC bin_oper.optype = true)
    (hl : bin_oper.left_operand.get_type_info.is_decimal = false ∧
      bin_oper.left_operand.get_type_info.is_timeinterval = false)
    (hr : bin_oper.right_operand.get_type_info.is_decimal = true ∨
      bin_oper.right_operand.get_type_info.is_timeinterval = true) :
    loweringError
        (codegenArithFun X (loweredOperands bin_oper.left_operand lcv rcv) bin_oper co)
      = some (.checkFailed "lhs_type.get_type() == rhs_type.get_type()") := by
  have hne : (bin_oper.left_operand.get_type_info.type
      == bin_oper.right_operand.get_type_info.type) = false := by
    rw [Bool.eq_false_iff]
    intro h
    have h2 := eq_of_beq h
    simp [SQLTypeInfo.is_decimal, SQLTypeInfo.is_timeinterval, ← h2] at hl hr
    rcases hr with h3 | h3 | h3
    · exact hl.1 h3
    · exact hl.2.1 h3
    · exact hl.2.2 h3
  simp [loweringError, codegenArithFun, CHECK, harith, loweredOperands, hl.1, hl.2, hne, bind,
    StateT.bind, Except.bind, pure, StateT.pure, Except.pure, throw, throwThe,
    MonadExceptOf.throw, StateT.lift]

/-- C20 at a concrete node: a `BIGINT` column plus a day-time interval column
aborts on the failed check, not with the "unsupported" exception. -/
theorem codegenArithFun_rhs_unsupported_is_check_failure_witness :
    loweringError
        (codegenArithFun exampleContext
          (loweredOperands (.ColumnVar (intType 8 true) 1)
            (.fixedSize ⟨.arg 0 (.int 64), none⟩) (.fixedSize ⟨.arg 1 (.int 64), none⟩))
          (binOperOf .kPLUS (intType 8 true) (intervalType true)) ⟨true⟩)
      = some (.checkFailed "lhs_type.get_type() == rhs_type.get_type()") :=
  codegenArithFun_rhs_unsupported_is_check_failure exampleContext
    (binOperOf .kPLUS (intType 8 true) (intervalType true)) ⟨true⟩
    (.fixedSize ⟨.arg 0 (.int 64), none⟩) (.fixedSize ⟨.arg 1 (.int 64), none⟩) (by decide)
    ⟨by decide, by decide⟩ (Or.inr (by decide))

/-! ### Columnar strategy: division and modulo by zero -/

/-- With error checking enabled the columnar function lowers a divide or modulo
by `codegenArithWithDivZeroCheckForArrow` and attaches the given null flag. -/
theorem codegenFixedSizeColArithFun_checked_divmod (X : Context) (bin_oper : Analyzer.BinOper)
    (l r : FixedSizeColValues) (null : Option Operand)
    (hop : bin_oper.optype = .kDIVIDE ∨ bin_oper.optype = .kMODULO) :
    codegenFixedSizeColArithFun X bin_oper (.fixedSize l) (.fixedSize r) null true
      = (do
          let v ← codegenArithWithDivZeroCheckForArrow bin_oper l r
            (X.get_null_check_suffix bin_oper.left_operand.get_type_info
              bin_oper.right_operand.get_type_info)
            (if bin_oper.right_operand.get_type_info.is_timeinterval
              then bin_oper.right_operand.get_type_info
              else bin_oper.left_operand.get_type_info)
          pure (.fixedSize { value := v, null := null })) := by
  rcases hop with h | h <;>
  simp [codegenFixedSizeColArithFun, h, CodegenColValues.asFixedSize]

/-- The code of the columnar zero check with an empty null-check suffix: compare
the divisor with zero, divide in `div_ok`, return `ERR_DIV_BY_ZERO` in
`div_zero`. -/
theorem codegenArithWithDivZeroCheckForArrow_nonnull_code (bin_oper : Analyzer.BinOper)
    (hop : bin_oper.optype = .kDIVIDE ∨ bin_oper.optype = .kMODULO)
    (w : Nat) (ln rn : Option Operand) (ti : SQLTypeInfo) :
    codegenArithWithDivZeroCheckForArrow bin_oper ⟨.arg 0 (.int w), ln⟩ ⟨.arg 1 (.int w), rn⟩
        "" ti CgenState.fresh
      = .ok (.reg 1 (.int w),
          { blocks :=
              [⟨"entry",
                [.assign 0 (.icmp .ne (.arg 1 (.int w)) (.constInt (.int w) 0)),
                 .condBr (.reg 0 (.int 1)) 1 2]⟩,
               ⟨"div_ok",
                [.assign 1 (.bin (divModOp bin_oper.optype) (.arg 0 (.int w))
                   (.arg 1 (.int w)))]⟩,
               ⟨"div_zero", [.ret (.errCode .ERR_DIV_BY_ZERO)]⟩],
            insertPoint := 1, nextReg := 2 }) := by
  rcases hop with h | h <;>
  simp [codegenArithWithDivZeroCheckForArrow, h, Operand.getType, LType.isIntegerTy,
    LType.isFloatingPointTy, divModOp] <;> rfl

/-- The code of the columnar zero check with a null-check suffix when only the
left operand carries a null flag: the flag alone is the null-skip condition. -/
theorem codegenArithWithDivZeroCheckForArrow_lhs_flag_code (bin_oper : Analyzer.BinOper)
    (hop : bin_oper.optype = .kDIVIDE ∨ bin_oper.optype = .kMODULO)
    (w : Nat) (l : Operand) (ti : SQLTypeInfo) (sfx : String) (hs : sfx ≠ "") :
    codegenArithWithDivZeroCheckForArrow bin_oper ⟨.arg 0 (.int w), some l⟩
        ⟨.arg 1 (.int w), none⟩ sfx ti CgenState.fresh
      = .ok (.reg 1 (.int w),
          { blocks :=
              [⟨"entry", [.condBr l 1 2]⟩,
               ⟨"div_ok",
                [.assign 1 (.bin (divModOp bin_oper.optype) (.arg 0 (.int w))
                   (.arg 1 (.int w)))]⟩,
               ⟨"operands_not_null",
                [.assign 0 (.icmp .ne (.arg 1 (.int w)) (.constInt (.int w) 0)),
                 .condBr (.reg 0 (.int 1)) 1 3]⟩,
               ⟨"div_zero", [.ret (.errCode .ERR_DIV_BY_ZERO)]⟩],
            insertPoint := 1, nextReg := 2 }) := by
  rcases hop with h | h <;>
  simp [codegenArithWithDivZeroCheckForArrow, codegenSkipOverflowCheckForNullForArrow, deref,
    h, hs, Operand.getType, LType.isIntegerTy, LType.isFloatingPointTy, divModOp] <;> rfl

/-- The code of the columnar zero check with a null-check suffix when both
operands carry a null flag: the null-skip condition is the OR of the flags. -/
theorem codegenArithWithDivZeroCheckForArrow_both_flags_code (bin_oper : Analyzer.BinOper)
    (hop : bin_oper.optype = .kDIVIDE ∨ bin_oper.optype = .kMODULO)
    (w : Nat) (l r : Operand) (ti : SQLTypeInfo) (sfx : String) (hs : sfx ≠ "") :
    codegenArithWithDivZeroCheckForArrow bin_oper ⟨.arg 0 (.int w), some l⟩
        ⟨.arg 1 (.int w), some r⟩ sfx ti CgenState.fresh
      = .ok (.reg 2 (.int w),
          { blocks :=
              [⟨"entry",
                [.assign 0 (.bin .or l r),
                 .condBr (.reg 0 l.getType) 1 2]⟩,
               ⟨"div_ok",
                [.assign 2 (.bin (divModOp bin_oper.optype) (.arg 0 (.int w))
                   (.arg 1 (.int w)))]⟩,
               ⟨"operands_not_null",
                [.assign 1 (.icmp .ne (.arg 1 (.int w)) (.constInt (.int w) 0)),
                 .condBr (.reg 1 (.int 1)) 1 3]⟩,
               ⟨"div_zero", [.ret (.errCode .ERR_DIV_BY_ZERO)]⟩],
            insertPoint := 1, nextReg := 3 }) := by
  rcases hop with h | h <;>
  simp [codegenArithWithDivZeroCheckForArrow, codegenSkipOverflowCheckForNullForArrow, deref,
    h, hs, Operand.getType, LType.isIntegerTy, LType.isFloatingPointTy, divModOp] <;> rfl

/-- With a null-check suffix and no null flag on the left operand the columnar
zero check hands a null handle to the builder and lowering aborts. -/
theorem codegenArithWithDivZeroCheckForArrow_no_lhs_flag (bin_oper : Analyzer.BinOper)
    (lv rv : Operand) (rn : Option Operand) (ti : SQLTypeInfo)
    (sfx : String) (hs : sfx ≠ "") (s : CgenState) :
    codegenArithWithDivZeroCheckForArrow bin_oper ⟨lv, none⟩ ⟨rv, rn⟩ sfx ti s
      = .error .nullValue := by
  cases rn <;>
  simp [codegenArithWithDivZeroCheckForArrow, codegenSkipOverflowCheckForNullForArrow, deref,
    hs] <;>
  rfl

/-- What the columnar divide or modulo computes with error checking enabled on
non-null operands: `ERR_DIV_BY_ZERO` on a zero divisor, nothing defined for the
minimum divided by -1, and the native quotient or remainder otherwise. -/
theorem columnar_divmod_checked (X : Context) (rt : Runtime) (bin_oper : Analyzer.BinOper)
    (hop : bin_oper.optype = .kDIVIDE ∨ bin_oper.optype = .kMODULO)
    (w : Nat) (hw : 0 < w) (lp rp : Bool) (null : Option Operand)
    (hdef : X.get_null_check_suffix bin_oper.left_operand.get_type_info
              bin_oper.right_operand.get_type_info = "" ∨ lp = true)
    (a b : Int) :
    observe rt (argsOf [.int a, .int b, .bool false, .bool false])
        (valueOf (codegenFixedSizeColArithFun X bin_oper
          (.fixedSize ⟨.arg 0 (.int w), flagHandle lp 2⟩)
          (.fixedSize ⟨.arg 1 (.int w), flagHandle rp 3⟩) null true))
      = if b = 0 then some (.returns (.err .ERR_DIV_BY_ZERO))
        else if a = intMin w ∧ b = -1 then none
        else some (.yields (.int (divModResult bin_oper.optype a b))) := by
  rw [codegenFixedSizeColArithFun_checked_divmod X bin_oper _ _ null hop, valueOf_fixedSize]
  unfold observe
  have h0 := wrap_zero w hw
  by_cases hs : X.get_null_check_suffix bin_oper.left_operand.get_type_info
      bin_oper.right_operand.get_type_info = ""
  · rw [hs, codegenArithWithDivZeroCheckForArrow_nonnull_code bin_oper hop]
    rcases hop with h | h <;> by_cases hb : b = 0 <;>
    by_cases hq : a = intMin w ∧ b = -1 <;>
    simp [runCode, run, execInstrs, evalOp, evalOperand, evalBin, evalICmp, argsOf, Env.set,
      Operand.getType, h, h0, hb, hq, divModOp, divModResult]
  · have hlp : lp = true := by
      rcases hdef with h | h
      · exact absurd h hs
      · exact h
    subst hlp
    cases rp
    · simp only [flagHandle, if_true, Bool.false_eq_true, if_false]
      rw [codegenArithWithDivZeroCheckForArrow_lhs_flag_code bin_oper hop w _ _ _ hs]
      rcases hop with h | h <;> by_cases hb : b = 0 <;>
      by_cases hq : a = intMin w ∧ b = -1 <;>
      simp [runCode, run, execInstrs, evalOp, evalOperand, evalBin, evalICmp, argsOf, Env.set,
        Operand.getType, h, h0, hb, hq, divModOp, divModResult]
    · simp only [flagHandle, if_true]
      rw [codegenArithWithDivZeroCheckForArrow_both_flags_code bin_oper hop w _ _ _ _ hs]
      rcases hop with h | h <;> by_cases hb : b = 0 <;>
      by_cases hq : a = intMin w ∧ b = -1 <;>
      simp [runCode, run, execInstrs, evalOp, evalOperand, evalBin, evalICmp, argsOf, Env.set,
        Operand.getType, h, h0, hb, hq, divModOp, divModResult]

/-- With error checking disabled the columnar divide or modulo on integers is
the bare native instruction. -/
theorem codegenFixedSizeColArithFun_unchecked_divmod_code (X : Context)
    (bin_oper : Analyzer.BinOper)
    (hop : bin_oper.optype = .kDIVIDE ∨ bin_oper.optype = .kMODULO)
    (w : Nat) (ln rn null : Option Operand) :
    codegenFixedSizeColArithFun X bin_oper (.fixedSize ⟨.arg 0 (.int w), ln⟩)
        (.fixedSize ⟨.arg 1 (.int w), rn⟩) null false CgenState.fresh
      = .ok (.fixedSize ⟨.reg 0 (.int w), null⟩,
          { blocks :=
              [⟨"entry",
                [.assign 0 (.bin (divModOp bin_oper.optype) (.arg 0 (.int w))
                   (.arg 1 (.int w)))]⟩],
            insertPoint := 0, nextReg := 1 }) := by
  rcases hop with h | h <;>
  simp [codegenFixedSizeColArithFun, CodegenColValues.asFixedSize, h, Operand.getType,
    LType.isIntegerTy, divModOp] <;> rfl

/-- The two divide-by-zero policy flags never change what the columnar function
emits. -/
theorem codegenFixedSizeColArithFun_ignores_policy (X : Context) (bin_oper : Analyzer.BinOper)
    (lhs rhs : CodegenColValues) (null : Option Operand) (nec g_null g_inf : Bool) :
    codegenFixedSizeColArithFun
        { X with g_null_div_by_zero := g_null, g_inf_div_by_zero := g_inf } bin_oper lhs rhs
        null nec
      = codegenFixedSizeColArithFun X bin_oper lhs rhs null nec := rfl

/-- The columnar divide or modulo emits the zero check exactly when error
checking is enabled. -/
theorem columnar_divmod_zero_check_emitted (X : Context) (bin_oper : Analyzer.BinOper)
    (hop : bin_oper.optype = .kDIVIDE ∨ bin_oper.optype = .kMODULO)
    (w : Nat) (lp rp : Bool) (null : Option Operand)
    (hdef : X.get_null_check_suffix bin_oper.left_operand.get_type_info
              bin_oper.right_operand.get_type_info = "" ∨ lp = true) (nec : Bool) :
    (divSummary (valueOf (codegenFixedSizeColArithFun X bin_oper
        (.fixedSize ⟨.arg 0 (.int w), flagHandle lp 2⟩)
        (.fixedSize ⟨.arg 1 (.int w), flagHandle rp 3⟩) null nec))).map DivSummary.zeroCheck
      = some nec := by
  cases nec
  · simp [divSummary, valueOf, bind, StateT.bind, Except.bind,
      codegenFixedSizeColArithFun_unchecked_divmod_code X bin_oper hop w _ _ null,
      CodegenColValues.asFixedSize, pure, StateT.pure, Except.pure, usesZeroCheck,
      emitsReturnOf, allInstrs]
  · rw [codegenFixedSizeColArithFun_checked_divmod X bin_oper _ _ null hop, valueOf_fixedSize]
    unfold divSummary
    by_cases hs : X.get_null_check_suffix bin_oper.left_operand.get_type_info
        bin_oper.right_operand.get_type_info = ""
    · rw [hs, codegenArithWithDivZeroCheckForArrow_nonnull_code bin_oper hop]
      simp [usesZeroCheck, emitsReturnOf, allInstrs]
    · have hlp : lp = true := by
        rcases hdef with h | h
        · exact absurd h hs
        · exact h
      subst hlp
      cases rp
      · simp only [flagHandle, if_true, Bool.false_eq_true, if_false]
        rw [codegenArithWithDivZeroCheckForArrow_lhs_flag_code bin_oper hop w _ _ _ hs]
        simp [usesZeroCheck, emitsReturnOf, allInstrs]
      · simp only [flagHandle, if_true]
        rw [codegenArithWithDivZeroCheckForArrow_both_flags_code bin_oper hop w _ _ _ _ hs]
        simp [usesZeroCheck, emitsReturnOf, allInstrs]

/-- The code of the columnar zero check on floating value handles, in the three
configurations in which the null-skip condition is defined: empty null-check
suffix, both null flags, left null flag only. -/
theorem codegenArithWithDivZeroCheckForArrow_fp_code (bin_oper : Analyzer.BinOper)
    (hop : bin_oper.optype = .kDIVIDE ∨ bin_oper.optype = .kMODULO)
    (ty : LType) (hty : ty.isFloatingPointTy = true) (lp rp : Bool) (ti : SQLTypeInfo)
    (sfx : String) (hdef : sfx = "" ∨ lp = true) :
    codegenArithWithDivZeroCheckForArrow bin_oper ⟨.arg 0 ty, flagHandle lp 2⟩
        ⟨.arg 1 ty, flagHandle rp 3⟩ sfx ti CgenState.fresh
      = .ok (
          if sfx = "" then
            (.reg 1 ty,
              { blocks :=
                  [⟨"entry",
                    [.assign 0 (.fcmp .one (.arg 1 ty) (.constFP ty .zero)),
                     .condBr (.reg 0 (.int 1)) 1 2]⟩,
                   ⟨"div_ok",
                    [.assign 1 (.fbin (fdivModOp bin_oper.optype) (.arg 0 ty) (.arg 1 ty))]⟩,
                   ⟨"div_zero", [.ret (.errCode .ERR_DIV_BY_ZERO)]⟩],
                insertPoint := 1, nextReg := 2 })
          else if rp = true then
            (.reg 2 ty,
              { blocks :=
                  [⟨"entry",
                    [.assign 0 (.bin .or (.arg 2 (.int 1)) (.arg 3 (.int 1))),
                     .condBr (.reg 0 (.int 1)) 1 2]⟩,
                   ⟨"div_ok",
                    [.assign 2 (.fbin (fdivModOp bin_oper.optype) (.arg 0 ty) (.arg 1 ty))]⟩,
                   ⟨"operands_not_null",
                    [.assign 1 (.fcmp .one (.arg 1 ty) (.constFP ty .zero)),
                     .condBr (.reg 1 (.int 1)) 1 3]⟩,
                   ⟨"div_zero", [.ret (.errCode .ERR_DIV_BY_ZERO)]⟩],
                insertPoint := 1, nextReg := 3 })
          else
            (.reg 1 ty,
              { blocks :=
                  [⟨"entry", [.condBr (.arg 2 (.int 1)) 1 2]⟩,
                   ⟨"div_ok",
                    [.assign 1 (.fbin (fdivModOp bin_oper.optype) (.arg 0 ty) (.arg 1 ty))]⟩,
                   ⟨"operands_not_null",
                    [.assign 0 (.fcmp .one (.arg 1 ty) (.constFP ty .zero)),
                     .condBr (.reg 0 (.int 1)) 1 3]⟩,
                   ⟨"div_zero", [.ret (.errCode .ERR_DIV_BY_ZERO)]⟩],
                insertPoint := 1, nextReg := 2 })) := by
  by_cases hs : sfx = ""
  · subst hs
    cases ty <;> simp [LType.isFloatingPointTy] at hty <;>
    rcases hop with h | h <;>
    simp [codegenArithWithDivZeroCheckForArrow, h, Operand.getType, LType.isIntegerTy,
      LType.isFloatingPointTy, fdivModOp] <;> rfl
  · have hlp : lp = true := by
      rcases hdef with h | h
      · exact absurd h hs
      · exact h
    subst hlp
    cases rp <;>
    cases ty <;> simp [LType.isFloatingPointTy] at hty <;>
    rcases hop with h | h <;>
    simp [codegenArithWithDivZeroCheckForArrow, codegenSkipOverflowCheckForNullForArrow, deref,
      flagHandle, h, hs, Operand.getType, LType.isIntegerTy, LType.isFloatingPointTy,
      fdivModOp] <;> rfl

/-- What the columnar divide or modulo computes with error checking enabled on
non-null floating operands: `ERR_DIV_BY_ZERO` when the comparison `FCMP_ONE` of
the divisor with `0.0` fails, and the native quotient or remainder otherwise. -/
theorem columnar_fp_divmod_checked (X : Context) (rt : Runtime) (bin_oper : Analyzer.BinOper)
    (hop : bin_oper.optype = .kDIVIDE ∨ bin_oper.optype = .kMODULO)
    (ty : LType) (hty : ty.isFloatingPointTy = true) (lp rp : Bool) (null : Option Operand)
    (hdef : X.get_null_check_suffix bin_oper.left_operand.get_type_info
              bin_oper.right_operand.get_type_info = "" ∨ lp = true)
    (x y : Int) :
    observe rt (argsOf [.fp x, .fp y, .bool false, .bool false])
        (valueOf (codegenFixedSizeColArithFun X bin_oper
          (.fixedSize ⟨.arg 0 ty, flagHandle lp 2⟩)
          (.fixedSize ⟨.arg 1 ty, flagHandle rp 3⟩) null true))
      = some (if rt.fcmp .one y (rt.fconst .zero) = true
              then .yields (.fp (rt.fbin (fdivModOp bin_oper.optype) x y))
              else .returns (.err .ERR_DIV_BY_ZERO)) := by
  rw [codegenFixedSizeColArithFun_checked_divmod X bin_oper _ _ null hop, valueOf_fixedSize]
  unfold observe
  rw [codegenArithWithDivZeroCheckForArrow_fp_code bin_oper hop ty hty lp rp _ _ hdef]
  by_cases hs : X.get_null_check_suffix bin_oper.left_operand.get_type_info
      bin_oper.right_operand.get_type_info = ""
  · by_cases hc : rt.fcmp .one y (rt.fconst .zero) = true <;>
    simp [runCode, run, execInstrs, evalOp, evalOperand, argsOf, Env.set, hs, hc]
  · cases rp <;>
    by_cases hc : rt.fcmp .one y (rt.fconst .zero) = true <;>
    simp [runCode, run, execInstrs, evalOp, evalOperand, evalBin, argsOf, Env.set,
      Operand.getType, hs, hc]

/-- On floating value handles too the columnar divide or modulo emits the zero
check exactly when error checking is enabled. -/
theorem columnar_divmod_zero_check_emitted_fp (X : Context) (bin_oper : Analyzer.BinOper)
    (hop : bin_oper.optype = .kDIVIDE ∨ bin_oper.optype = .kMODULO)
    (ty : LType) (hty : ty.isFloatingPointTy = true) (lp rp : Bool) (null : Option Operand)
    (hdef : X.get_null_check_suffix bin_oper.left_operand.get_type_info
              bin_oper.right_operand.get_type_info = "" ∨ lp = true) (nec : Bool) :
    (divSummary (valueOf (codegenFixedSizeColArithFun X bin_oper
        (.fixedSize ⟨.arg 0 ty, flagHandle lp 2⟩)
        (.fixedSize ⟨.arg 1 ty, flagHandle rp 3⟩) null nec))).map DivSummary.zeroCheck
      = some nec := by
  cases nec
  · cases ty <;> simp [LType.isFloatingPointTy] at hty <;>
    rcases hop with h | h <;>
    simp [divSummary, valueOf, codegenFixedSizeColArithFun, CodegenColValues.asFixedSize, h,
      Operand.getType, LType.isIntegerTy, CreateFDiv, CreateFRem, emit, bind, StateT.bind,
      Except.bind, pure, StateT.pure, Except.pure, CgenState.fresh, appendInstr, usesZeroCheck,
      emitsReturnOf, allInstrs]
  · rw [codegenFixedSizeColArithFun_checked_divmod X bin_oper _ _ null hop, valueOf_fixedSize]
    unfold divSummary
    rw [codegenArithWithDivZeroCheckForArrow_fp_code bin_oper hop ty hty lp rp _ _ hdef]
    by_cases hs : X.get_null_check_suffix bin_oper.left_operand.get_type_info
        bin_oper.right_operand.get_type_info = ""
    · simp [hs, usesZeroCheck, emitsReturnOf, allInstrs]
    · cases rp <;> simp [hs, usesZeroCheck, emitsReturnOf, allInstrs]

/-- C21 (amended): the columnar divide and modulo check for a zero divisor when
error checking is enabled.  For every value of the two policy flags, every
lowering whose null-skip condition is defined (empty null-check suffix, or a
null flag on the left operand) and every pair of non-null operands, the code
generated with error checking enabled returns `ERR_DIV_BY_ZERO` when the
divisor is zero (for floating operands: when the comparison `FCMP_ONE` of the
divisor with `0.0` fails) and otherwise performs the native division or
remainder, whose result it yields; the policy flags never change the emitted
code; and the zero check is emitted exactly when the error-checking flag is
set. -/
theorem columnar_divmod_zero_check (X : Context) (rt : Runtime) (bin_oper : Analyzer.BinOper)
    (hop : bin_oper.optype = .kDIVIDE ∨ bin_oper.optype = .kMODULO)
    (lp rp : Bool) (null : Option Operand)
    (hdef : X.get_null_check_suffix bin_oper.left_operand.get_type_info
              bin_oper.right_operand.get_type_info = "" ∨ lp = true)
    (g_null g_inf : Bool) :
    (∀ (w : Nat) (a b : Int), 0 < w →
      observe rt (argsOf [.int a, .int b, .bool false, .bool false])
        (valueOf (codegenFixedSizeColArithFun
          { X with g_null_div_by_zero := g_null, g_inf_div_by_zero := g_inf } bin_oper
          (.fixedSize ⟨.arg 0 (.int w), flagHandle lp 2⟩)
          (.fixedSize ⟨.arg 1 (.int w), flagHandle rp 3⟩) null true))
        = if b = 0 then some (.returns (.err .ERR_DIV_BY_ZERO))
          else (evalBin (divModOp bin_oper.optype) (.int w) (.int a) (.int b)).map .yields) ∧
    (∀ (ty : LType) (x y : Int), ty.isFloatingPointTy = true →
      observe rt (argsOf [.fp x, .fp y, .bool false, .bool false])
        (valueOf (codegenFixedSizeColArithFun
          { X with g_null_div_by_zero := g_null, g_inf_div_by_zero := g_inf } bin_oper
          (.fixedSize ⟨.arg 0 ty, flagHandle lp 2⟩)
          (.fixedSize ⟨.arg 1 ty, flagHandle rp 3⟩) null true))
        = some (if rt.fcmp .one y (rt.fconst .zero) = true
                then .yields (.fp (rt.fbin (fdivModOp bin_oper.optype) x y))
                else .returns (.err .ERR_DIV_BY_ZERO))) ∧
    (∀ (lhs rhs : CodegenColValues) (nec : Bool),
      codegenFixedSizeColArithFun
          { X with g_null_div_by_zero := g_null, g_inf_div_by_zero := g_inf } bin_oper lhs rhs
          null nec
        = codegenFixedSizeColArithFun X bin_oper lhs rhs null nec) ∧
    (∀ (ty : LType) (nec : Bool), (ty.isIntegerTy = true ∨ ty.isFloatingPointTy = true) →
      (divSummary (valueOf (codegenFixedSizeColArithFun
          { X with g_null_div_by_zero := g_null, g_inf_div_by_zero := g_inf } bin_oper
          (.fixedSize ⟨.arg 0 ty, flagHandle lp 2⟩)
          (.fixedSize ⟨.arg 1 ty, flagHandle rp 3⟩) null nec))).map DivSummary.zeroCheck
        = some nec) := by
  simp only [codegenFixedSizeColArithFun_ignores_policy]
  refine ⟨fun w a b hw => ?_, fun ty x y hty => ?_, fun _ _ _ => trivial, fun ty nec hty => ?_⟩
  · rw [columnar_divmod_checked X rt bin_oper hop w hw lp rp null hdef a b]
    by_cases hb : b = 0
    · simp [hb]
    · by_cases hq : a = intMin w ∧ b = -1 <;>
      rcases hop with h | h <;>
      simp [hb, hq, h, divModOp, divModResult, evalBin]
  · exact columnar_fp_divmod_checked X rt bin_oper hop ty hty lp rp null hdef x y
  · rcases hty with hty | hty
    · cases ty <;> simp [LType.isIntegerTy] at hty
      exact columnar_divmod_zero_check_emitted X bin_oper hop _ lp rp null hdef nec
    · exact columnar_divmod_zero_check_emitted_fp X bin_oper hop ty hty lp rp null hdef nec

/-- C21 at concrete inputs: with error checking enabled and the null-mapping
policy set, the columnar `5 / 0` on 64-bit operands returns `ERR_DIV_BY_ZERO`
and `7 / 2` yields 3. -/
theorem columnar_divmod_zero_check_witness :
    observe exampleRuntime (argsOf [.int 5, .int 0, .bool false, .bool false])
        (valueOf (codegenFixedSizeColArithFun
          { exampleContext with g_null_div_by_zero := true, g_inf_div_by_zero := false }
          (binOperOf .kDIVIDE (intType 8 true) (intType 8 true))
          (.fixedSize ⟨.arg 0 (.int 64), flagHandle false 2⟩)
          (.fixedSize ⟨.arg 1 (.int 64), flagHandle false 3⟩) none true))
      = some (.returns (.err .ERR_DIV_BY_ZERO)) ∧
    observe exampleRuntime (argsOf [.int 7, .int 2, .bool false, .bool false])
        (valueOf (codegenFixedSizeColArithFun
          { exampleContext with g_null_div_by_zero := true, g_inf_div_by_zero := false }
          (binOperOf .kDIVIDE (intType 8 true) (intType 8 true))
          (.fixedSize ⟨.arg 0 (.int 64), flagHandle false 2⟩)
          (.fixedSize ⟨.arg 1 (.int 64), flagHandle false 3⟩) none true))
      = some (.yields (.int 3)) :=
  ⟨((columnar_divmod_zero_check exampleContext exampleRuntime
      (binOperOf .kDIVIDE (intType 8 true) (intType 8 true)) (Or.inl rfl)
      false false none (Or.inl rfl) true false).1 64 5 0 (by decide)).trans rfl,
   ((columnar_divmod_zero_check exampleContext exampleRuntime
      (binOperOf .kDIVIDE (intType 8 true) (intType 8 true)) (Or.inl rfl)
      false false none (Or.inl rfl) true false).1 64 7 2 (by decide)).trans (by decide)⟩

/-- C21 as written fails when error checking is disabled: the columnar `5 / 0`
reaches the native division, which has no defined result, and the emitted code
has no zero check. -/
theorem columnar_division_unchecked_counterexample :
    observe exampleRuntime (argsOf [.int 5, .int 0])
        (valueOf (codegenFixedSizeColArithFun exampleContext
          (binOperOf .kDIVIDE (intType 8 true) (intType 8 true))
          (.fixedSize ⟨.arg 0 (.int 64), none⟩) (.fixedSize ⟨.arg 1 (.int 64), none⟩) none
          false))
      = none ∧
    (divSummary (valueOf (codegenFixedSizeColArithFun exampleContext
        (binOperOf .kDIVIDE (intType 8 true) (intType 8 true))
        (.fixedSize ⟨.arg 0 (.int 64), none⟩) (.fixedSize ⟨.arg 1 (.int 64), none⟩) none
        false))).map DivSummary.zeroCheck = some false := by
  decide

/-! ### Floating-point arithmetic in the columnar strategy -/

/-- A floating-point type is not an integer type. -/
theorem is_fp_not_integer (ti : SQLTypeInfo) (h : ti.is_fp = true) : ti.is_integer = false := by
  cases hi : ti.is_integer
  · rfl
  · simp [is_integer_not_fp ti hi] at h

/-- A floating-point type is not a time-interval type. -/
theorem is_fp_not_timeinterval (ti : SQLTypeInfo) (h : ti.is_fp = true) :
    ti.is_timeinterval = false := by
  rcases ti with ⟨ty, nn, sz, sc⟩
  cases ty <;> simp_all [SQLTypeInfo.is_fp, SQLTypeInfo.is_timeinterval]

/-- C22: columnar floating-point add, subtract and multiply bypass overflow
checking.  For a floating-point left operand type and floating value handles,
with error checking enabled or disabled, `codegenFixedSizeColArithFun` emits
only the native floating operation in the entry block, attaches the given null
flag unchanged, evaluates no overflow primitive and has no exit returning
`ERR_OVERFLOW_OR_UNDERFLOW`. -/
theorem columnar_fp_arith_bypasses_overflow_check (X : Context) (bin_oper : Analyzer.BinOper)
    (hop : bin_oper.optype = .kPLUS ∨ bin_oper.optype = .kMINUS ∨ bin_oper.optype = .kMULTIPLY)
    (hfp : bin_oper.left_operand.get_type_info.is_fp = true)
    (ty : LType) (hty : ty.isFloatingPointTy = true) (ln rn null : Option Operand)
    (nec : Bool) :
    codegenFixedSizeColArithFun X bin_oper (.fixedSize ⟨.arg 0 ty, ln⟩)
        (.fixedSize ⟨.arg 1 ty, rn⟩) null nec CgenState.fresh
      = .ok (.fixedSize ⟨.reg 0 ty, null⟩,
          { blocks :=
              [⟨"entry",
                [.assign 0 (.fbin (fpArithOp bin_oper.optype) (.arg 0 ty) (.arg 1 ty))]⟩],
            insertPoint := 0, nextReg := 1 }) ∧
    overflowInstrumentation
        (codegenFixedSizeColArithFun X bin_oper (.fixedSize ⟨.arg 0 ty, ln⟩)
          (.fixedSize ⟨.arg 1 ty, rn⟩) null nec)
      = some (false, false) := by
  have hi := is_fp_not_integer _ hfp
  have hd := is_fp_not_decimal _ hfp
  have ht := is_fp_not_timeinterval _ hfp
  have hcode : codegenFixedSizeColArithFun X bin_oper (.fixedSize ⟨.arg 0 ty, ln⟩)
        (.fixedSize ⟨.arg 1 ty, rn⟩) null nec CgenState.fresh
      = .ok (.fixedSize ⟨.reg 0 ty, null⟩,
          { blocks :=
              [⟨"entry",
                [.assign 0 (.fbin (fpArithOp bin_oper.optype) (.arg 0 ty) (.arg 1 ty))]⟩],
            insertPoint := 0, nextReg := 1 }) := by
    cases ty <;> simp [LType.isFloatingPointTy] at hty <;>
    rcases hop with h | h | h <;> cases nec <;>
    simp [codegenFixedSizeColArithFun, CodegenColValues.asFixedSize, CHECK, h, hfp, hi, hd, ht,
      Operand.getType, LType.isIntegerTy, fpArithOp] <;> rfl
  refine ⟨hcode, ?_⟩
  unfold overflowInstrumentation
  rw [hcode]
  simp [allInstrs, evaluatesOverflowPrimitive, emitsReturnOf]

/-- C22 at a concrete node: a checked `DOUBLE` addition has no overflow
instrumentation. -/
theorem columnar_fp_arith_bypasses_overflow_check_witness :
    overflowInstrumentation
        (codegenFixedSizeColArithFun exampleContext
          (binOperOf .kPLUS (doubleType true) (doubleType true))
          (.fixedSize ⟨.arg 0 .double, none⟩) (.fixedSize ⟨.arg 1 .double, none⟩) none true)
      = some (false, false) :=
  (columnar_fp_arith_bypasses_overflow_check exampleContext
    (binOperOf .kPLUS (doubleType true) (doubleType true)) (Or.inl rfl) (by decide) .double rfl
    none none none true).2

/-! ### Unary minus -/

/-- The code `codegenUMinus` emits for a NOT NULL integer type: with error
checking, a comparison of the operand with the minimum of the type's width and
the negation in `uminus_ok`; without, the bare negation. -/
theorem codegenUMinus_int_code (X : Context) (G : CodeGenerator) (uoper : Analyzer.UOper)
    (nec : Bool) (w : Nat)
    (hop : uoper.optype = .kUMINUS) (hint : uoper.type_info.is_integer = true)
    (hnn : uoper.type_info.notnull = true)
    (hG : G.codegen uoper.operand true ⟨nec⟩ = pure (.arg 0 (.int w))) :
    codegenUMinus X G uoper ⟨nec⟩ CgenState.fresh
      = .ok (if nec then
          (.reg 1 (.int w),
            { blocks :=
                [⟨"entry",
                  [.assign 0 (.icmp .eq (.arg 0 (.int w))
                     (.constInt (.int w) (intMin (8 * uoper.type_info.size)))),
                   .condBr (.reg 0 (.int 1)) 2 1]⟩,
                 ⟨"uminus_ok", [.assign 1 (.neg (.arg 0 (.int w)))]⟩,
                 ⟨"uminus_fail", [.ret (.errCode .ERR_OVERFLOW_OR_UNDERFLOW)]⟩],
              insertPoint := 1, nextReg := 2 })
        else
          (.reg 0 (.int w),
            { blocks := [⟨"entry", [.assign 0 (.neg (.arg 0 (.int w)))]⟩],
              insertPoint := 0, nextReg := 1 })) := by
  have hfp := is_integer_not_fp _ hint
  have hA : ∀ i ty, (Operand.arg i ty).getType = ty := fun _ _ => rfl
  cases nec <;>
  simp [codegenUMinus, CHECK, hop, hint, hnn, hfp, hG, hA, deref, inlineIntMaxMin,
    getSExtValue] <;> rfl

/-- C23: legacy unary negation of a non-nullable signed integer `x` of width
`w`.  With error checking enabled the generated code returns
`ERR_OVERFLOW_OR_UNDERFLOW` if and only if `x` is the minimum `-2^(w-1)`, and
otherwise yields `-x`; with error checking disabled it never returns an error
and yields the wrapping negation, which maps the minimum to itself. -/
theorem legacy_uminus_overflow_iff (X : Context) (G : CodeGenerator) (rt : Runtime)
    (uoper : Analyzer.UOper) (w : Nat) (hw : 0 < w)
    (hop : uoper.optype = .kUMINUS) (hint : uoper.type_info.is_integer = true)
    (hnn : uoper.type_info.notnull = true) (hsize : 8 * uoper.type_info.size = w)
    (hG : ∀ co, G.codegen uoper.operand true co = pure (.arg 0 (.int w)))
    (x : Int) (hx : inRange w x) :
    observe rt (argsOf [.int x]) (codegenUMinus X G uoper ⟨true⟩)
      = some (if x = intMin w then .returns (.err .ERR_OVERFLOW_OR_UNDERFLOW)
              else .yields (.int (-x))) ∧
    observe rt (argsOf [.int x]) (codegenUMinus X G uoper ⟨false⟩)
      = some (.yields (.int (wrap w (-x)))) ∧
    wrap w (-(intMin w)) = intMin w := by
  refine ⟨?_, ?_, wrap_neg_intMin w hw⟩
  · unfold observe
    rw [codegenUMinus_int_code X G uoper true w hop hint hnn (hG _), hsize]
    have hm := wrap_intMin w hw
    by_cases h : x = intMin w
    · simp [runCode, run, execInstrs, evalOp, evalOperand, evalICmp, argsOf, Env.set,
        Operand.getType, hm, h]
    · have hneg : wrap w (-x) = -x := by
        apply wrap_of_inRange w hw
        unfold inRange intMin intMax at hx ⊢
        unfold intMin at h
        constructor <;> omega
      simp [runCode, run, execInstrs, evalOp, evalOperand, evalICmp, argsOf, Env.set,
        Operand.getType, hm, h, hneg]
  · unfold observe
    rw [codegenUMinus_int_code X G uoper false w hop hint hnn (hG _)]
    simp [runCode, run, execInstrs, evalOp, evalOperand, argsOf, Env.set, Operand.getType]

/-- C23 at a concrete input: negating the 32-bit minimum returns the overflow
error when checked, and the minimum itself when unchecked. -/
theorem legacy_uminus_overflow_iff_witness :
    observe exampleRuntime (argsOf [.int (intMin 32)])
        (codegenUMinus exampleContext exampleCodeGenerator (uminusOf (intType 4 true)) ⟨true⟩)
      = some (.returns (.err .ERR_OVERFLOW_OR_UNDERFLOW)) ∧
    observe exampleRuntime (argsOf [.int (intMin 32)])
        (codegenUMinus exampleContext exampleCodeGenerator (uminusOf (intType 4 true)) ⟨false⟩)
      = some (.yields (.int (wrap 32 (-(intMin 32))))) ∧
    wrap 32 (-(intMin 32)) = intMin 32 :=
  legacy_uminus_overflow_iff exampleContext exampleCodeGenerator exampleRuntime
    (uminusOf (intType 4 true)) 32 (by decide) rfl (by decide) rfl rfl (fun _ => rfl)
    (intMin 32) (by decide)

/-- The code `codegenUMinusFun` emits for a type that is not floating point: the
bare negation, whatever the compilation options. -/
theorem codegenUMinusFun_int_code (uoper : Analyzer.UOper) (co : CompilationOptions) (w : Nat)
    (null : Option Operand) (rcv : CodegenColValues)
    (hop : uoper.optype = .kUMINUS) (hfp : uoper.type_info.is_fp = false) :
    codegenUMinusFun
        (loweredOperands uoper.operand (.fixedSize ⟨.arg 0 (.int w), null⟩) rcv) uoper co
        CgenState.fresh
      = .ok (.fixedSize ⟨.reg 0 (.int w), null⟩,
          { blocks := [⟨"entry", [.assign 0 (.neg (.arg 0 (.int w)))]⟩],
            insertPoint := 0, nextReg := 1 }) := by
  simp [codegenUMinusFun, CHECK, hop, hfp, loweredOperands, CodegenColValues.asFixedSize]
  rfl

/-- C24, the behaviour of the code: with error checking enabled the columnar
unary negation of a non-null signed integer yields the wrapping negation and
never an error; the minimum of the width yields itself. -/
theorem columnar_uminus_wraps (rt : Runtime) (uoper : Analyzer.UOper) (w : Nat) (hw : 0 < w)
    (rcv : CodegenColValues)
    (hop : uoper.optype = .kUMINUS) (hint : uoper.type_info.is_integer = true) (x : Int) :
    observeCol rt (argsOf [.int x])
        (codegenUMinusFun
          (loweredOperands uoper.operand (.fixedSize ⟨.arg 0 (.int w), none⟩) rcv) uoper ⟨true⟩)
      = some (.yields (.int (wrap w (-x))) none) ∧
    (x = intMin w →
      observeCol rt (argsOf [.int x])
        (codegenUMinusFun
          (loweredOperands uoper.operand (.fixedSize ⟨.arg 0 (.int w), none⟩) rcv) uoper ⟨true⟩)
      = some (.yields (.int (intMin w)) none)) := by
  have hfp := is_integer_not_fp _ hint
  have h1 : observeCol rt (argsOf [.int x])
        (codegenUMinusFun
          (loweredOperands uoper.operand (.fixedSize ⟨.arg 0 (.int w), none⟩) rcv) uoper ⟨true⟩)
      = some (.yields (.int (wrap w (-x))) none) := by
    unfold observeCol
    rw [codegenUMinusFun_int_code uoper ⟨true⟩ w none rcv hop hfp]
    simp [runCode, run, execInstrs, evalOp, evalOperand, argsOf, Env.set, Operand.getType]
  refine ⟨h1, fun hx => ?_⟩
  rw [h1, hx, wrap_neg_intMin w hw]

/-- C24 at the failing input: the checked columnar negation of the 64-bit
minimum yields the minimum, not `ERR_OVERFLOW_OR_UNDERFLOW`. -/
theorem columnar_uminus_wraps_witness :
    observeCol exampleRuntime (argsOf [.int (intMin 64)])
        (codegenUMinusFun
          (loweredOperands (uminusOf (intType 8 true)).operand
            (.fixedSize ⟨.arg 0 (.int 64), none⟩) .other) (uminusOf (intType 8 true)) ⟨true⟩)
      = some (.yields (.int (intMin 64)) none) :=
  (columnar_uminus_wraps exampleRuntime (uminusOf (intType 8 true)) 64 (by decide) .other rfl
    (by decide) (intMin 64)).2 rfl

/-- For a floating-point type with error checking disabled `codegenUMinus`
emits no comparison with an integer constant and no overflow exit. -/
theorem codegenUMinus_fp_unchecked (X : Context) (G : CodeGenerator)
    (uoper : Analyzer.UOper) (ty : LType)
    (hop : uoper.optype = .kUMINUS) (hfp : uoper.type_info.is_fp = true)
    (hG : G.codegen uoper.operand true ⟨false⟩ = pure (.arg 0 ty)) :
    uminusInstrumentation (codegenUMinus X G uoper ⟨false⟩) = some (false, false) := by
  have hi := is_fp_not_integer _ hfp
  have hd := is_fp_not_decimal _ hfp
  have ht := is_fp_not_timeinterval _ hfp
  cases hnn : uoper.type_info.notnull <;>
  simp [uminusInstrumentation, codegenUMinus, CHECK, hop, hfp, hi, hd, ht, hnn, hG,
    CreateFNeg, emitCall, emit, bind, StateT.bind, Except.bind, pure, StateT.pure, Except.pure,
    CgenState.fresh, appendInstr, allInstrs, comparesWithIntegerConstant, emitsReturnOf,
    inlineFpNull]

/-- C25, the behaviour of the code: for a floating-point type with error
checking enabled `codegenUMinus` reads the minimum bound, which was never
chosen, and lowering does not complete. -/
theorem codegenUMinus_fp_checked_aborts (X : Context) (G : CodeGenerator)
    (uoper : Analyzer.UOper) (operand_lv : Operand)
    (hop : uoper.optype = .kUMINUS) (hfp : uoper.type_info.is_fp = true)
    (hG : G.codegen uoper.operand true ⟨true⟩ = pure operand_lv) :
    loweringError (codegenUMinus X G uoper ⟨true⟩) = some .nullValue := by
  have hi := is_fp_not_integer _ hfp
  have hd := is_fp_not_decimal _ hfp
  have ht := is_fp_not_timeinterval _ hfp
  cases hnn : uoper.type_info.notnull <;>
  simp [loweringError, codegenUMinus, CHECK, hop, hfp, hi, hd, ht, hnn, hG, deref,
    codegenSkipOverflowCheckForNull, codegenIsNullNumber, CreateFCmp, CreateCondBr,
    BasicBlock.Create, SetInsertPoint, emit, emitTerminator, bind, StateT.bind, Except.bind,
    pure, StateT.pure, Except.pure, throw, throwThe, MonadExceptOf.throw, StateT.lift]

/-- C25 at the failing input: the checked negation of a NOT NULL `DOUBLE`
column aborts on the undefined minimum bound. -/
theorem codegenUMinus_fp_checked_aborts_witness :
    loweringError
        (codegenUMinus exampleContext exampleFpCodeGenerator (uminusOf (doubleType true))
          ⟨true⟩)
      = some .nullValue :=
  codegenUMinus_fp_checked_aborts exampleContext exampleFpCodeGenerator
    (uminusOf (doubleType true)) (.arg 0 .double) rfl (by decide) rfl

/-! ### Batch stringifiers: the validity bitmap -/

/-- C27, the behaviour of the code: when the null-skip branch is emitted
(non-empty suffix) and the left operand carries no null flag, whether or not
the right operand carries one, both columnar helpers hand an undefined branch
condition to the builder and lowering aborts. -/
theorem columnar_null_skip_undefined_without_lhs_flag (X : Context)
    (bin_oper div_oper : Analyzer.BinOper) (lv rv : Operand) (rn : Option Operand) (ti : SQLTypeInfo)
    (sfx : String) (hs : sfx ≠ "") (s : CgenState) :
    codegenArithWithOverflowCheckForArrow X bin_oper ⟨lv, none⟩ ⟨rv, rn⟩ sfx ti s
      = .error .nullValue ∧
    codegenArithWithDivZeroCheckForArrow div_oper ⟨lv, none⟩ ⟨rv, rn⟩ sfx ti s
      = .error .nullValue :=
  ⟨codegenArithWithOverflowCheckForArrow_no_lhs_flag X bin_oper lv rv rn ti sfx hs s,
   codegenArithWithDivZeroCheckForArrow_no_lhs_flag div_oper lv rv rn ti sfx hs s⟩

/-- C27 at the failing input: only the right operand carries a null flag. -/
theorem columnar_null_skip_undefined_without_lhs_flag_witness :
    codegenArithWithOverflowCheckForArrow exampleContext
        (binOperOf .kPLUS (intType 8 true) (intType 8 false))
        ⟨.arg 0 (.int 64), none⟩ ⟨.arg 1 (.int 64), some (.arg 2 (.int 1))⟩ "_nullable"
        (intType 8 true) CgenState.fresh
      = .error .nullValue ∧
    codegenArithWithDivZeroCheckForArrow
        (binOperOf .kDIVIDE (intType 8 true) (intType 8 false))
        ⟨.arg 0 (.int 64), none⟩ ⟨.arg 1 (.int 64), some (.arg 2 (.int 1))⟩ "_nullable"
        (intType 8 true) CgenState.fresh
      = .error .nullValue :=
  columnar_null_skip_undefined_without_lhs_flag exampleContext
    (binOperOf .kPLUS (intType 8 true) (intType 8 false))
    (binOperOf .kDIVIDE (intType 8 true) (intType 8 false)) (.arg 0 (.int 64)) (.arg 1 (.int 64))
    (some (.arg 2 (.int 1))) (intType 8 true) "_nullable" (by decide) CgenState.fresh

/-! ### Division of the minimum by minus one -/

/-- The quotient of the `w`-bit minimum by -1 is not a `w`-bit value. -/
theorem tdiv_intMin_neg_one_not_inRange (w : Nat) :
    ¬ inRange w (Int.tdiv (intMin w) (-1)) := by
  have hM := two_pow_pos_int (w - 1)
  rw [Int.tdiv_neg, Int.tdiv_one]
  unfold inRange intMin intMax
  omega

/-- C28, the behaviour of the code: with error checking enabled, the legacy
fault-policy division and the columnar division of the `w`-bit minimum by -1
reach the native signed division, whose quotient is not representable in `w`
bits: the generated code neither reports an error nor yields a value. -/
theorem checked_division_min_by_minus_one_unguarded (X : Context) (rt : Runtime)
    (w : Nat) (hw : 0 < w) (ti : SQLTypeInfo) (hti : ti.is_integer = true)
    (hnull : X.g_null_div_by_zero = false) (upscale : Bool)
    (bin_oper : Analyzer.BinOper) (hop : bin_oper.optype = .kDIVIDE)
    (hsfx : X.get_null_check_suffix bin_oper.left_operand.get_type_info
              bin_oper.right_operand.get_type_info = "") (null : Option Operand) :
    observe rt (argsOf [.int (intMin w), .int (-1)])
        (codegenDiv X (.arg 0 (.int w)) (.arg 1 (.int w)) "" "" ti ⟨true⟩ upscale)
      = none ∧
    observe rt (argsOf [.int (intMin w), .int (-1), .bool false, .bool false])
        (valueOf (codegenFixedSizeColArithFun X bin_oper
          (.fixedSize ⟨.arg 0 (.int w), flagHandle false 2⟩)
          (.fixedSize ⟨.arg 1 (.int w), flagHandle false 3⟩) null true))
      = none ∧
    ¬ inRange w (Int.tdiv (intMin w) (-1)) := by
  refine ⟨?_, ?_, tdiv_intMin_neg_one_not_inRange w⟩
  · unfold observe
    rw [codegenDiv_fault_code X w ti hti hnull]
    have h0 := wrap_zero w hw
    simp [runCode, run, execInstrs, evalOp, evalOperand, evalBin, evalICmp, argsOf, Env.set,
      Operand.getType, h0]
  · rw [columnar_divmod_checked X rt bin_oper (Or.inl hop) w hw false false null (Or.inl hsfx)]
    simp

/-- C28 at the failing input on 32 bits. -/
theorem checked_division_min_by_minus_one_unguarded_witness :
    observe exampleRuntime (argsOf [.int (intMin 32), .int (-1)])
        (codegenDiv exampleContext (.arg 0 (.int 32)) (.arg 1 (.int 32)) "" "" (intType 4 true)
          ⟨true⟩ true)
      = none ∧
    observe exampleRuntime (argsOf [.int (intMin 32), .int (-1), .bool false, .bool false])
        (valueOf (codegenFixedSizeColArithFun exampleContext
          (binOperOf .kDIVIDE (intType 4 true) (intType 4 true))
          (.fixedSize ⟨.arg 0 (.int 32), flagHandle false 2⟩)
          (.fixedSize ⟨.arg 1 (.int 32), flagHandle false 3⟩) none true))
      = none ∧
    ¬ inRange 32 (Int.tdiv (intMin 32) (-1)) :=
  checked_division_min_by_minus_one_unguarded exampleContext exampleRuntime 32 (by decide)
    (intType 4 true) (by decide) rfl true (binOperOf .kDIVIDE (intType 4 true) (intType 4 true))
    rfl rfl none

/-! ### Legacy strategy: the boundary-comparison blocks are dead -/

/-- C29: the explicit boundary-comparison blocks of the legacy `codegenAdd`,
`codegenSub` and `codegenMul` are never emitted.  On operands of one LLVM type
and an integer, decimal or interval type, each function is
`codegenBinOpWithOverflowForCPU` when error checking is enabled, and the
unchecked operation when it is disabled: the native instruction for an empty
null-check suffix, the null-suffixed runtime call otherwise. -/
theorem legacy_arith_boundary_blocks_never_emitted (X : Context) (bin_oper : Analyzer.BinOper)
    (lhs_lv rhs_lv : Operand) (null_typename null_check_suffix : String) (ti : SQLTypeInfo)
    (downscale : Bool) (hty : lhs_lv.getType = rhs_lv.getType)
    (hti : (ti.is_integer || ti.is_decimal || ti.is_timeinterval) = true) :
    (codegenAdd X bin_oper lhs_lv rhs_lv null_typename null_check_suffix ti ⟨true⟩
        = codegenBinOpWithOverflowForCPU X bin_oper lhs_lv rhs_lv null_check_suffix ti ∧
      codegenAdd X bin_oper lhs_lv rhs_lv null_typename null_check_suffix ti ⟨false⟩
        = if null_check_suffix = "" then CreateAdd lhs_lv rhs_lv
          else emitCall ("add_" ++ null_typename ++ null_check_suffix)
            [lhs_lv, rhs_lv, llInt (X.inline_int_null_val ti)] lhs_lv.getType) ∧
    (codegenSub X bin_oper lhs_lv rhs_lv null_typename null_check_suffix ti ⟨true⟩
        = codegenBinOpWithOverflowForCPU X bin_oper lhs_lv rhs_lv null_check_suffix ti ∧
      codegenSub X bin_oper lhs_lv rhs_lv null_typename null_check_suffix ti ⟨false⟩
        = if null_check_suffix = "" then CreateSub lhs_lv rhs_lv
          else emitCall ("sub_" ++ null_typename ++ null_check_suffix)
            [lhs_lv, rhs_lv, llInt (X.inline_int_null_val ti)] lhs_lv.getType) ∧
    (codegenMul X bin_oper lhs_lv rhs_lv null_typename null_check_suffix ti ⟨true⟩ downscale
        = codegenBinOpWithOverflowForCPU X bin_oper lhs_lv rhs_lv null_check_suffix ti ∧
      codegenMul X bin_oper lhs_lv rhs_lv null_typename null_check_suffix ti ⟨false⟩ downscale
        = if null_check_suffix = "" then CreateMul lhs_lv rhs_lv
          else emitCall ("mul_" ++ null_typename ++ null_check_suffix)
            [lhs_lv, rhs_lv, llInt (X.inline_int_null_val ti)] lhs_lv.getType) := by
  have hti2 := hti
  simp only [Bool.or_eq_true] at hti2
  refine ⟨⟨codegenAdd_checked X bin_oper lhs_lv rhs_lv _ _ ti hty hti, ?_⟩,
    ⟨codegenSub_checked X bin_oper lhs_lv rhs_lv _ _ ti hty hti, ?_⟩,
    ⟨codegenMul_checked X bin_oper lhs_lv rhs_lv _ _ ti downscale hty hti, ?_⟩⟩
  · by_cases hs : null_check_suffix = "" <;>
    simp [codegenAdd, codegenAddTail, CHECK, hty, hti2, hs, inlineIntMaxMin]
  · by_cases hs : null_check_suffix = "" <;>
    simp [codegenSub, codegenSubTail, CHECK, hty, hti2, hs, inlineIntMaxMin]
  · by_cases hs : null_check_suffix = "" <;>
    simp [codegenMul, codegenMulTail, CHECK, hty, hti2, hs, inlineIntMaxMin]

/-- C29 at a concrete node: the unchecked addition of two NOT NULL 32-bit
values is the native add. -/
theorem legacy_arith_boundary_blocks_never_emitted_witness :
    codegenAdd exampleContext (binOperOf .kPLUS (intType 4 true) (intType 4 true))
        (.arg 0 (.int 32)) (.arg 1 (.int 32)) "" "" (intType 4 true) ⟨false⟩
      = if ("" : String) = "" then CreateAdd (.arg 0 (.int 32)) (.arg 1 (.int 32))
        else emitCall ("add_" ++ "" ++ "")
          [.arg 0 (.int 32), .arg 1 (.int 32),
            llInt (exampleContext.inline_int_null_val (intType 4 true))]
          (Operand.arg 0 (.int 32)).getType :=
  (legacy_arith_boundary_blocks_never_emitted exampleContext
    (binOperOf .kPLUS (intType 4 true) (intType 4 true)) (.arg 0 (.int 32)) (.arg 1 (.int 32))
    "" "" (intType 4 true) true rfl (by decide)).1.2

/-! ### Legacy strategy: null dividend and zero divisor -/

/-- The code of the legacy division under the fault policy for a nullable
integer type: the null skip precedes the zero check. -/
theorem codegenDiv_nullable_code (X : Context) (w : Nat) (ti : SQLTypeInfo)
    (hti : ti.is_integer = true) (hnull : X.g_null_div_by_zero = false)
    (nt sfx : String) (hn : nt ≠ "") (hs : sfx ≠ "") (upscale : Bool) :
    codegenDiv X (.arg 0 (.int w)) (.arg 1 (.int w)) nt sfx ti ⟨true⟩ upscale CgenState.fresh
      = .ok (.reg 4 (.int w),
          { blocks :=
              [⟨"entry",
                [.assign 0 (.icmp .eq (.arg 0 (.int w))
                   (.constInt (.int w) (X.inline_int_null_val ti))),
                 .assign 1 (.icmp .eq (.arg 1 (.int w))
                   (.constInt (.int w) (X.inline_int_null_val ti))),
                 .assign 2 (.bin .or (.reg 0 (.int 1)) (.reg 1 (.int 1))),
                 .condBr (.reg 2 (.int 1)) 1 2]⟩,
               ⟨"div_ok",
                [.assign 4 (.call ("div_" ++ nt ++ sfx)
                   [.arg 0 (.int w), .arg 1 (.int w),
                    .constInt (.int 64) (X.inline_int_null_val ti)])]⟩,
               ⟨"operands_not_null",
                [.assign 3 (.icmp .ne (.arg 1 (.int w)) (.constInt (.int w) 0)),
                 .condBr (.reg 3 (.int 1)) 1 3]⟩,
               ⟨"div_zero", [.ret (.errCode .ERR_DIV_BY_ZERO)]⟩],
            insertPoint := 1, nextReg := 5 }) := by
  have hd : ti.is_decimal = false := is_integer_not_decimal ti hti
  have hfp : ti.is_fp = false := is_integer_not_fp ti hti
  simp [codegenDiv, CHECK, hd, hfp, hnull, hn, hs, Operand.getType, LType.isIntegerTy,
    LType.isFloatingPointTy, codegenSkipOverflowCheckForNull, codegenIsNullNumber, llInt]
  rfl

/-- The code of the legacy modulo for a nullable integer type: the zero check
with no null skip before it. -/
theorem codegenMod_nullable_code (X : Context) (w : Nat) (ti : SQLTypeInfo)
    (hti : ti.is_integer = true) (nt sfx : String) (hn : nt ≠ "") :
    codegenMod X (.arg 0 (.int w)) (.arg 1 (.int w)) nt sfx ti ⟨true⟩ CgenState.fresh
      = .ok (.reg 1 (.int w),
          { blocks :=
              [⟨"entry",
                [.assign 0 (.icmp .ne (.arg 1 (.int w)) (.constInt (.int w) 0)),
                 .condBr (.reg 0 (.int 1)) 1 2]⟩,
               ⟨"mod_ok",
                [.assign 1 (.call ("mod_" ++ nt ++ sfx)
                   [.arg 0 (.int w), .arg 1 (.int w),
                    .constInt (.int 64) (X.inline_int_null_val ti)])]⟩,
               ⟨"mod_zero", [.ret (.errCode .ERR_DIV_BY_ZERO)]⟩],
            insertPoint := 1, nextReg := 2 }) := by
  simp [codegenMod, CHECK, hti, hn, Operand.getType, llInt]
  rfl

/-- C30, the behaviour of the code: for a nullable integer type with error
checking enabled and no mapping policy, on the null sentinel as dividend and 0
as divisor, `codegenMod` returns `ERR_DIV_BY_ZERO` while `codegenDiv` skips the
zero check and yields what the null-suffixed runtime function returns. -/
theorem legacy_div_mod_disagree_on_null_dividend (X : Context) (rt : Runtime) (w : Nat)
    (hw : 0 < w) (ti : SQLTypeInfo) (hti : ti.is_integer = true)
    (hnull : X.g_null_div_by_zero = false) (hN : inRange w (X.inline_int_null_val ti))
    (nt sfx : String) (hn : nt ≠ "") (hs : sfx ≠ "") (upscale : Bool) :
    observe rt (argsOf [.int (X.inline_int_null_val ti), .int 0])
        (codegenMod X (.arg 0 (.int w)) (.arg 1 (.int w)) nt sfx ti ⟨true⟩)
      = some (.returns (.err .ERR_DIV_BY_ZERO)) ∧
    observe rt (argsOf [.int (X.inline_int_null_val ti), .int 0])
        (codegenDiv X (.arg 0 (.int w)) (.arg 1 (.int w)) nt sfx ti ⟨true⟩ upscale)
      = (rt.call ("div_" ++ nt ++ sfx)
          [.int (X.inline_int_null_val ti), .int 0,
           .int (wrap 64 (X.inline_int_null_val ti))]).map .yields ∧
    observe rt (argsOf [.int (X.inline_int_null_val ti), .int 0])
        (codegenDiv X (.arg 0 (.int w)) (.arg 1 (.int w)) nt sfx ti ⟨true⟩ upscale)
      ≠ some (.returns (.err .ERR_DIV_BY_ZERO)) := by
  have hNw := wrap_of_inRange w hw _ hN
  have h0 := wrap_zero w hw
  have hdiv : observe rt (argsOf [.int (X.inline_int_null_val ti), .int 0])
        (codegenDiv X (.arg 0 (.int w)) (.arg 1 (.int w)) nt sfx ti ⟨true⟩ upscale)
      = (rt.call ("div_" ++ nt ++ sfx)
          [.int (X.inline_int_null_val ti), .int 0,
           .int (wrap 64 (X.inline_int_null_val ti))]).map .yields := by
    unfold observe
    rw [codegenDiv_nullable_code X w ti hti hnull nt sfx hn hs]
    cases hc : rt.call ("div_" ++ nt ++ sfx)
          [.int (X.inline_int_null_val ti), .int 0,
           .int (wrap 64 (X.inline_int_null_val ti))] <;>
    simp [runCode, run, execInstrs, evalOp, evalOperand, evalICmp, evalBin, evalArgs, argsOf,
      Env.set, Operand.getType, hNw, h0, hc]
  refine ⟨?_, hdiv, ?_⟩
  · unfold observe
    rw [codegenMod_nullable_code X w ti hti nt sfx hn]
    simp [runCode, run, execInstrs, evalOp, evalOperand, evalICmp, argsOf, Env.set,
      Operand.getType, h0]
  · rw [hdiv]
    cases rt.call ("div_" ++ nt ++ sfx)
          [.int (X.inline_int_null_val ti), .int 0,
           .int (wrap 64 (X.inline_int_null_val ti))] <;> simp

/-- C30 at the failing input on 32 bits, with a runtime that propagates the
null sentinel: the modulo returns `ERR_DIV_BY_ZERO`, the division yields null. -/
theorem legacy_div_mod_disagree_on_null_dividend_witness :
    observe nullPropagatingRuntime (argsOf [.int (intMin 32), .int 0])
        (codegenMod exampleContext (.arg 0 (.int 32)) (.arg 1 (.int 32)) "int32_t" "_nullable"
          (intType 4 false) ⟨true⟩)
      = some (.returns (.err .ERR_DIV_BY_ZERO)) ∧
    observe nullPropagatingRuntime (argsOf [.int (intMin 32), .int 0])
        (codegenDiv exampleContext (.arg 0 (.int 32)) (.arg 1 (.int 32)) "int32_t" "_nullable"
          (intType 4 false) ⟨true⟩ true)
      = some (.yields (.int (intMin 32))) ∧
    observe nullPropagatingRuntime (argsOf [.int (intMin 32), .int 0])
        (codegenDiv exampleContext (.arg 0 (.int 32)) (.arg 1 (.int 32)) "int32_t" "_nullable"
          (intType 4 false) ⟨true⟩ true)
      ≠ some (.returns (.err .ERR_DIV_BY_ZERO)) :=
  legacy_div_mod_disagree_on_null_dividend exampleContext nullPropagatingRuntime 32
    (by decide) (intType 4 false) (by decide) rfl (by decide) "int32_t" "_nullable"
    (by decide) (by decide) true

end BDTK
